import Mathlib

/-!
# Brutalist-Void: chunk generation and collision queries

A shallow embedding of `src/ArchitectureEngine.hpp` (`Hash`, `GenerateChunk` with its
local lambdas `AddCube` and `RecursiveSplit`) and of `CheckCollision` in `src/main.cpp`.

Numeric model.
* C++ `float` values are modelled by exact rationals `ℚ`: `+ - * /` are the field
  operations and decimal literals such as `0.38f` denote the decimal fraction.
* The definitions in the namespace `Binary32` repeat `Hash`, `RecursiveSplit`,
  `CheckCollision` and the integration of `UpdatePlayer` with every `float` operation
  rounded to binary32 (`binary32`: 24 significant bits, round to nearest, ties to even);
  they carry the statements whose truth depends on the rounding. Infinities, NaN and the
  exponent range are not modelled.
* C++ `int` values inside `Hash` are held as their 32-bit two's-complement bit
  pattern (a natural number below `2^32`); `+`, `*`, `<<`, `^` and `&` act on the
  pattern and wrap modulo `2^32`.
* The cast `(int)f` truncates toward zero; a value outside the `int` range (undefined in
  C++) is kept as the truncated integer, of which `Hash` uses the low 32 bits.
* `unsigned short` index values wrap modulo `2^16`.
-/

namespace BrutalistVoid

/-! ## Data model -/

/-- The raylib `Vector2` record. -/
structure Vector2 where
  x : ℚ
  y : ℚ
deriving DecidableEq

/-- The raylib `Vector3` record. -/
structure Vector3 where
  x : ℚ
  y : ℚ
  z : ℚ
deriving DecidableEq

/-- The raylib `BoundingBox` record: min corner and max corner. -/
structure BoundingBox where
  min : Vector3
  max : Vector3
deriving DecidableEq

/-- The local `struct Rect { float x, z, w, h; }` of `GenerateChunk`. -/
structure Rect where
  x : ℚ
  z : ℚ
  w : ℚ
  h : ℚ
deriving DecidableEq

/-- The raymath `Vector3Add`. -/
def Vector3Add (a b : Vector3) : Vector3 := ⟨a.x + b.x, a.y + b.y, a.z + b.z⟩

/-! ## Hash -/

/-- The C cast `(int)f` of a float: truncation toward zero. -/
def toInt (q : ℚ) : Int := if 0 ≤ q then ⌊q⌋ else ⌈q⌉

/-- The 32-bit two's-complement bit pattern of an `int`. -/
def intBits (n : Int) : Nat := (n % 4294967296).toNat

/-- The masked integer inside `Hash`:
`n = x + y*57 + z*141; n = (n << 13) ^ n;`
`(n * (n*n*15731 + 789221) + 1376312589) & 0x7fffffff`, with wrapping `int` arithmetic. -/
def hashBits (x y z : Int) : Nat :=
  let n : Nat := intBits (x + y * 57 + z * 141)
  let n : Nat := ((n <<< 13) % 4294967296) ^^^ n
  ((n * ((n * n * 15731 + 789221) % 4294967296) + 1376312589) % 4294967296) &&& 0x7fffffff

/-- The function `Hash(x, y, z)`: `1.0f - masked / 1073741824.0f`. -/
def Hash (x y z : Int) : ℚ := 1 - (hashBits x y z : ℚ) / 1073741824

/-! ## RecursiveSplit -/

/-- The lambda `RecursiveSplit(r, depth)` of `GenerateChunk`; the result is the list of
rectangles it pushes onto `blocks`, in push order. `depth` is the remaining depth, a
non-negative `int`. The test `abs(r.w - r.h) < 10.0f` has the same outcome for the `int`
and the `float` overload of `abs`, since truncation keeps a value below 10 below 10. -/
def RecursiveSplit (chunkPos : Vector3) : Rect → Nat → List Rect
  | r, 0 => [r]
  | r, depth + 1 =>
    if r.w < 30 ∨ r.h < 30 then [r]
    else
      let cx := r.x + r.w / 2 + chunkPos.x
      let cz := r.z + r.h / 2 + chunkPos.z
      let hSplit := Hash (toInt cx) (toInt cz) ((depth : Int) + 1)
      let splitX : Bool := if |r.w - r.h| < 10 then decide (hSplit > 0.5) else decide (r.w > r.h)
      let ratio := 0.38 + hSplit * 0.24
      let streetGap : ℚ := 6
      if splitX then
        let w1 := r.w * ratio
        let w2 := r.w * (1 - ratio)
        if w1 < 20 ∨ w2 < 20 then [r]
        else
          RecursiveSplit chunkPos ⟨r.x, r.z, w1 - streetGap / 2, r.h⟩ depth ++
            RecursiveSplit chunkPos ⟨r.x + w1 + streetGap / 2, r.z, w2 - streetGap / 2, r.h⟩ depth
      else
        let h1 := r.h * ratio
        let h2 := r.h * (1 - ratio)
        if h1 < 20 ∨ h2 < 20 then [r]
        else
          RecursiveSplit chunkPos ⟨r.x, r.z, r.w, h1 - streetGap / 2⟩ depth ++
            RecursiveSplit chunkPos ⟨r.x, r.z + h1 + streetGap / 2, r.w, h2 - streetGap / 2⟩ depth

/-- The tree of calls made by one run of `RecursiveSplit`: a call either pushes its
rectangle or makes two nested calls. -/
inductive SplitCall where
  | push (r : Rect) : SplitCall
  | nest (r : Rect) (first second : SplitCall) : SplitCall

/-- The rectangles pushed by a call tree, in call order. -/
def SplitCall.blocks : SplitCall → List Rect
  | .push r => [r]
  | .nest _ a b => a.blocks ++ b.blocks

/-- The number of nested recursive calls below the root call. -/
def SplitCall.levels : SplitCall → Nat
  | .push _ => 0
  | .nest _ a b => max a.levels b.levels + 1

/-- The call tree of `RecursiveSplit(r, depth)`: the same body as `RecursiveSplit`, recording
each `blocks.push_back(r)` as a `push` and each pair of recursive calls as a `nest`. -/
def RecursiveSplitCalls (chunkPos : Vector3) : Rect → Nat → SplitCall
  | r, 0 => .push r
  | r, depth + 1 =>
    if r.w < 30 ∨ r.h < 30 then .push r
    else
      let cx := r.x + r.w / 2 + chunkPos.x
      let cz := r.z + r.h / 2 + chunkPos.z
      let hSplit := Hash (toInt cx) (toInt cz) ((depth : Int) + 1)
      let splitX : Bool := if |r.w - r.h| < 10 then decide (hSplit > 0.5) else decide (r.w > r.h)
      let ratio := 0.38 + hSplit * 0.24
      let streetGap : ℚ := 6
      if splitX then
        let w1 := r.w * ratio
        let w2 := r.w * (1 - ratio)
        if w1 < 20 ∨ w2 < 20 then .push r
        else
          .nest r (RecursiveSplitCalls chunkPos ⟨r.x, r.z, w1 - streetGap / 2, r.h⟩ depth)
            (RecursiveSplitCalls chunkPos
              ⟨r.x + w1 + streetGap / 2, r.z, w2 - streetGap / 2, r.h⟩ depth)
      else
        let h1 := r.h * ratio
        let h2 := r.h * (1 - ratio)
        if h1 < 20 ∨ h2 < 20 then .push r
        else
          .nest r (RecursiveSplitCalls chunkPos ⟨r.x, r.z, r.w, h1 - streetGap / 2⟩ depth)
            (RecursiveSplitCalls chunkPos
              ⟨r.x, r.z + h1 + streetGap / 2, r.w, h2 - streetGap / 2⟩ depth)

/-- The root rectangle of `GenerateChunk`: `{-200.0f, -200.0f, 400.0f, 400.0f}`. -/
def rootRect : Rect := ⟨-200, -200, 400, 400⟩

/-- The leaf blocks of a chunk: `RecursiveSplit({-200, -200, 400, 400}, 6)`. -/
def chunkBlocks (chunkPos : Vector3) : List Rect := RecursiveSplit chunkPos rootRect 6

/-- Rectangle `a` lies inside rectangle `r` (edges may touch). -/
def Rect.inside (a r : Rect) : Prop :=
  r.x ≤ a.x ∧ a.x + a.w ≤ r.x + r.w ∧ r.z ≤ a.z ∧ a.z + a.h ≤ r.z + r.h

/-- Rectangles `a` and `b` share a point (touching edges count as sharing). -/
def Rect.overlaps (a b : Rect) : Prop :=
  a.x ≤ b.x + b.w ∧ b.x ≤ a.x + a.w ∧ a.z ≤ b.z + b.h ∧ b.z ≤ a.z + a.h

/-! ## AddCube -/

/-- The local buffers of `GenerateChunk` that the lambda `AddCube` appends to, together
with `chunk.colliders`. `indices` holds `unsigned short` values. -/
structure Buffers where
  vertices : List Vector3
  normals : List Vector3
  texcoords : List Vector2
  indices : List Nat
  currentVertexCount : Int
  colliders : List BoundingBox
deriving DecidableEq

/-- The buffers at the start of `GenerateChunk`: all empty, `currentVertexCount = 0`. -/
def Buffers.start : Buffers := ⟨[], [], [], [], 0, []⟩

/-- The array `v[]` of `AddCube`: the 24 corners of the six faces, for half extents
`x`, `y`, `z`. -/
def cubeVertices (x y z : ℚ) : List Vector3 :=
  [ -- Front
    ⟨-x, -y, z⟩, ⟨x, -y, z⟩, ⟨x, y, z⟩, ⟨-x, y, z⟩,
    -- Back
    ⟨-x, -y, -z⟩, ⟨-x, y, -z⟩, ⟨x, y, -z⟩, ⟨x, -y, -z⟩,
    -- Top
    ⟨-x, y, -z⟩, ⟨-x, y, z⟩, ⟨x, y, z⟩, ⟨x, y, -z⟩,
    -- Bottom
    ⟨-x, -y, -z⟩, ⟨x, -y, -z⟩, ⟨x, -y, z⟩, ⟨-x, -y, z⟩,
    -- Right
    ⟨x, -y, -z⟩, ⟨x, y, -z⟩, ⟨x, y, z⟩, ⟨x, -y, z⟩,
    -- Left
    ⟨-x, -y, -z⟩, ⟨-x, -y, z⟩, ⟨-x, y, z⟩, ⟨-x, y, -z⟩ ]

/-- The array `n[]` of `AddCube`: one normal per vertex. -/
def cubeNormals : List Vector3 :=
  [ ⟨0, 0, 1⟩, ⟨0, 0, 1⟩, ⟨0, 0, 1⟩, ⟨0, 0, 1⟩, ⟨0, 0, -1⟩,
    ⟨0, 0, -1⟩, ⟨0, 0, -1⟩, ⟨0, 0, -1⟩, ⟨0, 1, 0⟩, ⟨0, 1, 0⟩,
    ⟨0, 1, 0⟩, ⟨0, 1, 0⟩, ⟨0, -1, 0⟩, ⟨0, -1, 0⟩, ⟨0, -1, 0⟩,
    ⟨0, -1, 0⟩, ⟨1, 0, 0⟩, ⟨1, 0, 0⟩, ⟨1, 0, 0⟩, ⟨1, 0, 0⟩,
    ⟨-1, 0, 0⟩, ⟨-1, 0, 0⟩, ⟨-1, 0, 0⟩, ⟨-1, 0, 0⟩ ]

/-- The array `ind[]` of `AddCube`: two triangles per face. -/
def cubeIndices : List Int :=
  [ 0, 1, 2, 0, 2, 3, 4, 5, 6, 4, 6, 7,
    8, 9, 10, 8, 10, 11, 12, 13, 14, 12, 14, 15,
    16, 17, 18, 16, 18, 19, 20, 21, 22, 20, 22, 23 ]

/-- Storing an `int` into an `unsigned short`: the value modulo `2^16`. -/
def toUShort (n : Int) : Nat := (n % 65536).toNat

/-- The lambda `AddCube(pos, size)`: pushes one collider, 24 vertices, normals and
texture coordinates, 36 indices offset by `currentVertexCount`, and advances
`currentVertexCount` by 24. -/
def AddCube (st : Buffers) (pos size : Vector3) : Buffers :=
  let x := size.x / 2
  let y := size.y / 2
  let z := size.z / 2
  { colliders := st.colliders ++
      [⟨⟨pos.x - size.x / 2, pos.y - size.y / 2, pos.z - size.z / 2⟩,
        ⟨pos.x + size.x / 2, pos.y + size.y / 2, pos.z + size.z / 2⟩⟩]
    vertices := st.vertices ++ (cubeVertices x y z).map (fun v => Vector3Add v pos)
    normals := st.normals ++ cubeNormals
    texcoords := st.texcoords ++ List.replicate 24 ⟨0, 0⟩
    indices := st.indices ++ cubeIndices.map (fun i => toUShort (st.currentVertexCount + i))
    currentVertexCount := st.currentVertexCount + 24 }

/-! ## The archetype loop of GenerateChunk

`AddCube` only appends to the buffers and nothing reads them before the mesh is built, so
the loop body is embedded as the sequence of `AddCube(pos, size)` calls it makes for one
block; `GenerateChunk` then applies `AddCube` to the calls in order. Each call carries the
label of the section of the loop body it stands in (`S`, `A`, `B`, `C`, `D`/`W`). -/

/-- The sections of the loop body that call `AddCube`: S. statue, A. citadel, B. grid,
C. stairs, D. slab (with its wires W). -/
inductive Archetype where
  | statue
  | citadel
  | grid
  | stairs
  | slab
deriving DecidableEq

/-- One call `AddCube(pos, size)`, labelled with the section that makes it. -/
structure CubeCall where
  archetype : Archetype
  pos : Vector3
  size : Vector3
deriving DecidableEq

/-- The spawn-safety test `sqrt(cx * cx + cz * cz) < 25.0f`. The sum of squares is not
negative, so its square root is below 25 exactly when the sum is below `25 * 25`
(`spawnSafety_iff_sqrt`). -/
def spawnSafety (cx cz : ℚ) : Bool := decide (cx * cx + cz * cz < 25 * 25)

/-- Section S: the four `AddCube` calls of the statue. -/
def statueCalls (b : Rect) (cx cz baseHeight : ℚ) : List CubeCall :=
  let statueH := baseHeight * 1.5
  [ -- Base/Legs
    ⟨.statue, ⟨cx, statueH * 0.2, cz⟩, ⟨b.w * 0.4, statueH * 0.4, b.h * 0.4⟩⟩,
    -- Torso
    ⟨.statue, ⟨cx, statueH * 0.6, cz⟩, ⟨b.w * 0.25, statueH * 0.4, b.h * 0.25⟩⟩,
    -- Head
    ⟨.statue, ⟨cx, statueH * 0.9, cz + b.h * 0.05⟩, ⟨b.w * 0.2, statueH * 0.2, b.h * 0.3⟩⟩,
    -- Wires hanging from statue
    ⟨.statue, ⟨cx + b.w * 0.15, statueH * 0.8, cz⟩, ⟨0.1, statueH * 0.5, 0.1⟩⟩ ]

/-- Section A: the two `AddCube` calls of the citadel (main mass, recessed top). -/
def citadelCalls (chunkPos : Vector3) (b : Rect) (baseHeight : ℚ) : List CubeCall :=
  [ ⟨.citadel, ⟨b.x + b.w / 2 + chunkPos.x, baseHeight / 2, b.z + b.h / 2 + chunkPos.z⟩,
      ⟨b.w, baseHeight, b.h⟩⟩,
    ⟨.citadel, ⟨b.x + b.w / 2 + chunkPos.x, baseHeight + 5, b.z + b.h / 2 + chunkPos.z⟩,
      ⟨b.w * 0.6, 10, b.h * 0.6⟩⟩ ]

/-- Section B: the pillar grid, one pillar per cell and a sky street after a pillar when
the hash allows it and the column is not the last. -/
def gridCalls (chunkPos : Vector3) (b : Rect) (baseHeight : ℚ) : List CubeCall :=
  let cols0 : Int := toInt (b.w / 12)
  let rows0 : Int := toInt (b.h / 12)
  let cols : Int := if cols0 = 0 then 1 else cols0
  let rows : Int := if rows0 = 0 then 1 else rows0
  let sx : ℚ := b.w / (cols : ℚ)
  let sz : ℚ := b.h / (rows : ℚ)
  (List.range cols.toNat).flatMap fun (i : Nat) =>
    (List.range rows.toNat).flatMap fun (j : Nat) =>
      let px : ℚ := b.x + chunkPos.x + (i : ℚ) * sx + sx / 2
      let pz : ℚ := b.z + chunkPos.z + (j : ℚ) * sz + sz / 2
      let pHeight : ℚ := baseHeight * (0.8 + Hash (toInt px) 1 (toInt pz) * 0.4)
      let py : ℚ := pHeight / 2
      ⟨.grid, ⟨px, py, pz⟩, ⟨4, pHeight, 4⟩⟩ ::
        (if Hash (toInt px) 9 (toInt pz) > 0.7 ∧ (i : Int) < cols - 1 then
          [⟨.grid, ⟨px + sx / 2, pHeight - 4, pz⟩, ⟨sx, 1.5, 5⟩⟩]
        else [])

/-- Section C: the fifteen steps of the stairs. -/
def stairsCalls (b : Rect) (cx cz : ℚ) : List CubeCall :=
  let steps : Nat := 15
  let sh : ℚ := 0.5
  (List.range steps).map fun (s : Nat) =>
    ⟨.stairs, ⟨cx, (s : ℚ) * sh + sh / 2, cz⟩, ⟨b.w, sh, b.h - (s : ℚ) * (b.h / (steps : ℚ))⟩⟩

/-- Sections D and W: the slab, then the cables hanging from it. -/
def slabCalls (b : Rect) (cx cz baseHeight : ℚ) : List CubeCall :=
  let hWire := Hash (toInt cx) 99 (toInt cz)
  ⟨.slab, ⟨cx, baseHeight / 4, cz⟩, ⟨b.w, baseHeight / 2, b.h⟩⟩ ::
    (if hWire > 0.5 then
      let cableCount : Int := toInt (hWire * 5)
      (List.range cableCount.toNat).flatMap fun (k : Nat) =>
        let wx : ℚ := cx + (Hash (toInt cx) (k : Int) 100 - 0.5) * b.w
        let wz : ℚ := cz + (Hash (toInt cz) (k : Int) 200 - 0.5) * b.h
        let wy : ℚ := baseHeight * (0.8 + Hash (k : Int) 1 300 * 0.2)
        let len : ℚ := 15 + Hash (toInt wx) (toInt wz) (k : Int) * 40
        ⟨.slab, ⟨wx, wy - len / 2, wz⟩, ⟨0.15, len, 0.15⟩⟩ ::
          (if k % 2 = 0 then
            [⟨.slab, ⟨wx, wy - len * 0.2, wz⟩, ⟨len * 0.5, 0.1, 0.1⟩⟩]
          else [])
    else [])

/-- The body of the loop `for (const auto &b : blocks)`: the `AddCube` calls made for
block `b`, in order. Each `continue` ends the body. -/
def blockCalls (chunkPos : Vector3) (b : Rect) : List CubeCall :=
  let cx := b.x + b.w / 2 + chunkPos.x
  let cz := b.z + b.h / 2 + chunkPos.z
  -- Spawn Safety
  if spawnSafety cx cz then []
  else
    let hBlock := Hash (toInt cx) 42 (toInt cz)
    let baseHeight := 20 + hBlock * 100
    let hType := Hash (toInt cx) 55 (toInt cz)
    if hType > 0.92 ∧ b.w > 20 ∧ b.h > 20 then statueCalls b cx cz baseHeight
    else if b.w > 60 ∧ b.h > 60 then citadelCalls chunkPos b baseHeight
    else if hType > 0.4 then gridCalls chunkPos b baseHeight
    else if hType < 0.2 then stairsCalls b cx cz
    else slabCalls b cx cz baseHeight

/-- Applying `AddCube` to a sequence of calls, in order. -/
def emit (st : Buffers) (calls : List CubeCall) : Buffers :=
  calls.foldl (fun s c => AddCube s c.pos c.size) st

/-! ## GenerateChunk -/

/-- The raylib `Mesh` fields that `GenerateChunk` fills. -/
structure Mesh where
  vertexCount : Int
  triangleCount : Int
  vertices : List ℚ
  normals : List ℚ
  texcoords : List ℚ
  indices : List Nat
deriving DecidableEq

/-- The `Chunk` record; `model` is the mesh handed to `LoadModelFromMesh`. -/
structure Chunk where
  position : Vector3
  model : Mesh
  colliders : List BoundingBox
  active : Bool
deriving DecidableEq

/-- All `AddCube` calls of `GenerateChunk(chunkPos)`: the calls of each leaf block, in
block order. -/
def chunkCalls (chunkPos : Vector3) : List CubeCall :=
  (chunkBlocks chunkPos).flatMap (blockCalls chunkPos)

/-- The buffers of `GenerateChunk(chunkPos)` when the loop over the blocks has ended. -/
def chunkBuffers (chunkPos : Vector3) : Buffers := emit Buffers.start (chunkCalls chunkPos)

/-- The section "Construct Mesh": counts and flat copies of the buffers. -/
def constructMesh (st : Buffers) : Mesh :=
  { vertexCount := st.vertices.length
    triangleCount := (st.indices.length : Int) / 3
    vertices := st.vertices.flatMap fun v => [v.x, v.y, v.z]
    normals := st.normals.flatMap fun n => [n.x, n.y, n.z]
    texcoords := st.texcoords.flatMap fun t => [t.x, t.y]
    indices := st.indices }

/-- The function `BrutalistEngine::GenerateChunk(chunkPos)`. -/
def GenerateChunk (chunkPos : Vector3) : Chunk :=
  let st := chunkBuffers chunkPos
  { position := chunkPos
    model := constructMesh st
    colliders := st.colliders
    active := true }

/-! ## CheckCollision -/

/-- Modelled from the spec: raymath's `Vector3Distance` is library code that is not part
of `src/`; the spec (4.6) has the broad phase skip a chunk "whose origin is farther than
a fixed radius (300 units) from the query's center". This is the square of that
distance, the sum of the squared coordinate differences. -/
def Vector3DistanceSqr (v1 v2 : Vector3) : ℚ :=
  (v2.x - v1.x) * (v2.x - v1.x) + (v2.y - v1.y) * (v2.y - v1.y) +
    (v2.z - v1.z) * (v2.z - v1.z)

/-- The test `Vector3Distance(v1, v2) > d` for a radius `d ≥ 0`, decided on the squares
(`distanceExceeds_iff_sqrt`). -/
def distanceExceeds (v1 v2 : Vector3) (d : ℚ) : Bool := decide (Vector3DistanceSqr v1 v2 > d * d)

/-- Two closed intervals `[lo₁, hi₁]` and `[lo₂, hi₂]` meet. -/
def intervalsMeet (lo₁ hi₁ lo₂ hi₂ : ℚ) : Prop := lo₁ ≤ hi₂ ∧ lo₂ ≤ hi₁

instance (lo₁ hi₁ lo₂ hi₂ : ℚ) : Decidable (intervalsMeet lo₁ hi₁ lo₂ hi₂) := by
  unfold intervalsMeet
  infer_instance

/-- Modelled from the spec: raylib's `CheckCollisionBoxes` is library code that is not
part of `src/`; the spec (4.6) describes it as the "standard axis-aligned box overlap
(true iff all three axis intervals overlap)". -/
def CheckCollisionBoxes (box1 box2 : BoundingBox) : Bool :=
  decide (intervalsMeet box1.min.x box1.max.x box2.min.x box2.max.x ∧
    intervalsMeet box1.min.y box1.max.y box2.min.y box2.max.y ∧
    intervalsMeet box1.min.z box1.max.z box2.min.z box2.max.z)

/-- The inner loop of `CheckCollision`: `return true` at the first collider that the
player box hits. -/
def hitsAnyBox (playerBox : BoundingBox) : List BoundingBox → Bool
  | [] => false
  | box :: rest => if CheckCollisionBoxes playerBox box then true else hitsAnyBox playerBox rest

/-- The outer loop of `CheckCollision`: a chunk farther than 300 is skipped (`continue`);
the function returns `true` at the first hit and `false` when the chunks are used up. -/
def scanChunks (playerBox : BoundingBox) (position : Vector3) : List Chunk → Bool
  | [] => false
  | chunk :: rest =>
    if distanceExceeds chunk.position position 300 then scanChunks playerBox position rest
    else if hitsAnyBox playerBox chunk.colliders then true
    else scanChunks playerBox position rest

/-- The function `CheckCollision(position, radius, height, chunks)` of `main.cpp`. -/
def CheckCollision (position : Vector3) (radius height : ℚ) (chunks : List Chunk) : Bool :=
  let playerBox : BoundingBox :=
    ⟨⟨position.x - radius, position.y - height, position.z - radius⟩,
      ⟨position.x + radius, position.y, position.z + radius⟩⟩
  scanChunks playerBox position chunks

/-! ## Vocabulary of the specification -/

/-- The condition under which the specification lets an archetype fire, for a block `b`
with type value `hType`. -/
def Archetype.condition (hType : ℚ) (b : Rect) : Archetype → Prop
  | .statue => hType > 0.92 ∧ b.w > 20 ∧ b.h > 20
  | .citadel => b.w > 60 ∧ b.h > 60
  | .grid => hType > 0.4
  | .stairs => hType < 0.2
  | .slab => True

instance (hType : ℚ) (b : Rect) (a : Archetype) : Decidable (Archetype.condition hType b a) := by
  cases a <;> unfold Archetype.condition <;> infer_instance

/-- The priority order of the archetypes in the specification. -/
def archetypeOrder : List Archetype := [.statue, .citadel, .grid, .stairs, .slab]

/-- The first archetype, in priority order, whose condition holds. -/
def firstMatch (hType : ℚ) (b : Rect) : Option Archetype :=
  archetypeOrder.find? fun a => decide (Archetype.condition hType b a)

/-- The world-space centre of a block, x coordinate: `b.x + b.w / 2 + chunkPos.x`. -/
def centreX (chunkPos : Vector3) (b : Rect) : ℚ := b.x + b.w / 2 + chunkPos.x

/-- The world-space centre of a block, z coordinate: `b.z + b.h / 2 + chunkPos.z`. -/
def centreZ (chunkPos : Vector3) (b : Rect) : ℚ := b.z + b.h / 2 + chunkPos.z

/-- The "block identity" value of the specification: `hBlock` in the source. -/
def identityValue (chunkPos : Vector3) (b : Rect) : ℚ :=
  Hash (toInt (centreX chunkPos b)) 42 (toInt (centreZ chunkPos b))

/-- The "type" value of the specification: `hType` in the source. -/
def typeValue (chunkPos : Vector3) (b : Rect) : ℚ :=
  Hash (toInt (centreX chunkPos b)) 55 (toInt (centreZ chunkPos b))

/-- The centre of a block is closer than 25 units to the world origin (distance in the
ground plane, as a real number). -/
def centreNear (chunkPos : Vector3) (b : Rect) : Prop :=
  Real.sqrt ((centreX chunkPos b * centreX chunkPos b +
    centreZ chunkPos b * centreZ chunkPos b : ℚ) : ℝ) < 25

/-- The boxes of one archetype for block `b`, with `baseHeight = 20 + identity * 100`. -/
def archetypeCalls (chunkPos : Vector3) (b : Rect) : Archetype → List CubeCall
  | .statue => statueCalls b (centreX chunkPos b) (centreZ chunkPos b)
      (20 + identityValue chunkPos b * 100)
  | .citadel => citadelCalls chunkPos b (20 + identityValue chunkPos b * 100)
  | .grid => gridCalls chunkPos b (20 + identityValue chunkPos b * 100)
  | .stairs => stairsCalls b (centreX chunkPos b) (centreZ chunkPos b)
  | .slab => slabCalls b (centreX chunkPos b) (centreZ chunkPos b)
      (20 + identityValue chunkPos b * 100)

/-- A leaf block of the chunk at the world origin (`RecursiveSplit`, three splits deep):
about 20.95 wide and 73.29 deep. -/
def narrowLeaf : Rect :=
  ⟨-200, -200, 9434973173681428711 / 450359962737049600, 2459118991 / 33554432⟩

/-- Geometry/collider parity of the buffers for `k` emitted boxes: 24 vertices, normals and
texture coordinates and 36 indices per box, one collider per box, and the running vertex
base at `24 * k`. -/
def Buffers.parity (st : Buffers) (k : Nat) : Prop :=
  st.vertices.length = 24 * k ∧ st.normals.length = 24 * k ∧ st.texcoords.length = 24 * k ∧
    st.indices.length = 36 * k ∧ st.colliders.length = k ∧ st.currentVertexCount = 24 * (k : Int)

/-! ## UpdatePlayer

The functions of `libm` and `raymath` that `UpdatePlayer` calls and whose values are not
rational (`sin`, `cos`, `sinf`, `cosf`, `Vector2Normalize`) are parameters of the embedding
(`MathLib`); what raylib reports while the frame runs (keys, mouse, clock) is the record
`FrameInput`. -/

/-- The raylib `Camera3D` record. -/
structure Camera3D where
  position : Vector3
  target : Vector3
  up : Vector3
  fovy : ℚ
  projection : Int
deriving DecidableEq

/-- The `struct Player` of `main.cpp`. -/
structure Player where
  position : Vector3
  velocity : Vector3
  camera : Camera3D
  pitch : ℚ
  yaw : ℚ
  isGrounded : Bool
  headBobTimer : ℚ
  smoothY : ℚ
  autoPilot : Bool
  autoTurnTarget : ℚ
  autoTurnTimer : ℚ
deriving DecidableEq

/-- What raylib reports during one call of `UpdatePlayer`: `IsKeyDown` for W, S, A, D,
left control and left shift, `IsKeyPressed(KEY_SPACE)`, `GetMouseDelta()` and
`(float)GetTime()`. -/
structure FrameInput where
  keyW : Bool
  keyS : Bool
  keyA : Bool
  keyD : Bool
  keyLeftControl : Bool
  keyLeftShift : Bool
  spacePressed : Bool
  mouseDelta : Vector2
  time : ℚ

/-- The library functions used by `UpdatePlayer` that are not rational functions. -/
structure MathLib where
  sin : ℚ → ℚ
  cos : ℚ → ℚ
  sinf : ℚ → ℚ
  cosf : ℚ → ℚ
  Vector2Normalize : Vector2 → Vector2

/-- The constant `GRAVITY`. -/
def GRAVITY : ℚ := 32

/-- The constant `MAX_SPEED`. -/
def MAX_SPEED : ℚ := 14

/-- The constant `JUMP_FORCE`. -/
def JUMP_FORCE : ℚ := 10

/-- The constant `FRICTION`. -/
def FRICTION : ℚ := 0.90

/-- The constant `AIR_DRAG`. -/
def AIR_DRAG : ℚ := 0.98

/-- The constant `MOUSE_SENSITIVITY`. -/
def MOUSE_SENSITIVITY : ℚ := 0.003

/-- The raymath `Lerp`: `start + amount * (end - start)`. -/
def Lerp (start stop amount : ℚ) : ℚ := start + amount * (stop - start)

/-- The raymath `Clamp`. -/
def Clamp (value lo hi : ℚ) : ℚ :=
  let result := if value < lo then lo else value
  if result > hi then hi else result

/-- The raymath `Vector3Scale`. -/
def Vector3Scale (v : Vector3) (scalar : ℚ) : Vector3 := ⟨v.x * scalar, v.y * scalar, v.z * scalar⟩

/-- The square of the raymath `Vector2Length`; the tests `Vector2Length(v) > c` of
`UpdatePlayer` (with `c` equal to 0 and to 0.1) are decided as `Vector2LengthSqr v > c * c`. -/
def Vector2LengthSqr (v : Vector2) : ℚ := v.x * v.x + v.y * v.y

/-- Section "1. Input": the movement intent, and in auto-pilot the pitch pan and the
steering of the yaw. -/
def readInput (m : MathLib) (f : FrameInput) (player : Player) (chunks : List Chunk) (dt : ℚ) :
    Player × Vector2 :=
  let input : Vector2 := ⟨0, 0⟩
  let r : Player × Vector2 :=
    if player.autoPilot then
      let input : Vector2 := { input with y := 0.5 }
      let time := f.time
      let player := { player with pitch := m.sin (time * 0.2) * 0.15 }
      let forward : Vector3 := ⟨m.cos player.yaw, 0, m.sin player.yaw⟩
      let checkPos := Vector3Add player.position (Vector3Scale forward 3.0)
      let player :=
        if CheckCollision checkPos 0.5 1.0 chunks then
          { player with autoTurnTarget := player.autoTurnTarget + dt * 2.0 }
        else player
      let player := { player with yaw := Lerp player.yaw player.autoTurnTarget (dt * 1.0) }
      (player, input)
    else
      let input := if f.keyW then { input with y := input.y + 1 } else input
      let input := if f.keyS then { input with y := input.y - 1 } else input
      let input := if f.keyA then { input with x := input.x - 1 } else input
      let input := if f.keyD then { input with x := input.x + 1 } else input
      (player, input)
  let input := if Vector2LengthSqr r.2 > 0 then m.Vector2Normalize r.2 else r.2
  (r.1, input)

/-- Section "2. Look": mouse look and the pitch clamp. -/
def look (f : FrameInput) (player : Player) : Player :=
  let mouseDelta := f.mouseDelta
  let player := { player with yaw := player.yaw - mouseDelta.x * MOUSE_SENSITIVITY }
  let player := { player with pitch := player.pitch - mouseDelta.y * MOUSE_SENSITIVITY }
  { player with pitch := Clamp player.pitch (-1.5) 1.5 }

/-- Section "3. Physics (Gravity)" with the jump. -/
def physics (f : FrameInput) (player : Player) (dt : ℚ) : Player :=
  let player :=
    if !player.isGrounded then
      { player with velocity := { player.velocity with y := player.velocity.y - GRAVITY * dt } }
    else player
  if player.isGrounded && f.spacePressed then
    { player with velocity := { player.velocity with y := JUMP_FORCE }, isGrounded := false }
  else player

/-- Section "4. Movement Calculation": the target velocity and the smoothing of the
horizontal velocity. -/
def movement (m : MathLib) (f : FrameInput) (player : Player) (input : Vector2) (dt : ℚ) :
    Player :=
  let forward : Vector3 := ⟨m.sinf player.yaw, 0, m.cosf player.yaw⟩
  let right : Vector3 := ⟨m.cosf player.yaw, 0, -m.sinf player.yaw⟩
  let moveDir := Vector3Add (Vector3Scale forward input.y) (Vector3Scale right input.x)
  let currentSpeed := MAX_SPEED
  let currentSpeed := if f.keyLeftControl then currentSpeed * 0.5 else currentSpeed
  let currentSpeed := if f.keyLeftShift then currentSpeed * 1.5 else currentSpeed
  let targetVel := Vector3Scale moveDir currentSpeed
  let friction := if player.isGrounded then FRICTION else AIR_DRAG
  let player := { player with velocity := { player.velocity with
    x := Lerp player.velocity.x targetVel.x ((1.0 - friction) * 15.0 * dt) } }
  { player with velocity := { player.velocity with
    z := Lerp player.velocity.z targetVel.z ((1.0 - friction) * 15.0 * dt) } }

/-- The local `stepHeight` of `UpdatePlayer`. -/
def stepHeight : ℚ := 0.6

/-- Section "5. Integration", "X-Axis": advance, and on a collision step up (when
grounded and the raised position is free) or revert and stop. -/
def integrateX (player : Player) (chunks : List Chunk) (dt : ℚ) : Player :=
  let player := { player with position := { player.position with
    x := player.position.x + player.velocity.x * dt } }
  if CheckCollision player.position 0.3 1.8 chunks then
    let testPos : Vector3 := { player.position with y := player.position.y + stepHeight }
    let stepped : Bool := player.isGrounded && !CheckCollision testPos 0.3 1.8 chunks
    let player :=
      if stepped then
        { player with position := { player.position with y := player.position.y + stepHeight } }
      else player
    if !stepped then
      { player with
        position := { player.position with x := player.position.x - player.velocity.x * dt },
        velocity := { player.velocity with x := 0 } }
    else player
  else player

/-- Section "5. Integration", "Z-Axis". -/
def integrateZ (player : Player) (chunks : List Chunk) (dt : ℚ) : Player :=
  let player := { player with position := { player.position with
    z := player.position.z + player.velocity.z * dt } }
  if CheckCollision player.position 0.3 1.8 chunks then
    let testPos : Vector3 := { player.position with y := player.position.y + stepHeight }
    let stepped : Bool := player.isGrounded && !CheckCollision testPos 0.3 1.8 chunks
    let player :=
      if stepped then
        { player with position := { player.position with y := player.position.y + stepHeight } }
      else player
    if !stepped then
      { player with
        position := { player.position with z := player.position.z - player.velocity.z * dt },
        velocity := { player.velocity with z := 0 } }
    else player
  else player

/-- Section "5. Integration", "Y-Axis": advance, and on a collision revert and stop; a
downward hit also grounds the player. -/
def integrateY (player : Player) (chunks : List Chunk) (dt : ℚ) : Player :=
  let player := { player with position := { player.position with
    y := player.position.y + player.velocity.y * dt } }
  if CheckCollision player.position 0.3 1.8 chunks then
    if player.velocity.y > 0 then
      { player with
        position := { player.position with y := player.position.y - player.velocity.y * dt },
        velocity := { player.velocity with y := 0 } }
    else if player.velocity.y < 0 then
      { player with
        position := { player.position with y := player.position.y - player.velocity.y * dt },
        velocity := { player.velocity with y := 0 },
        isGrounded := true }
    else player
  else player

/-- The local `playerHeight` of the ground check: 1.8, or 1.0 while left control is held. -/
def playerHeight (f : FrameInput) : ℚ := if f.keyLeftControl then 1.0 else 1.8

/-- Section "Ground Check": the floor clamp, else the probe 0.1 below the position. -/
def groundCheck (f : FrameInput) (player : Player) (chunks : List Chunk) : Player :=
  if player.position.y ≤ playerHeight f then
    let player := { player with position := { player.position with y := playerHeight f } }
    let player :=
      if player.velocity.y < 0 then { player with velocity := { player.velocity with y := 0 } }
      else player
    { player with isGrounded := true }
  else
    let probe : Vector3 := { player.position with y := player.position.y - 0.1 }
    if CheckCollision probe 0.3 1.8 chunks then
      let player := { player with isGrounded := true }
      if player.velocity.y < 0 then { player with velocity := { player.velocity with y := 0 } }
      else player
    else { player with isGrounded := false }

/-- Sections "Head Bob", "Camera Update" and "Camera Smoothing". -/
def cameraUpdate (m : MathLib) (f : FrameInput) (player : Player) (input : Vector2) (dt : ℚ) :
    Player :=
  let player :=
    if player.isGrounded && decide (Vector2LengthSqr input > 0.1 * 0.1) then
      { player with headBobTimer := player.headBobTimer + dt * 12.0 }
    else { player with headBobTimer := 0.0 }
  let bobOffset := m.sinf player.headBobTimer * 0.1
  let eyeHeight : ℚ := if f.keyLeftControl then 0.8 else 1.6
  let player := { player with smoothY := Lerp player.smoothY player.position.y (15.0 * dt) }
  let camPos : Vector3 := { player.position with y := player.smoothY }
  let player := { player with camera := { player.camera with
    position := ⟨camPos.x, camPos.y + eyeHeight + bobOffset, camPos.z⟩ } }
  let camForward : Vector3 :=
    ⟨m.sinf player.yaw * m.cosf player.pitch, m.sinf player.pitch,
      m.cosf player.yaw * m.cosf player.pitch⟩
  { player with camera := { player.camera with
    target := Vector3Add player.camera.position camForward } }

/-- The player when section "5. Integration" begins: sections 1 to 4 have run. -/
def beforeIntegration (m : MathLib) (f : FrameInput) (player : Player) (chunks : List Chunk)
    (dt : ℚ) : Player :=
  let r := readInput m f player chunks dt
  movement m f (physics f (look f r.1) dt) r.2 dt

/-- The player when the section "Ground Check" begins: the three axes are integrated. -/
def beforeGroundCheck (m : MathLib) (f : FrameInput) (player : Player) (chunks : List Chunk)
    (dt : ℚ) : Player :=
  integrateY (integrateZ (integrateX (beforeIntegration m f player chunks dt) chunks dt)
    chunks dt) chunks dt

/-- The function `UpdatePlayer(player, chunks, dt)` of `main.cpp`; the result is the
player record after the call. -/
def UpdatePlayer (m : MathLib) (f : FrameInput) (player : Player) (chunks : List Chunk)
    (dt : ℚ) : Player :=
  cameraUpdate m f (groundCheck f (beforeGroundCheck m f player chunks dt) chunks)
    (readInput m f player chunks dt).2 dt

/-- The block `"The Fall" Loop` of `main`, run after `UpdatePlayer` in every frame. -/
def fallCheck (player : Player) : Player :=
  if player.position.y < -30.0 then
    { player with
      position := ⟨player.position.x, 60.0, player.position.z⟩,
      velocity := ⟨0, 0, 0⟩ }
  else player

/-- A `MathLib` whose sines are 0 and cosines 1: the values at the angle 0, the only
angle at which the scenarios below evaluate them. `Vector2Normalize` is the identity; the
scenarios never call it (no movement key is held). -/
def mathAtZero : MathLib := ⟨fun _ => 0, fun _ => 1, fun _ => 0, fun _ => 1, fun v => v⟩

/-- A frame in which no key is held or pressed and the mouse is at rest. -/
def idleFrame : FrameInput := ⟨false, false, false, false, false, false, false, ⟨0, 0⟩, 0⟩

/-- A grounded player standing on the floor at the world origin (eye height 1.8) with
velocity `(vx, vy, vz)`. -/
def walker (vx vy vz : ℚ) : Player :=
  { position := ⟨0, 1.8, 0⟩
    velocity := ⟨vx, vy, vz⟩
    camera := ⟨⟨0, 1.8, 0⟩, ⟨0, 1.8, 1⟩, ⟨0, 1, 0⟩, 60, 0⟩
    pitch := 0
    yaw := 0
    isGrounded := true
    headBobTimer := 0
    smoothY := 1.8
    autoPilot := false
    autoTurnTarget := 0
    autoTurnTimer := 0 }

/-- A grounded player crouching on the floor at the world origin (eye height 1.0), at
rest. -/
def croucher : Player := { walker 0 0 0 with position := ⟨0, 1.0, 0⟩, smoothY := 1.0 }

/-- A frame in which only the space key is pressed (left control is not held). -/
def jumpFrame : FrameInput := { idleFrame with spacePressed := true }

/-- A chunk at the world origin with the given colliders and an empty mesh. -/
def chunkOf (colliders : List BoundingBox) : Chunk :=
  ⟨⟨0, 0, 0⟩, ⟨0, 0, [], [], [], []⟩, colliders, true⟩

/-- A box 0.5 high on the floor, lying ahead of the walker in x. -/
def lowStep : BoundingBox := ⟨⟨0.5, 0, -5⟩, ⟨2, 0.5, 5⟩⟩

/-- A box 0.6 high whose base is level with the top of `lowStep`, lying ahead of the
walker in z. -/
def ledge : BoundingBox := ⟨⟨-5, 0.5, 0.5⟩, ⟨5, 1.1, 2⟩⟩

/-- The entry `ind[i]` of the index table of `AddCube` (0 outside the table). -/
def ind (i : Nat) : Int := cubeIndices.getD i 0

/-! ## The splits of a call tree -/

/-- The rectangle a call of `RecursiveSplit` was made with. -/
def SplitCall.rect : SplitCall → Rect
  | .push r => r
  | .nest r _ _ => r

/-- Every split in a call tree, as parent, first child, second child. -/
def SplitCall.splits : SplitCall → List (Rect × Rect × Rect)
  | .push _ => []
  | .nest r a b => (r, a.rect, b.rect) :: (a.splits ++ b.splits)

/-- The children `c1`, `c2` and a gap of 6 tile the parent `p` along x: `c1` starts at the
low edge of `p`, `c2` ends at the high edge, they are 6 apart, their widths sum to the
width of `p` less 6, and both keep the z position and the height of `p`. -/
def tilesAlongX (p c1 c2 : Rect) : Prop :=
  c1.x = p.x ∧ c2.x + c2.w = p.x + p.w ∧ c2.x - (c1.x + c1.w) = 6 ∧ c1.w + c2.w = p.w - 6 ∧
    c1.z = p.z ∧ c1.h = p.h ∧ c2.z = p.z ∧ c2.h = p.h

/-- The children `c1`, `c2` and a gap of 6 tile the parent `p` along z. -/
def tilesAlongZ (p c1 c2 : Rect) : Prop :=
  c1.z = p.z ∧ c2.z + c2.h = p.z + p.h ∧ c2.z - (c1.z + c1.h) = 6 ∧ c1.h + c2.h = p.h - 6 ∧
    c1.x = p.x ∧ c1.w = p.w ∧ c2.x = p.x ∧ c2.w = p.w

/-! ## Hash and the split ratio in binary32

`Hash` and the ratio of `RecursiveSplit` once more, with every `float` operation rounded to
binary32: 24 significant bits, round to nearest, ties to even. The exponent range is not
modelled; the values that occur in `Hash` and in the ratio are zero or lie between `2^-30`
and `2^31` in magnitude, far inside the normal range of binary32. -/

/-- Rounding to the nearest integer, ties to the even one. -/
def roundHalfEven (q : ℚ) : Int :=
  if q - ⌊q⌋ < 1 / 2 then ⌊q⌋
  else if 1 / 2 < q - ⌊q⌋ then ⌊q⌋ + 1
  else if ⌊q⌋ % 2 = 0 then ⌊q⌋ else ⌊q⌋ + 1

/-- The binary32 value nearest to `q`: with `2^e ≤ |q| < 2^(e+1)` the spacing of binary32
values around `q` is `2^(e-23)`, and `q` is rounded to a multiple of it. -/
def binary32 (q : ℚ) : ℚ :=
  if q = 0 then 0
  else roundHalfEven (q / 2 ^ (Int.log 2 |q| - 23)) * 2 ^ (Int.log 2 |q| - 23)

/-- The function `Hash(x, y, z)` in binary32: the masked `int` is converted to `float`,
divided by `1073741824.0f` and subtracted from `1.0f`. -/
def Binary32.Hash (x y z : Int) : ℚ :=
  binary32 (1 - binary32 (binary32 (hashBits x y z) / 1073741824))

/-- The ratio `0.38f + (hSplit * 0.24f)` of `RecursiveSplit` in binary32, for
`hSplit = Hash(x, y, z)`. -/
def Binary32.ratio (x y z : Int) : ℚ :=
  binary32 (binary32 0.38 + binary32 (Binary32.Hash x y z * binary32 0.24))

/-! ## Colliders and footprints -/

/-- The collider that `AddCube(c.pos, c.size)` pushes: the box centred at `pos` with
extents `size` (`AddCube_collider`). -/
def CubeCall.collider (c : CubeCall) : BoundingBox :=
  ⟨⟨c.pos.x - c.size.x / 2, c.pos.y - c.size.y / 2, c.pos.z - c.size.z / 2⟩,
    ⟨c.pos.x + c.size.x / 2, c.pos.y + c.size.y / 2, c.pos.z + c.size.z / 2⟩⟩

/-- The x and z intervals of `box` lie within the footprint of block `b` in world
coordinates, `[b.x + chunkPos.x, b.x + b.w + chunkPos.x]` by
`[b.z + chunkPos.z, b.z + b.h + chunkPos.z]`. -/
def withinFootprint (chunkPos : Vector3) (b : Rect) (box : BoundingBox) : Prop :=
  b.x + chunkPos.x ≤ box.min.x ∧ box.max.x ≤ b.x + b.w + chunkPos.x ∧
    b.z + chunkPos.z ≤ box.min.z ∧ box.max.z ≤ b.z + b.h + chunkPos.z

/-! ## Scenes for the floor clamp, the distance cull and the colliders -/

/-- A beam 0.2 thick hanging between the heights 1.5 and 1.7 above the world origin: above
the head of a crouching player (1.0), below the head of a standing one (1.8). -/
def beam : BoundingBox := ⟨⟨-1, 1.5, -1⟩, ⟨1, 1.7, 1⟩⟩

/-- The narrow phase of `CheckCollision` alone, as the specification words it: the overlap
test of the query box against every collider of every chunk, without the distance cull.
To be compared with `CheckCollision`. -/
def CheckCollisionNoCull (position : Vector3) (radius height : ℚ) (chunks : List Chunk) :
    Bool :=
  let playerBox : BoundingBox :=
    ⟨⟨position.x - radius, position.y - height, position.z - radius⟩,
      ⟨position.x + radius, position.y, position.z + radius⟩⟩
  chunks.any fun chunk => chunk.colliders.any fun box => CheckCollisionBoxes playerBox box

/-- All colliders of the chunk lie horizontally within the 400 x 400 footprint centred on
the chunk origin. -/
def Chunk.collidersInFootprint (chunk : Chunk) : Prop :=
  ∀ box ∈ chunk.colliders,
    chunk.position.x - 200 ≤ box.min.x ∧ box.max.x ≤ chunk.position.x + 200 ∧
      chunk.position.z - 200 ≤ box.min.z ∧ box.max.z ≤ chunk.position.z + 200

/-- A box 10 x 10 and 120 high in a corner of the footprint of the chunk at the world
origin. -/
def tower : BoundingBox := ⟨⟨190, 0, 190⟩, ⟨200, 120, 200⟩⟩

/-- A leaf block of the chunk at the world origin (`RecursiveSplit`, four splits deep):
about 68.68 wide and 73.29 deep, with its low corner at about `(-35.11, -200)`. -/
def citadelLeaf : Rect :=
  ⟨-(1177984041 / 33554432), -200,
    415116994076094939994178771929 / 6044629098073145873530880000, 2459118991 / 33554432⟩

/-! ## RecursiveSplit in binary32

The lambda `RecursiveSplit` once more, with every `float` operation rounded to binary32
(`binary32`); the fields of the rectangles and of the chunk origin are binary32 values. The
comparisons are exact. -/

/-- The call tree of `RecursiveSplit(r, depth)` in binary32: each `blocks.push_back(r)` is
recorded as a `push` and each pair of recursive calls as a `nest`. -/
def Binary32.RecursiveSplitCalls (chunkPos : Vector3) : Rect → Nat → SplitCall
  | r, 0 => .push r
  | r, depth + 1 =>
    if r.w < 30 ∨ r.h < 30 then .push r
    else
      let cx := binary32 (binary32 (r.x + binary32 (r.w / 2)) + chunkPos.x)
      let cz := binary32 (binary32 (r.z + binary32 (r.h / 2)) + chunkPos.z)
      let hSplit := Binary32.Hash (toInt cx) (toInt cz) ((depth : Int) + 1)
      let splitX : Bool :=
        if |binary32 (r.w - r.h)| < 10 then decide (hSplit > 0.5) else decide (r.w > r.h)
      let ratio := binary32 (binary32 0.38 + binary32 (hSplit * binary32 0.24))
      let streetGap : ℚ := 6
      if splitX then
        let w1 := binary32 (r.w * ratio)
        let w2 := binary32 (r.w * binary32 (1 - ratio))
        if w1 < 20 ∨ w2 < 20 then .push r
        else
          .nest r
            (Binary32.RecursiveSplitCalls chunkPos
              ⟨r.x, r.z, binary32 (w1 - binary32 (streetGap / 2)), r.h⟩ depth)
            (Binary32.RecursiveSplitCalls chunkPos
              ⟨binary32 (binary32 (r.x + w1) + binary32 (streetGap / 2)), r.z,
                binary32 (w2 - binary32 (streetGap / 2)), r.h⟩ depth)
      else
        let h1 := binary32 (r.h * ratio)
        let h2 := binary32 (r.h * binary32 (1 - ratio))
        if h1 < 20 ∨ h2 < 20 then .push r
        else
          .nest r
            (Binary32.RecursiveSplitCalls chunkPos
              ⟨r.x, r.z, r.w, binary32 (h1 - binary32 (streetGap / 2))⟩ depth)
            (Binary32.RecursiveSplitCalls chunkPos
              ⟨r.x, binary32 (binary32 (r.z + h1) + binary32 (streetGap / 2)), r.w,
                binary32 (h2 - binary32 (streetGap / 2))⟩ depth)

/-- The rectangles `RecursiveSplit(r, depth)` pushes onto `blocks` in binary32, in push
order. -/
def Binary32.RecursiveSplit (chunkPos : Vector3) (r : Rect) (depth : Nat) : List Rect :=
  (Binary32.RecursiveSplitCalls chunkPos r depth).blocks

/-- The children `c1`, `c2` and a gap of 6 tile the parent `p` along x up to `ε`: `c1`
starts at the low edge of `p` and both children keep the z position and the height of `p`;
`c2` ends within `ε` of the high edge of `p`, the gap between the children is within `ε` of
6, and their widths sum to the width of `p` less 6 within `ε`. -/
def tilesAlongXWithin (ε : ℚ) (p c1 c2 : Rect) : Prop :=
  c1.x = p.x ∧ |c2.x + c2.w - (p.x + p.w)| ≤ ε ∧ |c2.x - (c1.x + c1.w) - 6| ≤ ε ∧
    |c1.w + c2.w - (p.w - 6)| ≤ ε ∧ c1.z = p.z ∧ c1.h = p.h ∧ c2.z = p.z ∧ c2.h = p.h

/-- The children `c1`, `c2` and a gap of 6 tile the parent `p` along z up to `ε`. -/
def tilesAlongZWithin (ε : ℚ) (p c1 c2 : Rect) : Prop :=
  c1.z = p.z ∧ |c2.z + c2.h - (p.z + p.h)| ≤ ε ∧ |c2.z - (c1.z + c1.h) - 6| ≤ ε ∧
    |c1.h + c2.h - (p.h - 6)| ≤ ε ∧ c1.x = p.x ∧ c1.w = p.w ∧ c2.x = p.x ∧ c2.w = p.w

/-- The leaf of the chunk at the world origin that `RecursiveSplit` reaches in binary32 by
the second parts of three splits along x: about 43.17 wide, from about 156.83 on. -/
def roundedLeaf : Rect := ⟨1284751 / 8192, -200, 11316771 / 262144, 9605933 / 131072⟩

/-- A leaf block of the chunk at `(-400, 0, 0)` (`RecursiveSplit`, five splits deep): about
46.43 wide and 44.97 deep, with its low corner at about `(153.57, -200)`, in world
coordinates at about `(-246.43, -200)`. -/
def wireLeaf : Rect :=
  ⟨928254819350606261965490098773 / 6044629098073145873530880000, -200,
    280671000264022912740685901227 / 6044629098073145873530880000,
    20250619760777979487 / 450359962737049600⟩

/-! ## Integration and the floor clamp in binary32

Section "5. Integration" and the ground check of `UpdatePlayer` once more, with every
`float` operation rounded to binary32, together with `CheckCollision`. The player handed to
`Binary32.integration` is the one that sections 1 to 4 leave: they set the velocity, the
angles and the auto-pilot fields and do not touch the position. -/

/-- The test `Vector3Distance(v1, v2) > 300.0f` in binary32. raymath computes
`sqrtf(dx*dx + dy*dy + dz*dz)` on the rounded differences; the correctly rounded root
exceeds 300 exactly when the rounded sum of squares exceeds the square of `300 + 2^-16`, the
midpoint between 300 and the next binary32 value. -/
def Binary32.distanceExceeds300 (v1 v2 : Vector3) : Bool :=
  let dx := binary32 (v2.x - v1.x)
  let dy := binary32 (v2.y - v1.y)
  let dz := binary32 (v2.z - v1.z)
  decide ((300 + 1 / 65536) ^ 2 <
    binary32 (binary32 (binary32 (dx * dx) + binary32 (dy * dy)) + binary32 (dz * dz)))

/-- The outer loop of `CheckCollision` in binary32. -/
def Binary32.scanChunks (playerBox : BoundingBox) (position : Vector3) : List Chunk → Bool
  | [] => false
  | chunk :: rest =>
    if Binary32.distanceExceeds300 chunk.position position then
      Binary32.scanChunks playerBox position rest
    else if hitsAnyBox playerBox chunk.colliders then true
    else Binary32.scanChunks playerBox position rest

/-- The function `CheckCollision(position, radius, height, chunks)` in binary32: the
corners of the player box are rounded. -/
def Binary32.CheckCollision (position : Vector3) (radius height : ℚ) (chunks : List Chunk) :
    Bool :=
  let playerBox : BoundingBox :=
    ⟨⟨binary32 (position.x - radius), binary32 (position.y - height),
        binary32 (position.z - radius)⟩,
      ⟨binary32 (position.x + radius), position.y, binary32 (position.z + radius)⟩⟩
  Binary32.scanChunks playerBox position chunks

/-- The call `CheckCollision(position, 0.3f, 1.8f, chunks)` that the integration and the
ground check make. -/
def Binary32.collides (position : Vector3) (chunks : List Chunk) : Bool :=
  Binary32.CheckCollision position (binary32 0.3) (binary32 1.8) chunks

/-- Section "5. Integration", "X-Axis", in binary32. -/
def Binary32.integrateX (player : Player) (chunks : List Chunk) (dt : ℚ) : Player :=
  let player := { player with position := { player.position with
    x := binary32 (player.position.x + binary32 (player.velocity.x * dt)) } }
  if Binary32.collides player.position chunks then
    let testPos : Vector3 :=
      { player.position with y := binary32 (player.position.y + binary32 stepHeight) }
    let stepped : Bool := player.isGrounded && !Binary32.collides testPos chunks
    let player :=
      if stepped then
        { player with position := { player.position with
          y := binary32 (player.position.y + binary32 stepHeight) } }
      else player
    if !stepped then
      { player with
        position := { player.position with
          x := binary32 (player.position.x - binary32 (player.velocity.x * dt)) },
        velocity := { player.velocity with x := 0 } }
    else player
  else player

/-- Section "5. Integration", "Z-Axis", in binary32. -/
def Binary32.integrateZ (player : Player) (chunks : List Chunk) (dt : ℚ) : Player :=
  let player := { player with position := { player.position with
    z := binary32 (player.position.z + binary32 (player.velocity.z * dt)) } }
  if Binary32.collides player.position chunks then
    let testPos : Vector3 :=
      { player.position with y := binary32 (player.position.y + binary32 stepHeight) }
    let stepped : Bool := player.isGrounded && !Binary32.collides testPos chunks
    let player :=
      if stepped then
        { player with position := { player.position with
          y := binary32 (player.position.y + binary32 stepHeight) } }
      else player
    if !stepped then
      { player with
        position := { player.position with
          z := binary32 (player.position.z - binary32 (player.velocity.z * dt)) },
        velocity := { player.velocity with z := 0 } }
    else player
  else player

/-- Section "5. Integration", "Y-Axis", in binary32. -/
def Binary32.integrateY (player : Player) (chunks : List Chunk) (dt : ℚ) : Player :=
  let player := { player with position := { player.position with
    y := binary32 (player.position.y + binary32 (player.velocity.y * dt)) } }
  if Binary32.collides player.position chunks then
    if player.velocity.y > 0 then
      { player with
        position := { player.position with
          y := binary32 (player.position.y - binary32 (player.velocity.y * dt)) },
        velocity := { player.velocity with y := 0 } }
    else if player.velocity.y < 0 then
      { player with
        position := { player.position with
          y := binary32 (player.position.y - binary32 (player.velocity.y * dt)) },
        velocity := { player.velocity with y := 0 },
        isGrounded := true }
    else player
  else player

/-- The local `playerHeight` of the ground check in binary32: `1.8f`, or `1.0f` while left
control is held. -/
def Binary32.playerHeight (f : FrameInput) : ℚ :=
  if f.keyLeftControl then binary32 1.0 else binary32 1.8

/-- Section "Ground Check" in binary32: the floor clamp, else the probe `0.1f` below the
position. -/
def Binary32.groundCheck (f : FrameInput) (player : Player) (chunks : List Chunk) : Player :=
  if player.position.y ≤ Binary32.playerHeight f then
    let player :=
      { player with position := { player.position with y := Binary32.playerHeight f } }
    let player :=
      if player.velocity.y < 0 then { player with velocity := { player.velocity with y := 0 } }
      else player
    { player with isGrounded := true }
  else
    let probe : Vector3 :=
      { player.position with y := binary32 (player.position.y - binary32 0.1) }
    if Binary32.collides probe chunks then
      let player := { player with isGrounded := true }
      if player.velocity.y < 0 then { player with velocity := { player.velocity with y := 0 } }
      else player
    else { player with isGrounded := false }

/-- The three axes of the integration in binary32, in the order X, Z, Y. -/
def Binary32.integrated (player : Player) (chunks : List Chunk) (dt : ℚ) : Player :=
  Binary32.integrateY
    (Binary32.integrateZ (Binary32.integrateX player chunks dt) chunks dt) chunks dt

/-- Section "5. Integration" followed by the ground check, in binary32. The sections that
follow in `UpdatePlayer` (head bob and camera) do not touch the position, so the position
of the result is the position at the end of the frame. -/
def Binary32.integration (f : FrameInput) (player : Player) (chunks : List Chunk) (dt : ℚ) :
    Player :=
  Binary32.groundCheck f (Binary32.integrated player chunks dt) chunks

/-- A wall ahead in x, from the floor up to the height 10. -/
def wall : BoundingBox := ⟨⟨1, 0, -5⟩, ⟨2, 10, 5⟩⟩

/-- An airborne player at the height 5 above the point `(x, 0)` of the ground plane, moving
along x with the speed `vx`. -/
def glider (x vx : ℚ) : Player :=
  { walker vx 0 0 with position := ⟨x, 5, 0⟩, isGrounded := false }

/-! ## Theorems -/

/-- One step of `RecursiveSplit` at positive depth: the call pushes `r` itself, or splits
along x, or splits along z; in a split both parts measure at least 20 before the street
gap is taken off and together they measure the parent. -/
theorem RecursiveSplit_succ_cases (chunkPos : Vector3) (r : Rect) (depth : Nat) :
    RecursiveSplit chunkPos r (depth + 1) = [r] ∨
    (∃ w1 w2 : ℚ, 20 ≤ w1 ∧ 20 ≤ w2 ∧ w1 + w2 = r.w ∧
      RecursiveSplit chunkPos r (depth + 1) =
        RecursiveSplit chunkPos ⟨r.x, r.z, w1 - 3, r.h⟩ depth ++
          RecursiveSplit chunkPos ⟨r.x + w1 + 3, r.z, w2 - 3, r.h⟩ depth) ∨
    (∃ h1 h2 : ℚ, 20 ≤ h1 ∧ 20 ≤ h2 ∧ h1 + h2 = r.h ∧
      RecursiveSplit chunkPos r (depth + 1) =
        RecursiveSplit chunkPos ⟨r.x, r.z, r.w, h1 - 3⟩ depth ++
          RecursiveSplit chunkPos ⟨r.x, r.z + h1 + 3, r.w, h2 - 3⟩ depth) := by
  generalize hL : RecursiveSplit chunkPos r (depth + 1) = L
  rw [RecursiveSplit] at hL
  dsimp only at hL
  have e3 : (6 : ℚ) / 2 = 3 := by norm_num
  rw [e3] at hL
  split_ifs at hL with c1 c2 c3 c4 c5 c6 c7 c8
  all_goals first
    | exact Or.inl hL.symm
    | (refine Or.inr (Or.inl ⟨_, _, ?_, ?_, ?_, hL.symm⟩)
       · exact le_of_not_lt (fun hlt => (by assumption : ¬ (_ ∨ _)) (Or.inl hlt))
       · exact le_of_not_lt (fun hlt => (by assumption : ¬ (_ ∨ _)) (Or.inr hlt))
       · ring)
    | (refine Or.inr (Or.inr ⟨_, _, ?_, ?_, ?_, hL.symm⟩)
       · exact le_of_not_lt (fun hlt => (by assumption : ¬ (_ ∨ _)) (Or.inl hlt))
       · exact le_of_not_lt (fun hlt => (by assumption : ¬ (_ ∨ _)) (Or.inr hlt))
       · ring)

/-- One step of the call tree at positive depth, next to the same step of `RecursiveSplit`:
both push `r`, or both descend into the same two sub-rectangles with one level less. -/
theorem RecursiveSplitCalls_succ_cases (chunkPos : Vector3) (r : Rect) (depth : Nat) :
    (RecursiveSplitCalls chunkPos r (depth + 1) = .push r ∧
      RecursiveSplit chunkPos r (depth + 1) = [r]) ∨
    (∃ r1 r2 : Rect,
      RecursiveSplitCalls chunkPos r (depth + 1) =
        .nest r (RecursiveSplitCalls chunkPos r1 depth) (RecursiveSplitCalls chunkPos r2 depth) ∧
      RecursiveSplit chunkPos r (depth + 1) =
        RecursiveSplit chunkPos r1 depth ++ RecursiveSplit chunkPos r2 depth) := by
  generalize hL : RecursiveSplit chunkPos r (depth + 1) = L
  generalize hT : RecursiveSplitCalls chunkPos r (depth + 1) = T
  rw [RecursiveSplit] at hL
  rw [RecursiveSplitCalls] at hT
  dsimp only at hL hT
  split_ifs at hL hT
  all_goals first
    | exact Or.inl ⟨hT.symm, hL.symm⟩
    | exact Or.inr ⟨_, _, hT.symm, hL.symm⟩

/-- The call tree pushes exactly the rectangles that `RecursiveSplit` returns. -/
theorem RecursiveSplitCalls_blocks (chunkPos : Vector3) :
    ∀ (depth : Nat) (r : Rect),
      (RecursiveSplitCalls chunkPos r depth).blocks = RecursiveSplit chunkPos r depth := by
  intro depth
  induction depth with
  | zero => intro r; rfl
  | succ d ih =>
    intro r
    rcases RecursiveSplitCalls_succ_cases chunkPos r d with ⟨hT, hL⟩ | ⟨r1, r2, hT, hL⟩
    · rw [hT, hL]; rfl
    · rw [hT, hL, SplitCall.blocks, ih, ih]

/-- The call tree of `RecursiveSplit(r, depth)` nests at most `depth` levels. -/
theorem RecursiveSplitCalls_levels (chunkPos : Vector3) :
    ∀ (depth : Nat) (r : Rect), (RecursiveSplitCalls chunkPos r depth).levels ≤ depth := by
  intro depth
  induction depth with
  | zero => intro r; simp [RecursiveSplitCalls, SplitCall.levels]
  | succ d ih =>
    intro r
    rcases RecursiveSplitCalls_succ_cases chunkPos r d with ⟨hT, _⟩ | ⟨r1, r2, hT, _⟩
    · rw [hT]; simp [SplitCall.levels]
    · rw [hT, SplitCall.levels]
      have h1 := ih r1
      have h2 := ih r2
      omega

/-- `RecursiveSplit(r, depth)` pushes at least one and at most `2^depth` rectangles. -/
theorem RecursiveSplit_length (chunkPos : Vector3) :
    ∀ (depth : Nat) (r : Rect),
      1 ≤ (RecursiveSplit chunkPos r depth).length ∧
        (RecursiveSplit chunkPos r depth).length ≤ 2 ^ depth := by
  intro depth
  induction depth with
  | zero => intro r; simp [RecursiveSplit]
  | succ d ih =>
    intro r
    rcases RecursiveSplitCalls_succ_cases chunkPos r d with ⟨_, hL⟩ | ⟨r1, r2, _, hL⟩
    · rw [hL]
      exact ⟨le_refl _, Nat.one_le_two_pow⟩
    · rw [hL, List.length_append, pow_succ]
      have h1 := ih r1
      have h2 := ih r2
      omega

/-- C3: for every rectangle, chunk origin and depth, `RecursiveSplit(r, depth)` returns
(the embedding is a total function), its call tree pushes exactly the returned blocks and
nests at most `depth` levels, and it pushes at least 1 and at most `2^depth` blocks; the
root call with depth 6 pushes at most 64. -/
theorem C3_split_terminates_within_depth (chunkPos : Vector3) (r : Rect) (depth : Nat) :
    (RecursiveSplitCalls chunkPos r depth).blocks = RecursiveSplit chunkPos r depth ∧
      (RecursiveSplitCalls chunkPos r depth).levels ≤ depth ∧
      1 ≤ (RecursiveSplit chunkPos r depth).length ∧
      (RecursiveSplit chunkPos r depth).length ≤ 2 ^ depth ∧
      (chunkBlocks chunkPos).length ≤ 64 :=
  ⟨RecursiveSplitCalls_blocks chunkPos depth r, RecursiveSplitCalls_levels chunkPos depth r,
    (RecursiveSplit_length chunkPos depth r).1, (RecursiveSplit_length chunkPos depth r).2,
    (RecursiveSplit_length chunkPos 6 rootRect).2⟩

theorem toInt_of_nonneg {q : ℚ} {n : Int} (h0 : 0 ≤ q) (h1 : (n : ℚ) ≤ q) (h2 : q < n + 1) :
    toInt q = n := by
  unfold toInt
  rw [if_pos h0]
  exact Int.floor_eq_iff.mpr ⟨h1, h2⟩

theorem toInt_of_neg {q : ℚ} {n : Int} (h0 : q < 0) (h1 : (n : ℚ) - 1 < q) (h2 : q ≤ n) :
    toInt q = n := by
  unfold toInt
  rw [if_neg (not_le.mpr h0)]
  exact Int.ceil_eq_iff.mpr ⟨h1, h2⟩

/-! ### The chunk at the world origin, along one branch

`Hash(0, 0, 6)` is about -0.789: the root splits along z at ratio 0.191 and the first
part is 400 x 73.29. `Hash(0, -163, 5)` is about 0.103: that part splits along x at ratio
0.405, first part 158.89 x 73.29. `Hash(-120, -163, 4)` is about -0.955: ratio 0.151,
first part 20.95 x 73.29, which is below 30 wide and is pushed as a leaf. -/

/-- First split of the chunk at the origin: along z, keeping the first part. -/
theorem originChunk_depth6 (b : Rect)
    (hb : b ∈ RecursiveSplit ⟨0, 0, 0⟩ ⟨-200, -200, 400, 2459118991 / 33554432⟩ 5) :
    b ∈ RecursiveSplit ⟨0, 0, 0⟩ ⟨-200, -200, 400, 400⟩ 6 := by
  have hb1 : hashBits 0 0 6 = 1920572283 := by decide
  have t1 : toInt (-200 + 400 / 2 + 0) = 0 := by norm_num [toInt]
  rw [show (6 : ℕ) = 5 + 1 from rfl, RecursiveSplit]
  simp only [t1]
  norm_num [Hash, hb1]
  left
  exact hb

/-- Second split: along x, keeping the first part. -/
theorem originChunk_depth5 (b : Rect)
    (hb : b ∈ RecursiveSplit ⟨0, 0, 0⟩
      ⟨-200, -200, 5331575767 / 33554432, 2459118991 / 33554432⟩ 4) :
    b ∈ RecursiveSplit ⟨0, 0, 0⟩ ⟨-200, -200, 400, 2459118991 / 33554432⟩ 5 := by
  have hb2 : hashBits 0 (-163) 5 = 963086691 := by decide
  have t1 : toInt (-200 + 400 / 2 + 0) = 0 := by norm_num [toInt]
  have t2 : toInt (-200 + 2459118991 / 33554432 / 2 + 0) = -163 :=
    toInt_of_neg (by norm_num) (by norm_num) (by norm_num)
  rw [show (5 : ℕ) = 4 + 1 from rfl, RecursiveSplit]
  simp only [t1, t2]
  norm_num [Hash, hb2, abs_lt]
  left
  exact hb

/-- Third split: along x again, keeping the first part. -/
theorem originChunk_depth4 (b : Rect) (hb : b ∈ RecursiveSplit ⟨0, 0, 0⟩ narrowLeaf 3) :
    b ∈ RecursiveSplit ⟨0, 0, 0⟩
      ⟨-200, -200, 5331575767 / 33554432, 2459118991 / 33554432⟩ 4 := by
  have hb3 : hashBits (-120) (-163) 4 = 2099482501 := by decide
  have t1 : toInt (-200 + 5331575767 / 33554432 / 2 + 0) = -120 :=
    toInt_of_neg (by norm_num) (by norm_num) (by norm_num)
  have t2 : toInt (-200 + 2459118991 / 33554432 / 2 + 0) = -163 :=
    toInt_of_neg (by norm_num) (by norm_num) (by norm_num)
  unfold narrowLeaf at hb
  rw [show (4 : ℕ) = 3 + 1 from rfl, RecursiveSplit]
  simp only [t1, t2]
  norm_num [Hash, hb3, abs_lt]
  left
  exact hb

/-- The first part of the third split is narrower than 30 and is pushed as it is. -/
theorem originChunk_depth3 : narrowLeaf ∈ RecursiveSplit ⟨0, 0, 0⟩ narrowLeaf 3 := by
  unfold narrowLeaf
  rw [show (3 : ℕ) = 2 + 1 from rfl, RecursiveSplit]
  norm_num

/-- The rectangle `narrowLeaf` is a leaf block of the chunk at the world origin. -/
theorem narrowLeaf_mem : narrowLeaf ∈ RecursiveSplit ⟨0, 0, 0⟩ ⟨-200, -200, 400, 400⟩ 6 :=
  originChunk_depth6 _ (originChunk_depth5 _ (originChunk_depth4 _ originChunk_depth3))

/-- Counterexample to C2: the chunk at the world origin has the leaf block `narrowLeaf`,
whose width is below the threshold 30 (it is below 21). -/
theorem C2_counterexample :
    narrowLeaf ∈ RecursiveSplit ⟨0, 0, 0⟩ ⟨-200, -200, 400, 400⟩ 6 ∧ narrowLeaf.w < 30 ∧
      narrowLeaf.w < 21 := by
  refine ⟨narrowLeaf_mem, ?_, ?_⟩ <;> norm_num [narrowLeaf]

/-- A rectangle at least 17 wide and deep is split only into rectangles at least 17 wide
and deep: a part measures at least 20 before the half street gap of 3 is taken off. -/
theorem RecursiveSplit_min_size (chunkPos : Vector3) :
    ∀ (depth : Nat) (r : Rect), 17 ≤ r.w → 17 ≤ r.h →
      ∀ b ∈ RecursiveSplit chunkPos r depth, 17 ≤ b.w ∧ 17 ≤ b.h := by
  intro depth
  induction depth with
  | zero =>
    intro r hw hh b hb
    simp only [RecursiveSplit, List.mem_singleton] at hb
    subst hb
    exact ⟨hw, hh⟩
  | succ d ih =>
    intro r hw hh b hb
    rcases RecursiveSplit_succ_cases chunkPos r d with h | ⟨w1, w2, hw1, hw2, -, h⟩ |
      ⟨h1, h2, hh1, hh2, -, h⟩
    · rw [h, List.mem_singleton] at hb
      subst hb
      exact ⟨hw, hh⟩
    · rw [h, List.mem_append] at hb
      rcases hb with hb | hb
      · exact ih ⟨r.x, r.z, w1 - 3, r.h⟩ (by show (17 : ℚ) ≤ w1 - 3; linarith) hh b hb
      · exact ih ⟨r.x + w1 + 3, r.z, w2 - 3, r.h⟩ (by show (17 : ℚ) ≤ w2 - 3; linarith) hh b hb
    · rw [h, List.mem_append] at hb
      rcases hb with hb | hb
      · exact ih ⟨r.x, r.z, r.w, h1 - 3⟩ hw (by show (17 : ℚ) ≤ h1 - 3; linarith) b hb
      · exact ih ⟨r.x, r.z + h1 + 3, r.w, h2 - 3⟩ hw (by show (17 : ℚ) ≤ h2 - 3; linarith) b hb

/-- C2, amended: for every chunk origin, no leaf block of
`RecursiveSplit({-200, -200, 400, 400}, 6)` has a width or a height below 17, the split
guard 20 less half the street gap. (The threshold 30 only stops further splitting.) -/
theorem C2_leaf_at_least_17 (chunkPos : Vector3) (b : Rect)
    (hb : b ∈ RecursiveSplit chunkPos ⟨-200, -200, 400, 400⟩ 6) :
    ¬ (b.w < 17) ∧ ¬ (b.h < 17) := by
  have h := RecursiveSplit_min_size chunkPos 6 ⟨-200, -200, 400, 400⟩
    (by norm_num) (by norm_num) b hb
  exact ⟨not_lt.mpr h.1, not_lt.mpr h.2⟩

/-- Witness of the amended C2: the leaf `narrowLeaf` of the chunk at the origin. -/
theorem C2_leaf_at_least_17_witness :
    narrowLeaf ∈ RecursiveSplit ⟨0, 0, 0⟩ ⟨-200, -200, 400, 400⟩ 6 ∧
      ¬ (narrowLeaf.w < 17) ∧ ¬ (narrowLeaf.h < 17) :=
  ⟨narrowLeaf_mem, C2_leaf_at_least_17 ⟨0, 0, 0⟩ narrowLeaf narrowLeaf_mem⟩

/-! ### AddCube and the buffers -/

/-- One `AddCube` call takes the buffers from the parity of `k` boxes to that of `k + 1`. -/
theorem AddCube_parity (st : Buffers) (pos size : Vector3) (k : Nat) (h : st.parity k) :
    (AddCube st pos size).parity (k + 1) := by
  obtain ⟨h1, h2, h3, h4, h5, h6⟩ := h
  refine ⟨?_, ?_, ?_, ?_, ?_, ?_⟩
  · simp [AddCube, cubeVertices, h1]; ring
  · simp [AddCube, cubeNormals, h2]; ring
  · simp [AddCube, h3]; ring
  · simp [AddCube, cubeIndices, h4]; ring
  · simp [AddCube, h5]
  · simp [AddCube, h6]; ring

/-- A sequence of `AddCube` calls adds its length to the box count of the parity. -/
theorem emit_parity (calls : List CubeCall) :
    ∀ (st : Buffers) (k : Nat), st.parity k → (emit st calls).parity (k + calls.length) := by
  induction calls with
  | nil => intro st k h; simpa [emit] using h
  | cons c rest ih =>
    intro st k h
    have h1 := ih (AddCube st c.pos c.size) (k + 1) (AddCube_parity st c.pos c.size k h)
    have e : k + (c :: rest).length = k + 1 + rest.length := by simp; ring
    rw [e]
    exact h1

theorem start_parity : Buffers.start.parity 0 := by
  simp [Buffers.parity, Buffers.start]

/-- From the empty buffers, a sequence of `AddCube` calls reaches the parity of its length. -/
theorem emit_start_parity (calls : List CubeCall) :
    (emit Buffers.start calls).parity calls.length := by
  have h := emit_parity calls Buffers.start 0 start_parity
  rw [Nat.zero_add] at h
  exact h

theorem Chunk.model_mk (p : Vector3) (m : Mesh) (c : List BoundingBox) (a : Bool) :
    (Chunk.mk p m c a).model = m := rfl

theorem Chunk.colliders_mk (p : Vector3) (m : Mesh) (c : List BoundingBox) (a : Bool) :
    (Chunk.mk p m c a).colliders = c := rfl

theorem GenerateChunk_model (chunkPos : Vector3) :
    (GenerateChunk chunkPos).model = constructMesh (chunkBuffers chunkPos) :=
  Chunk.model_mk chunkPos _ _ true

theorem GenerateChunk_colliders (chunkPos : Vector3) :
    (GenerateChunk chunkPos).colliders = (chunkBuffers chunkPos).colliders :=
  Chunk.colliders_mk chunkPos _ _ true

theorem constructMesh_counts (st : Buffers) (k : Nat) (h : st.parity k) :
    (constructMesh st).vertexCount = 24 * (k : Int) ∧
      (constructMesh st).indices.length = 36 * k ∧
      (constructMesh st).triangleCount = 12 * (k : Int) := by
  obtain ⟨h1, -, -, h4, -, -⟩ := h
  refine ⟨?_, ?_, ?_⟩
  · simp only [constructMesh, h1]
    push_cast
    ring
  · simp only [constructMesh, h4]
  · simp only [constructMesh, h4]
    push_cast
    omega

/-- C4: for every chunk origin, after each of the `AddCube` calls of `GenerateChunk` (the
first `n` calls, for every `n`) the buffers hold 24 vertices and 36 indices per emitted
box, one collider per box and the vertex base `24 * k`; at the end of `GenerateChunk`
the mesh and the chunk have `vertexCount = 24 * k`, `36 * k` indices and `k` colliders
for the number `k` of boxes emitted. -/
theorem C4_geometry_collider_parity (chunkPos : Vector3) :
    (∀ n : Nat, (emit Buffers.start ((chunkCalls chunkPos).take n)).parity
        ((chunkCalls chunkPos).take n).length) ∧
      (chunkBuffers chunkPos).parity (chunkCalls chunkPos).length ∧
      (GenerateChunk chunkPos).model.vertexCount = 24 * ((chunkCalls chunkPos).length : Int) ∧
      (GenerateChunk chunkPos).model.indices.length = 36 * (chunkCalls chunkPos).length ∧
      (GenerateChunk chunkPos).model.triangleCount = 12 * ((chunkCalls chunkPos).length : Int) ∧
      (GenerateChunk chunkPos).colliders.length = (chunkCalls chunkPos).length := by
  have hfin : (chunkBuffers chunkPos).parity (chunkCalls chunkPos).length := by
    unfold chunkBuffers
    exact emit_start_parity _
  have hm := constructMesh_counts _ _ hfin
  rw [GenerateChunk_model, GenerateChunk_colliders]
  exact ⟨fun n => emit_start_parity _, hfin, hm.1, hm.2.1, hm.2.2, hfin.2.2.2.2.1⟩

/-! ### Determinism -/

/-- C5: `GenerateChunk` is a function of its origin: two calls with the same origin give
the same vertex, normal and index sequences, the same vertex and index counts and the
same collider list in the same order. -/
theorem C5_generateChunk_deterministic (o₁ o₂ : Vector3) (h : o₁ = o₂) :
    (GenerateChunk o₁).model.vertices = (GenerateChunk o₂).model.vertices ∧
      (GenerateChunk o₁).model.normals = (GenerateChunk o₂).model.normals ∧
      (GenerateChunk o₁).model.indices = (GenerateChunk o₂).model.indices ∧
      (GenerateChunk o₁).model.vertexCount = (GenerateChunk o₂).model.vertexCount ∧
      (GenerateChunk o₁).model.indices.length = (GenerateChunk o₂).model.indices.length ∧
      (GenerateChunk o₁).colliders = (GenerateChunk o₂).colliders := by
  subst h
  exact ⟨rfl, rfl, rfl, rfl, rfl, rfl⟩

/-- Witness of C5 at the origin `(0, 0, 0)`. -/
theorem C5_generateChunk_deterministic_witness :
    (GenerateChunk ⟨0, 0, 0⟩).model.vertices = (GenerateChunk ⟨0, 0, 0⟩).model.vertices ∧
      (GenerateChunk ⟨0, 0, 0⟩).model.normals = (GenerateChunk ⟨0, 0, 0⟩).model.normals ∧
      (GenerateChunk ⟨0, 0, 0⟩).model.indices = (GenerateChunk ⟨0, 0, 0⟩).model.indices ∧
      (GenerateChunk ⟨0, 0, 0⟩).model.vertexCount = (GenerateChunk ⟨0, 0, 0⟩).model.vertexCount ∧
      (GenerateChunk ⟨0, 0, 0⟩).model.indices.length =
        (GenerateChunk ⟨0, 0, 0⟩).model.indices.length ∧
      (GenerateChunk ⟨0, 0, 0⟩).colliders = (GenerateChunk ⟨0, 0, 0⟩).colliders :=
  C5_generateChunk_deterministic ⟨0, 0, 0⟩ ⟨0, 0, 0⟩ rfl

/-! ### Hash -/

/-- The masked value inside `Hash` fits in 31 bits. -/
theorem hashBits_lt (x y z : Int) : hashBits x y z < 2147483648 := by
  unfold hashBits
  exact Nat.lt_succ_of_le Nat.and_le_right

/-- C6: for all integers `x`, `y`, `z` (taken modulo `2^32`), `Hash(x, y, z)` is
`1 - m / 2^30` for the 31-bit masked value `m`, and lies in the interval `[-1, 1]`. -/
theorem C6_hash_range (x y z : Int) :
    hashBits x y z < 2 ^ 31 ∧
      Hash x y z = 1 - (hashBits x y z : ℚ) / 2 ^ 30 ∧
      -1 ≤ Hash x y z ∧ Hash x y z ≤ 1 := by
  have h := hashBits_lt x y z
  have hq : (hashBits x y z : ℚ) < 2147483648 := by exact_mod_cast h
  have h0 : (0 : ℚ) ≤ (hashBits x y z : ℚ) := Nat.cast_nonneg _
  refine ⟨by norm_num; exact h, by unfold Hash; norm_num, ?_, ?_⟩
  · unfold Hash
    have : (hashBits x y z : ℚ) / 1073741824 ≤ 2 := by
      rw [div_le_iff₀ (by norm_num)]
      linarith
    linarith
  · unfold Hash
    have : 0 ≤ (hashBits x y z : ℚ) / 1073741824 := div_nonneg h0 (by norm_num)
    linarith

/-! ### CheckCollision -/

/-- The test on squares in `distanceExceeds` is the test on the distance itself. -/
theorem distanceExceeds_iff_sqrt (v1 v2 : Vector3) (d : ℚ) (hd : 0 ≤ d) :
    distanceExceeds v1 v2 d = true ↔ Real.sqrt ((Vector3DistanceSqr v1 v2 : ℚ) : ℝ) > (d : ℝ) := by
  unfold distanceExceeds
  rw [decide_eq_true_iff, gt_iff_lt, gt_iff_lt,
    Real.lt_sqrt (by exact_mod_cast hd)]
  constructor
  · intro h
    have : ((d * d : ℚ) : ℝ) < ((Vector3DistanceSqr v1 v2 : ℚ) : ℝ) := by exact_mod_cast h
    rw [pow_two]
    push_cast at this
    exact this
  · intro h
    rw [pow_two] at h
    have : ((d * d : ℚ) : ℝ) < ((Vector3DistanceSqr v1 v2 : ℚ) : ℝ) := by
      push_cast
      exact h
    exact_mod_cast this

theorem hitsAnyBox_iff (playerBox : BoundingBox) (boxes : List BoundingBox) :
    hitsAnyBox playerBox boxes = true ↔
      ∃ box ∈ boxes, CheckCollisionBoxes playerBox box = true := by
  induction boxes with
  | nil => simp [hitsAnyBox]
  | cons box rest ih =>
    unfold hitsAnyBox
    by_cases h : CheckCollisionBoxes playerBox box = true
    · simp [h]
    · simp [h, ih]

theorem scanChunks_iff (playerBox : BoundingBox) (position : Vector3) (chunks : List Chunk) :
    scanChunks playerBox position chunks = true ↔
      ∃ chunk ∈ chunks, distanceExceeds chunk.position position 300 = false ∧
        hitsAnyBox playerBox chunk.colliders = true := by
  induction chunks with
  | nil => simp [scanChunks]
  | cons chunk rest ih =>
    unfold scanChunks
    by_cases h : distanceExceeds chunk.position position 300 = true
    · simp [h, ih]
    · by_cases h2 : hitsAnyBox playerBox chunk.colliders = true
      · simp [h, h2]
      · simp [h, h2, ih]

/-- For proper intervals, `intervalsMeet` says that the two closed intervals share a point. -/
theorem intervalsMeet_iff_inter (lo₁ hi₁ lo₂ hi₂ : ℚ) (h₁ : lo₁ ≤ hi₁) (h₂ : lo₂ ≤ hi₂) :
    intervalsMeet lo₁ hi₁ lo₂ hi₂ ↔ (Set.Icc lo₁ hi₁ ∩ Set.Icc lo₂ hi₂).Nonempty := by
  unfold intervalsMeet
  constructor
  · rintro ⟨h, k⟩
    refine ⟨max lo₁ lo₂, ⟨le_max_left _ _, max_le h₁ k⟩, ⟨le_max_right _ _, max_le h h₂⟩⟩
  · rintro ⟨x, ⟨a, b⟩, ⟨c, d⟩⟩
    exact ⟨le_trans a d, le_trans c b⟩

/-- C7: `CheckCollision` returns true exactly when some chunk whose origin is at distance
at most 300 from the query position holds a collider whose x, y and z intervals all meet
those of the query box `[x - radius, x + radius] × [y - height, y] × [z - radius, z + radius]`. -/
theorem C7_checkCollision_iff (position : Vector3) (radius height : ℚ) (chunks : List Chunk) :
    CheckCollision position radius height chunks = true ↔
      ∃ chunk ∈ chunks,
        Real.sqrt ((Vector3DistanceSqr chunk.position position : ℚ) : ℝ) ≤ 300 ∧
        ∃ box ∈ chunk.colliders,
          intervalsMeet (position.x - radius) (position.x + radius) box.min.x box.max.x ∧
          intervalsMeet (position.y - height) position.y box.min.y box.max.y ∧
          intervalsMeet (position.z - radius) (position.z + radius) box.min.z box.max.z := by
  unfold CheckCollision
  rw [scanChunks_iff]
  constructor
  · rintro ⟨chunk, hc, hd, hb⟩
    refine ⟨chunk, hc, ?_, ?_⟩
    · have := (distanceExceeds_iff_sqrt chunk.position position 300 (by norm_num)).not
      rw [Bool.not_eq_true] at this
      have h2 := this.mp hd
      push_cast at h2
      exact not_lt.mp h2
    · obtain ⟨box, hbox, hhit⟩ := (hitsAnyBox_iff _ _).mp hb
      refine ⟨box, hbox, ?_⟩
      simpa [CheckCollisionBoxes] using hhit
  · rintro ⟨chunk, hc, hd, box, hbox, hhit⟩
    refine ⟨chunk, hc, ?_, ?_⟩
    · have := (distanceExceeds_iff_sqrt chunk.position position 300 (by norm_num)).not
      rw [Bool.not_eq_true] at this
      apply this.mpr
      push_cast
      exact not_lt.mpr hd
    · refine (hitsAnyBox_iff _ _).mpr ⟨box, hbox, ?_⟩
      simpa [CheckCollisionBoxes] using hhit

/-! ### The archetype loop -/

/-- The test on squares in `spawnSafety` is the test `sqrt(cx * cx + cz * cz) < 25`. -/
theorem spawnSafety_iff_sqrt (cx cz : ℚ) :
    spawnSafety cx cz = true ↔ Real.sqrt ((cx * cx + cz * cz : ℚ) : ℝ) < 25 := by
  unfold spawnSafety
  rw [decide_eq_true_iff, Real.sqrt_lt' (by norm_num)]
  constructor
  · intro h
    have : ((cx * cx + cz * cz : ℚ) : ℝ) < ((25 * 25 : ℚ) : ℝ) := by exact_mod_cast h
    calc ((cx * cx + cz * cz : ℚ) : ℝ) < ((25 * 25 : ℚ) : ℝ) := this
      _ = 25 ^ 2 := by norm_num
  · intro h
    have : ((cx * cx + cz * cz : ℚ) : ℝ) < ((25 * 25 : ℚ) : ℝ) := by
      calc ((cx * cx + cz * cz : ℚ) : ℝ) < 25 ^ 2 := h
        _ = ((25 * 25 : ℚ) : ℝ) := by norm_num
    exact_mod_cast this

theorem statueCalls_archetype (b : Rect) (cx cz baseHeight : ℚ) :
    ∀ c ∈ statueCalls b cx cz baseHeight, c.archetype = .statue := by
  intro c hc
  simp only [statueCalls, List.mem_cons, List.mem_singleton, List.not_mem_nil, or_false] at hc
  rcases hc with h | h | h | h <;> rw [h]

theorem citadelCalls_archetype (chunkPos : Vector3) (b : Rect) (baseHeight : ℚ) :
    ∀ c ∈ citadelCalls chunkPos b baseHeight, c.archetype = .citadel := by
  intro c hc
  simp only [citadelCalls, List.mem_cons, List.mem_singleton, List.not_mem_nil, or_false] at hc
  rcases hc with h | h <;> rw [h]

theorem mem_ite_singleton {α : Type} {p : Prop} [Decidable p] {x c : α}
    (h : c ∈ (if p then [x] else [])) : c = x := by
  by_cases hp : p
  · rw [if_pos hp, List.mem_singleton] at h
    exact h
  · rw [if_neg hp] at h
    exact absurd h (List.not_mem_nil c)

theorem gridCalls_archetype (chunkPos : Vector3) (b : Rect) (baseHeight : ℚ) :
    ∀ c ∈ gridCalls chunkPos b baseHeight, c.archetype = .grid := by
  intro c hc
  simp only [gridCalls, List.mem_flatMap, List.mem_cons] at hc
  obtain ⟨i, -, j, -, h | h⟩ := hc
  · rw [h]
  · rw [mem_ite_singleton h]

theorem stairsCalls_archetype (b : Rect) (cx cz : ℚ) :
    ∀ c ∈ stairsCalls b cx cz, c.archetype = .stairs := by
  intro c hc
  simp only [stairsCalls, List.mem_map] at hc
  obtain ⟨s, -, h⟩ := hc
  rw [← h]

theorem slabCalls_archetype (b : Rect) (cx cz baseHeight : ℚ) :
    ∀ c ∈ slabCalls b cx cz baseHeight, c.archetype = .slab := by
  intro c hc
  simp only [slabCalls, List.mem_cons] at hc
  rcases hc with h | h
  · rw [h]
  · split_ifs at h
    · simp only [List.mem_flatMap, List.mem_cons] at h
      obtain ⟨k, -, h | h⟩ := h
      · rw [h]
      · split_ifs at h
        · rw [List.mem_singleton] at h
          rw [h]
        · simp at h
    · simp at h

theorem toInt_nonneg {q : ℚ} (h : 0 ≤ q) : 0 ≤ toInt q := by
  unfold toInt
  rw [if_pos h]
  exact Int.floor_nonneg.mpr h

/-- A block of positive width and height gets at least one pillar. -/
theorem gridCalls_ne_nil (chunkPos : Vector3) (b : Rect) (baseHeight : ℚ)
    (hw : 0 < b.w) (hh : 0 < b.h) : gridCalls chunkPos b baseHeight ≠ [] := by
  have hc : 0 ≤ toInt (b.w / 12) := toInt_nonneg (by positivity)
  have hr : 0 ≤ toInt (b.h / 12) := toInt_nonneg (by positivity)
  have hc1 : 0 < (if toInt (b.w / 12) = 0 then (1 : Int) else toInt (b.w / 12)).toNat := by
    split_ifs with h
    · decide
    · omega
  have hr1 : 0 < (if toInt (b.h / 12) = 0 then (1 : Int) else toInt (b.h / 12)).toNat := by
    split_ifs with h
    · decide
    · omega
  intro hnil
  have hmem : ∀ c, c ∈ gridCalls chunkPos b baseHeight → False := by
    intro c hc'
    rw [hnil] at hc'
    simp at hc'
  simp only [gridCalls, List.mem_flatMap, List.mem_cons] at hmem
  exact hmem _ ⟨0, List.mem_range.mpr hc1, 0, List.mem_range.mpr hr1, Or.inl rfl⟩

/-- The loop body with its hash values named: nothing for a spawn-excluded block,
otherwise the boxes of the first archetype whose test succeeds. -/
theorem blockCalls_eq (chunkPos : Vector3) (b : Rect) :
    blockCalls chunkPos b =
      if spawnSafety (centreX chunkPos b) (centreZ chunkPos b) then []
      else if typeValue chunkPos b > 0.92 ∧ b.w > 20 ∧ b.h > 20 then
        archetypeCalls chunkPos b .statue
      else if b.w > 60 ∧ b.h > 60 then archetypeCalls chunkPos b .citadel
      else if typeValue chunkPos b > 0.4 then archetypeCalls chunkPos b .grid
      else if typeValue chunkPos b < 0.2 then archetypeCalls chunkPos b .stairs
      else archetypeCalls chunkPos b .slab := by
  rfl

/-- The boxes of any one archetype all carry its label. -/
theorem archetypeCalls_archetype (chunkPos : Vector3) (b : Rect) (a : Archetype) :
    ∀ c ∈ archetypeCalls chunkPos b a, c.archetype = a := by
  cases a
  · exact statueCalls_archetype _ _ _ _
  · exact citadelCalls_archetype _ _ _
  · exact gridCalls_archetype _ _ _
  · exact stairsCalls_archetype _ _ _
  · exact slabCalls_archetype _ _ _ _

/-- On a block of positive width and height every archetype emits at least one box. -/
theorem archetypeCalls_ne_nil (chunkPos : Vector3) (b : Rect) (a : Archetype)
    (hw : 0 < b.w) (hh : 0 < b.h) : archetypeCalls chunkPos b a ≠ [] := by
  cases a
  · simp [archetypeCalls, statueCalls]
  · simp [archetypeCalls, citadelCalls]
  · exact gridCalls_ne_nil _ _ _ hw hh
  · simp [archetypeCalls, stairsCalls]
  · simp [archetypeCalls, slabCalls]

theorem statueCalls_length (chunkPos : Vector3) (b : Rect) :
    (archetypeCalls chunkPos b .statue).length = 4 := rfl

theorem citadelCalls_length (chunkPos : Vector3) (b : Rect) :
    (archetypeCalls chunkPos b .citadel).length = 2 := rfl

/-- C8: for a block of positive width and height (every leaf block is one) whose centre
is not closer than 25 to the world origin, exactly one archetype emits boxes: all boxes
of the block carry one archetype label, there is at least one box, the boxes are those of
that archetype, and the archetype is the first whose condition holds in the order statue,
citadel, pillar grid, stairs, slab. With type above 0.92 and both dimensions above 60 it
is the statue with its 4 boxes, not the citadel. -/
theorem C8_archetype_exclusive (chunkPos : Vector3) (b : Rect) (hw : 0 < b.w) (hh : 0 < b.h)
    (hfar : ¬ centreNear chunkPos b) :
    ∃ a : Archetype,
      firstMatch (typeValue chunkPos b) b = some a ∧
      blockCalls chunkPos b = archetypeCalls chunkPos b a ∧
      blockCalls chunkPos b ≠ [] ∧
      (∀ c ∈ blockCalls chunkPos b, c.archetype = a) ∧
      (∀ a' : Archetype, (∃ c ∈ blockCalls chunkPos b, c.archetype = a') → a' = a) ∧
      (typeValue chunkPos b > 0.92 ∧ b.w > 60 ∧ b.h > 60 →
        a = .statue ∧ (blockCalls chunkPos b).length = 4) := by
  have hsp : spawnSafety (centreX chunkPos b) (centreZ chunkPos b) = false := by
    rw [← Bool.not_eq_true]
    exact fun h => hfar ((spawnSafety_iff_sqrt _ _).mp h)
  have main : ∃ a : Archetype, firstMatch (typeValue chunkPos b) b = some a ∧
      blockCalls chunkPos b = archetypeCalls chunkPos b a := by
    rw [blockCalls_eq, hsp]
    by_cases h1 : typeValue chunkPos b > 0.92 ∧ b.w > 20 ∧ b.h > 20
    · exact ⟨.statue, by simp [firstMatch, archetypeOrder, Archetype.condition, h1], by simp [h1]⟩
    · by_cases h2 : b.w > 60 ∧ b.h > 60
      · exact ⟨.citadel, by simp [firstMatch, archetypeOrder, Archetype.condition, h1, h2],
          by simp [h1, h2]⟩
      · by_cases h3 : typeValue chunkPos b > 0.4
        · exact ⟨.grid, by simp [firstMatch, archetypeOrder, Archetype.condition, h1, h2, h3],
            by simp [h1, h2, h3]⟩
        · by_cases h4 : typeValue chunkPos b < 0.2
          · exact ⟨.stairs,
              by simp [firstMatch, archetypeOrder, Archetype.condition, h1, h2, h3, h4],
              by simp [h1, h2, h3, h4]⟩
          · exact ⟨.slab,
              by simp [firstMatch, archetypeOrder, Archetype.condition, h1, h2, h3, h4],
              by simp [h1, h2, h3, h4]⟩
  obtain ⟨a, hfirst, hcalls⟩ := main
  refine ⟨a, hfirst, hcalls, ?_, ?_, ?_, ?_⟩
  · rw [hcalls]
    exact archetypeCalls_ne_nil chunkPos b a hw hh
  · rw [hcalls]
    exact archetypeCalls_archetype chunkPos b a
  · rintro a' ⟨c, hc, hca⟩
    rw [hcalls] at hc
    rw [← hca]
    exact archetypeCalls_archetype chunkPos b a c hc
  · rintro ⟨h1, h2, h3⟩
    have hst : a = .statue := by
      have h20w : b.w > 20 := by linarith
      have h20h : b.h > 20 := by linarith
      have : firstMatch (typeValue chunkPos b) b = some .statue := by
        simp [firstMatch, archetypeOrder, Archetype.condition, h1, h20w, h20h]
      rw [this] at hfirst
      exact (Option.some.inj hfirst).symm
    refine ⟨hst, ?_⟩
    rw [hcalls, hst]
    exact statueCalls_length chunkPos b

/-- Witness of C8: the 70 x 70 block centred at `(100, 148)` has type value above 0.92,
so it gets the 4 statue boxes. -/
theorem C8_archetype_exclusive_witness :
    (0 : ℚ) < (⟨65, 113, 70, 70⟩ : Rect).w ∧ (0 : ℚ) < (⟨65, 113, 70, 70⟩ : Rect).h ∧
      ¬ centreNear ⟨0, 0, 0⟩ ⟨65, 113, 70, 70⟩ ∧
      typeValue ⟨0, 0, 0⟩ ⟨65, 113, 70, 70⟩ > 0.92 ∧
      (blockCalls ⟨0, 0, 0⟩ ⟨65, 113, 70, 70⟩).length = 4 := by
  have hw : (0 : ℚ) < (⟨65, 113, 70, 70⟩ : Rect).w := by norm_num
  have hh : (0 : ℚ) < (⟨65, 113, 70, 70⟩ : Rect).h := by norm_num
  have hfar : ¬ centreNear ⟨0, 0, 0⟩ ⟨65, 113, 70, 70⟩ := by
    unfold centreNear
    rw [← spawnSafety_iff_sqrt]
    norm_num [spawnSafety, centreX, centreZ]
  have hbits : hashBits 100 55 148 = 810021 := by decide
  have ht : typeValue ⟨0, 0, 0⟩ ⟨65, 113, 70, 70⟩ > 0.92 := by
    have e1 : toInt (centreX ⟨0, 0, 0⟩ ⟨65, 113, 70, 70⟩) = 100 := by
      norm_num [toInt, centreX]
    have e2 : toInt (centreZ ⟨0, 0, 0⟩ ⟨65, 113, 70, 70⟩) = 148 := by
      norm_num [toInt, centreZ]
    unfold typeValue
    rw [e1, e2, Hash, hbits]
    norm_num
  obtain ⟨a, -, -, -, -, -, h⟩ := C8_archetype_exclusive ⟨0, 0, 0⟩ ⟨65, 113, 70, 70⟩ hw hh hfar
  exact ⟨hw, hh, hfar, ht, (h ⟨ht, by norm_num, by norm_num⟩).2⟩

/-- Counterexample to C9: the 70 x 70 block centred on the world origin has type value
about 0.745, at most 0.92, and produces no box at all (spawn safety), not 2. -/
theorem C9_counterexample :
    (⟨-35, -35, 70, 70⟩ : Rect).w = 70 ∧ (⟨-35, -35, 70, 70⟩ : Rect).h = 70 ∧
      typeValue ⟨0, 0, 0⟩ ⟨-35, -35, 70, 70⟩ ≤ 0.92 ∧
      (blockCalls ⟨0, 0, 0⟩ ⟨-35, -35, 70, 70⟩).length = 0 ∧
      (blockCalls ⟨0, 0, 0⟩ ⟨-35, -35, 70, 70⟩).length ≠ 2 := by
  have hbits : hashBits 0 55 0 = 273480757 := by decide
  have ht : typeValue ⟨0, 0, 0⟩ ⟨-35, -35, 70, 70⟩ ≤ 0.92 := by
    have e1 : toInt (centreX ⟨0, 0, 0⟩ ⟨-35, -35, 70, 70⟩) = 0 := by
      norm_num [toInt, centreX]
    have e2 : toInt (centreZ ⟨0, 0, 0⟩ ⟨-35, -35, 70, 70⟩) = 0 := by
      norm_num [toInt, centreZ]
    unfold typeValue
    rw [e1, e2, Hash, hbits]
    norm_num
  have hsp : spawnSafety (centreX ⟨0, 0, 0⟩ ⟨-35, -35, 70, 70⟩)
      (centreZ ⟨0, 0, 0⟩ ⟨-35, -35, 70, 70⟩) = true := by
    norm_num [spawnSafety, centreX, centreZ]
  have hnil : blockCalls ⟨0, 0, 0⟩ ⟨-35, -35, 70, 70⟩ = [] := by
    rw [blockCalls_eq, if_pos hsp]
  refine ⟨rfl, rfl, ht, ?_, ?_⟩
  · rw [hnil]; rfl
  · rw [hnil]; decide

/-- C9, amended: a block with width 70 and height 70 whose type value is at most 0.92 and
whose centre is not closer than 25 to the world origin produces exactly 2 boxes, the
citadel main mass and the recessed top, whatever its identity value; when the centre is
closer than 25 it produces none. -/
theorem C9_citadel_two_boxes (chunkPos : Vector3) (b : Rect) (hw : b.w = 70) (hh : b.h = 70)
    (ht : typeValue chunkPos b ≤ 0.92) :
    (¬ centreNear chunkPos b →
      blockCalls chunkPos b = citadelCalls chunkPos b (20 + identityValue chunkPos b * 100) ∧
      (blockCalls chunkPos b).length = 2 ∧
      ∀ c ∈ blockCalls chunkPos b, c.archetype = .citadel) ∧
    (centreNear chunkPos b → (blockCalls chunkPos b).length = 0) := by
  constructor
  · intro hfar
    have hsp : spawnSafety (centreX chunkPos b) (centreZ chunkPos b) = false := by
      rw [← Bool.not_eq_true]
      exact fun h => hfar ((spawnSafety_iff_sqrt _ _).mp h)
    have h1 : ¬ (typeValue chunkPos b > 0.92 ∧ b.w > 20 ∧ b.h > 20) :=
      fun h => absurd h.1 (not_lt.mpr ht)
    have h2 : b.w > 60 ∧ b.h > 60 := by
      rw [hw, hh]
      norm_num
    have e : blockCalls chunkPos b = archetypeCalls chunkPos b .citadel := by
      rw [blockCalls_eq, hsp]
      simp only [Bool.false_eq_true, if_false, if_neg h1, if_pos h2]
    refine ⟨e, ?_, ?_⟩
    · rw [e]
      exact citadelCalls_length chunkPos b
    · rw [e]
      exact archetypeCalls_archetype chunkPos b .citadel
  · intro hnear
    have hsp := (spawnSafety_iff_sqrt _ _).mpr hnear
    rw [blockCalls_eq, if_pos hsp]
    rfl

/-- Witness of the amended C9: the 70 x 70 block centred at `(135, 135)`, type value about
-0.43, produces 2 boxes. -/
theorem C9_citadel_two_boxes_witness :
    (⟨100, 100, 70, 70⟩ : Rect).w = 70 ∧ (⟨100, 100, 70, 70⟩ : Rect).h = 70 ∧
      typeValue ⟨0, 0, 0⟩ ⟨100, 100, 70, 70⟩ ≤ 0.92 ∧
      ¬ centreNear ⟨0, 0, 0⟩ ⟨100, 100, 70, 70⟩ ∧
      (blockCalls ⟨0, 0, 0⟩ ⟨100, 100, 70, 70⟩).length = 2 := by
  have hbits : hashBits 135 55 135 = 1532953381 := by decide
  have ht : typeValue ⟨0, 0, 0⟩ ⟨100, 100, 70, 70⟩ ≤ 0.92 := by
    have e1 : toInt (centreX ⟨0, 0, 0⟩ ⟨100, 100, 70, 70⟩) = 135 := by
      norm_num [toInt, centreX]
    have e2 : toInt (centreZ ⟨0, 0, 0⟩ ⟨100, 100, 70, 70⟩) = 135 := by
      norm_num [toInt, centreZ]
    unfold typeValue
    rw [e1, e2, Hash, hbits]
    norm_num
  have hfar : ¬ centreNear ⟨0, 0, 0⟩ ⟨100, 100, 70, 70⟩ := by
    unfold centreNear
    rw [← spawnSafety_iff_sqrt]
    norm_num [spawnSafety, centreX, centreZ]
  exact ⟨rfl, rfl, ht, hfar,
    ((C9_citadel_two_boxes ⟨0, 0, 0⟩ ⟨100, 100, 70, 70⟩ rfl rfl ht).1 hfar).2.1⟩

/-- C10: a block whose world-space centre is closer than 25 units to the world origin
contributes no box: the loop body makes no `AddCube` call for it, so the buffers and the
collider list stay as they are, whatever the dimensions and hash values of the block. -/
theorem C10_spawn_block_emits_nothing (chunkPos : Vector3) (b : Rect)
    (hnear : centreNear chunkPos b) :
    blockCalls chunkPos b = [] ∧
      (blockCalls chunkPos b).length = 0 ∧
      ∀ st : Buffers, emit st (blockCalls chunkPos b) = st ∧
        (emit st (blockCalls chunkPos b)).colliders.length = st.colliders.length := by
  have hsp := (spawnSafety_iff_sqrt _ _).mpr hnear
  have hnil : blockCalls chunkPos b = [] := by
    rw [blockCalls_eq, if_pos hsp]
  rw [hnil]
  exact ⟨rfl, rfl, fun st => ⟨rfl, rfl⟩⟩

/-- Witness of C10: the 40 x 40 block centred at `(10, 10)`, about 14.1 from the origin. -/
theorem C10_spawn_block_emits_nothing_witness :
    centreNear ⟨0, 0, 0⟩ ⟨-10, -10, 40, 40⟩ ∧
      blockCalls ⟨0, 0, 0⟩ ⟨-10, -10, 40, 40⟩ = [] := by
  have hnear : centreNear ⟨0, 0, 0⟩ ⟨-10, -10, 40, 40⟩ := by
    unfold centreNear
    rw [← spawnSafety_iff_sqrt]
    norm_num [spawnSafety, centreX, centreZ]
  exact ⟨hnear, (C10_spawn_block_emits_nothing ⟨0, 0, 0⟩ ⟨-10, -10, 40, 40⟩ hnear).1⟩

/-! ### The fall check and the ground check -/

/-- C12: when the vertical position is below -30 the fall check sets it to 60 and the
velocity to the zero vector, and leaves the horizontal position (and every other field)
as it was; a state with vertical position at or above -30 is left unchanged. -/
theorem C12_fall_check (player : Player) :
    (player.position.y < -30 →
      (fallCheck player).position.y = 60 ∧
      (fallCheck player).velocity = ⟨0, 0, 0⟩ ∧
      (fallCheck player).position.x = player.position.x ∧
      (fallCheck player).position.z = player.position.z ∧
      fallCheck player =
        { player with position := ⟨player.position.x, 60, player.position.z⟩,
                      velocity := ⟨0, 0, 0⟩ }) ∧
    (-30 ≤ player.position.y → fallCheck player = player) := by
  constructor
  · intro h
    have h' : player.position.y < -30.0 := by norm_num; exact h
    unfold fallCheck
    rw [if_pos h']
    norm_num
  · intro h
    have h' : ¬ player.position.y < -30.0 := by norm_num; exact h
    unfold fallCheck
    rw [if_neg h']

theorem cameraUpdate_position (m : MathLib) (f : FrameInput) (player : Player) (input : Vector2)
    (dt : ℚ) : (cameraUpdate m f player input dt).position = player.position := by
  unfold cameraUpdate
  split_ifs <;> rfl

theorem cameraUpdate_velocity (m : MathLib) (f : FrameInput) (player : Player) (input : Vector2)
    (dt : ℚ) : (cameraUpdate m f player input dt).velocity = player.velocity := by
  unfold cameraUpdate
  split_ifs <;> rfl

theorem cameraUpdate_isGrounded (m : MathLib) (f : FrameInput) (player : Player)
    (input : Vector2) (dt : ℚ) :
    (cameraUpdate m f player input dt).isGrounded = player.isGrounded := by
  unfold cameraUpdate
  split_ifs <;> rfl

/-- The ground check, case by case: the floor clamp grounds the player at the threshold;
otherwise the position stays and the flag is the outcome of the probe; in both cases a
negative vertical velocity is zeroed when the flag is set. -/
theorem groundCheck_spec (f : FrameInput) (q : Player) (chunks : List Chunk) :
    (q.position.y ≤ playerHeight f →
      (groundCheck f q chunks).isGrounded = true ∧
      (groundCheck f q chunks).position = { q.position with y := playerHeight f }) ∧
    (¬ q.position.y ≤ playerHeight f →
      (groundCheck f q chunks).position = q.position ∧
      (groundCheck f q chunks).isGrounded =
        CheckCollision ⟨q.position.x, q.position.y - 0.1, q.position.z⟩ 0.3 1.8 chunks) ∧
    ((groundCheck f q chunks).isGrounded = true → 0 ≤ (groundCheck f q chunks).velocity.y) := by
  refine ⟨?_, ?_, ?_⟩
  · intro h
    unfold groundCheck
    rw [if_pos h]
    dsimp only
    split_ifs <;> exact ⟨rfl, rfl⟩
  · intro h
    unfold groundCheck
    rw [if_neg h]
    dsimp only
    split_ifs with h1 h2
    · exact ⟨rfl, h1.symm⟩
    · exact ⟨rfl, h1.symm⟩
    · refine ⟨rfl, ?_⟩
      rw [Bool.not_eq_true] at h1
      exact h1.symm
  · unfold groundCheck
    dsimp only
    split_ifs with h1 h2 h3 h4
    · intro _; exact le_refl _
    · intro _; exact not_lt.mp h2
    · intro _; exact le_refl _
    · intro _; exact not_lt.mp h4
    · intro h; exact absurd h (by simp)

/-! ### Integration and auto-step -/

theorem readInput_position (m : MathLib) (f : FrameInput) (player : Player) (chunks : List Chunk)
    (dt : ℚ) : (readInput m f player chunks dt).1.position = player.position := by
  unfold readInput
  dsimp only
  split_ifs <;> rfl

theorem readInput_velocity (m : MathLib) (f : FrameInput) (player : Player) (chunks : List Chunk)
    (dt : ℚ) : (readInput m f player chunks dt).1.velocity = player.velocity := by
  unfold readInput
  dsimp only
  split_ifs <;> rfl

theorem readInput_isGrounded (m : MathLib) (f : FrameInput) (player : Player)
    (chunks : List Chunk) (dt : ℚ) :
    (readInput m f player chunks dt).1.isGrounded = player.isGrounded := by
  unfold readInput
  dsimp only
  split_ifs <;> rfl

/-- Sections 1 to 4 leave the position as it was at the start of the frame. -/
theorem beforeIntegration_position (m : MathLib) (f : FrameInput) (player : Player)
    (chunks : List Chunk) (dt : ℚ) :
    (beforeIntegration m f player chunks dt).position = player.position := by
  have h := readInput_position m f player chunks dt
  unfold beforeIntegration movement physics look
  dsimp only
  split_ifs <;> exact h

/-- For a grounded player and no jump request, sections 1 to 4 keep the grounded flag
and the vertical velocity. -/
theorem beforeIntegration_grounded (m : MathLib) (f : FrameInput) (player : Player)
    (chunks : List Chunk) (dt : ℚ) (hg : player.isGrounded = true)
    (hj : f.spacePressed = false) :
    (beforeIntegration m f player chunks dt).isGrounded = true ∧
      (beforeIntegration m f player chunks dt).velocity.y = player.velocity.y := by
  have h1 := readInput_isGrounded m f player chunks dt
  have h2 := readInput_velocity m f player chunks dt
  rw [hg] at h1
  unfold beforeIntegration movement physics look
  simp only [h1, hj, h2, Bool.not_true, Bool.false_eq_true, if_false, Bool.and_false,
    if_true]
  exact ⟨trivial, trivial⟩

/-- The X axis steps up: grounded, the advanced position collides, raised by the step
height it is free. Position advanced and raised; velocity untouched. -/
theorem integrateX_step (p : Player) (chunks : List Chunk) (dt : ℚ) (hg : p.isGrounded = true)
    (h1 : CheckCollision ⟨p.position.x + p.velocity.x * dt, p.position.y, p.position.z⟩
      0.3 1.8 chunks = true)
    (h2 : CheckCollision
      ⟨p.position.x + p.velocity.x * dt, p.position.y + stepHeight, p.position.z⟩
      0.3 1.8 chunks = false) :
    integrateX p chunks dt = { p with position :=
      ⟨p.position.x + p.velocity.x * dt, p.position.y + stepHeight, p.position.z⟩ } := by
  unfold integrateX
  simp only [h1, h2, hg, if_true, Bool.not_false, Bool.and_true, Bool.not_true,
    Bool.false_eq_true, if_false]

/-- The X axis moves freely: the advanced position does not collide. -/
theorem integrateX_free (p : Player) (chunks : List Chunk) (dt : ℚ)
    (h1 : CheckCollision ⟨p.position.x + p.velocity.x * dt, p.position.y, p.position.z⟩
      0.3 1.8 chunks = false) :
    integrateX p chunks dt = { p with position :=
      ⟨p.position.x + p.velocity.x * dt, p.position.y, p.position.z⟩ } := by
  unfold integrateX
  simp only [h1, Bool.false_eq_true, if_false]

/-- The Z axis steps up. -/
theorem integrateZ_step (p : Player) (chunks : List Chunk) (dt : ℚ) (hg : p.isGrounded = true)
    (h1 : CheckCollision ⟨p.position.x, p.position.y, p.position.z + p.velocity.z * dt⟩
      0.3 1.8 chunks = true)
    (h2 : CheckCollision
      ⟨p.position.x, p.position.y + stepHeight, p.position.z + p.velocity.z * dt⟩
      0.3 1.8 chunks = false) :
    integrateZ p chunks dt = { p with position :=
      ⟨p.position.x, p.position.y + stepHeight, p.position.z + p.velocity.z * dt⟩ } := by
  unfold integrateZ
  simp only [h1, h2, hg, if_true, Bool.not_false, Bool.and_true, Bool.not_true,
    Bool.false_eq_true, if_false]

/-- The Z axis moves freely. -/
theorem integrateZ_free (p : Player) (chunks : List Chunk) (dt : ℚ)
    (h1 : CheckCollision ⟨p.position.x, p.position.y, p.position.z + p.velocity.z * dt⟩
      0.3 1.8 chunks = false) :
    integrateZ p chunks dt = { p with position :=
      ⟨p.position.x, p.position.y, p.position.z + p.velocity.z * dt⟩ } := by
  unfold integrateZ
  simp only [h1, Bool.false_eq_true, if_false]

/-- With no vertical velocity the Y axis changes nothing. -/
theorem integrateY_rest (p : Player) (chunks : List Chunk) (dt : ℚ) (hv : p.velocity.y = 0) :
    integrateY p chunks dt = p := by
  unfold integrateY
  simp only [hv, zero_mul, add_zero, lt_self_iff_false, gt_iff_lt, if_false, ite_self]

theorem groundCheck_velocity_xz (f : FrameInput) (q : Player) (chunks : List Chunk) :
    (groundCheck f q chunks).velocity.x = q.velocity.x ∧
      (groundCheck f q chunks).velocity.z = q.velocity.z := by
  unfold groundCheck
  dsimp only
  split_ifs <;> exact ⟨rfl, rfl⟩

/-- C11, amended: take a frame in which the agent is grounded at the start, no jump is
requested, the vertical velocity is zero, and the start height plus 0.6 lies above the
floor threshold. If exactly one horizontal axis steps - the x-advanced position collides,
raised by 0.6 it is free and stays free after the z advance; or the x advance is free, the
z-advanced position collides and raised by 0.6 it is free - then `UpdatePlayer` ends the
frame with both horizontal velocity components at their smoothed values (not zeroed),
the horizontal position advanced on both axes and the vertical position raised by
exactly 0.6 relative to the start of the frame. -/
theorem C11_auto_step (m : MathLib) (f : FrameInput) (player : Player) (chunks : List Chunk)
    (dt : ℚ) (hg : player.isGrounded = true) (hj : f.spacePressed = false)
    (hvy : player.velocity.y = 0) (hfloor : playerHeight f < player.position.y + stepHeight)
    (hstep :
      (CheckCollision
          ⟨player.position.x + (beforeIntegration m f player chunks dt).velocity.x * dt,
            player.position.y, player.position.z⟩ 0.3 1.8 chunks = true ∧
        CheckCollision
          ⟨player.position.x + (beforeIntegration m f player chunks dt).velocity.x * dt,
            player.position.y + stepHeight, player.position.z⟩ 0.3 1.8 chunks = false ∧
        CheckCollision
          ⟨player.position.x + (beforeIntegration m f player chunks dt).velocity.x * dt,
            player.position.y + stepHeight,
            player.position.z + (beforeIntegration m f player chunks dt).velocity.z * dt⟩
          0.3 1.8 chunks = false) ∨
      (CheckCollision
          ⟨player.position.x + (beforeIntegration m f player chunks dt).velocity.x * dt,
            player.position.y, player.position.z⟩ 0.3 1.8 chunks = false ∧
        CheckCollision
          ⟨player.position.x + (beforeIntegration m f player chunks dt).velocity.x * dt,
            player.position.y,
            player.position.z + (beforeIntegration m f player chunks dt).velocity.z * dt⟩
          0.3 1.8 chunks = true ∧
        CheckCollision
          ⟨player.position.x + (beforeIntegration m f player chunks dt).velocity.x * dt,
            player.position.y + stepHeight,
            player.position.z + (beforeIntegration m f player chunks dt).velocity.z * dt⟩
          0.3 1.8 chunks = false)) :
    (UpdatePlayer m f player chunks dt).velocity.x =
        (beforeIntegration m f player chunks dt).velocity.x ∧
      (UpdatePlayer m f player chunks dt).velocity.z =
        (beforeIntegration m f player chunks dt).velocity.z ∧
      (UpdatePlayer m f player chunks dt).position.x =
        player.position.x + (beforeIntegration m f player chunks dt).velocity.x * dt ∧
      (UpdatePlayer m f player chunks dt).position.z =
        player.position.z + (beforeIntegration m f player chunks dt).velocity.z * dt ∧
      (UpdatePlayer m f player chunks dt).position.y = player.position.y + 0.6 := by
  have hpos := beforeIntegration_position m f player chunks dt
  obtain ⟨hgm, hvm⟩ := beforeIntegration_grounded m f player chunks dt hg hj
  rw [hvy] at hvm
  -- the state after the three axes
  have key : beforeGroundCheck m f player chunks dt =
      { beforeIntegration m f player chunks dt with position :=
        ⟨player.position.x + (beforeIntegration m f player chunks dt).velocity.x * dt,
          player.position.y + stepHeight,
          player.position.z + (beforeIntegration m f player chunks dt).velocity.z * dt⟩ } := by
    unfold beforeGroundCheck
    generalize beforeIntegration m f player chunks dt = pm at *
    rcases hstep with ⟨h1, h2, h3⟩ | ⟨h1, h2, h3⟩
    · rw [← hpos] at h1 h2 h3
      rw [integrateX_step pm chunks dt hgm h1 h2]
      rw [integrateZ_free _ chunks dt h3]
      rw [integrateY_rest]
      · rw [hpos]
      · exact hvm
    · rw [← hpos] at h1 h2 h3
      rw [integrateX_free pm chunks dt h1]
      rw [integrateZ_step
        { pm with position := ⟨pm.position.x + pm.velocity.x * dt, pm.position.y, pm.position.z⟩ }
        chunks dt hgm h2 h3]
      rw [integrateY_rest]
      · rw [hpos]
      · exact hvm
  have hq : ¬ (beforeGroundCheck m f player chunks dt).position.y ≤ playerHeight f := by
    rw [key]
    exact not_le.mpr hfloor
  have hgp := ((groundCheck_spec f (beforeGroundCheck m f player chunks dt) chunks).2.1 hq).1
  have hgv := groundCheck_velocity_xz f (beforeGroundCheck m f player chunks dt) chunks
  unfold UpdatePlayer
  rw [cameraUpdate_velocity, cameraUpdate_position, hgp, hgv.1, hgv.2, key]
  refine ⟨rfl, rfl, rfl, rfl, ?_⟩
  show player.position.y + stepHeight = player.position.y + 0.6
  rfl

/-- Sections 1 to 4 for the walker in an idle frame of 1/15 s: the horizontal velocity is
smoothed by the factor 0.9 and nothing else changes. -/
theorem walker_beforeIntegration (vx vy vz : ℚ) (chunks : List Chunk) :
    beforeIntegration mathAtZero idleFrame (walker vx vy vz) chunks (1 / 15) =
      { walker vx vy vz with velocity := ⟨vx * (9 / 10), vy, vz * (9 / 10)⟩ } := by
  norm_num [beforeIntegration, readInput, look, physics, movement, mathAtZero, idleFrame, walker,
    Vector2LengthSqr, Clamp, Lerp, Vector3Add, Vector3Scale, MOUSE_SENSITIVITY, MAX_SPEED,
    FRICTION]
  constructor <;> ring

/-- The walker with velocity `(10, 0, 10)` meets the low step in x and then the ledge in z:
both axes step up and the frame ends 1.2 above the start, grounded on the ledge. -/
theorem cornerWalk :
    (UpdatePlayer mathAtZero idleFrame (walker 10 0 10) [chunkOf [lowStep, ledge]]
        (1 / 15)).position = ⟨0.6, 3, 0.6⟩ ∧
      (UpdatePlayer mathAtZero idleFrame (walker 10 0 10) [chunkOf [lowStep, ledge]]
        (1 / 15)).velocity = ⟨9, 0, 9⟩ ∧
      (UpdatePlayer mathAtZero idleFrame (walker 10 0 10) [chunkOf [lowStep, ledge]]
        (1 / 15)).isGrounded = true := by
  unfold UpdatePlayer beforeGroundCheck
  rw [cameraUpdate_position, cameraUpdate_velocity, cameraUpdate_isGrounded,
    walker_beforeIntegration]
  norm_num [integrateX, integrateY, integrateZ, groundCheck, stepHeight,
    playerHeight, idleFrame, walker,
    CheckCollision, scanChunks, hitsAnyBox, CheckCollisionBoxes, intervalsMeet,
    distanceExceeds, Vector3DistanceSqr, chunkOf, lowStep, ledge]

/-- The walker with velocity `(10, 10, 0)`, grounded but rising, meets the low step in x:
it steps up, keeps rising, and the frame ends `0.6 + 10 / 15` above the start. -/
theorem risingWalk :
    (UpdatePlayer mathAtZero idleFrame (walker 10 10 0) [chunkOf [lowStep]]
        (1 / 15)).position = ⟨0.6, 46 / 15, 0⟩ ∧
      (UpdatePlayer mathAtZero idleFrame (walker 10 10 0) [chunkOf [lowStep]]
        (1 / 15)).velocity = ⟨9, 10, 0⟩ := by
  unfold UpdatePlayer beforeGroundCheck
  rw [cameraUpdate_position, cameraUpdate_velocity, walker_beforeIntegration]
  norm_num [integrateX, integrateY, integrateZ, groundCheck, stepHeight,
    playerHeight, idleFrame, walker,
    CheckCollision, scanChunks, hitsAnyBox, CheckCollisionBoxes, intervalsMeet,
    distanceExceeds, Vector3DistanceSqr, chunkOf, lowStep]

/-- A grounded player with upward velocity arises from `UpdatePlayer` itself: jumping
from the crouch height in a frame in which left control is no longer held, the floor
clamp grounds the player at 1.8 and keeps the launch speed 10. -/
theorem jumpFromCrouch :
    (UpdatePlayer mathAtZero jumpFrame croucher [] (1 / 15)).isGrounded = true ∧
      (UpdatePlayer mathAtZero jumpFrame croucher [] (1 / 15)).velocity = ⟨0, 10, 0⟩ ∧
      (UpdatePlayer mathAtZero jumpFrame croucher [] (1 / 15)).position = ⟨0, 1.8, 0⟩ := by
  unfold UpdatePlayer beforeGroundCheck
  rw [cameraUpdate_position, cameraUpdate_velocity, cameraUpdate_isGrounded]
  norm_num [beforeIntegration, readInput, look, physics, movement, mathAtZero, idleFrame,
    jumpFrame, croucher, walker, Vector2LengthSqr, Clamp, Lerp, Vector3Add, Vector3Scale,
    MOUSE_SENSITIVITY, MAX_SPEED, FRICTION, AIR_DRAG, JUMP_FORCE, GRAVITY,
    integrateX, integrateY, integrateZ, groundCheck, stepHeight, playerHeight,
    CheckCollision, scanChunks]

/-- Counterexample to C11, two frames in which the agent is grounded, its x-advanced
position collides with the low step (0.5 high) and the same position raised by 0.6 is
collision-free, and yet the vertical position is not raised by exactly 0.6.
(a) The walker is grounded with the upward velocity 10 (the state `jumpFromCrouch`
produces): it steps up and rises, ending `0.6 + 10 / 15` higher.
(b) The walker moves diagonally: after the step in x the z advance meets the ledge (0.6
high, collision-free once raised by 0.6) and steps again, ending 1.2 higher. -/
theorem C11_counterexample :
    ((walker 10 10 0).isGrounded = true ∧
      CheckCollision
        ⟨(walker 10 10 0).position.x +
            (beforeIntegration mathAtZero idleFrame (walker 10 10 0) [chunkOf [lowStep]]
              (1 / 15)).velocity.x * (1 / 15),
          (walker 10 10 0).position.y, (walker 10 10 0).position.z⟩
        0.3 1.8 [chunkOf [lowStep]] = true ∧
      CheckCollision
        ⟨(walker 10 10 0).position.x +
            (beforeIntegration mathAtZero idleFrame (walker 10 10 0) [chunkOf [lowStep]]
              (1 / 15)).velocity.x * (1 / 15),
          (walker 10 10 0).position.y + 0.6, (walker 10 10 0).position.z⟩
        0.3 1.8 [chunkOf [lowStep]] = false ∧
      (UpdatePlayer mathAtZero idleFrame (walker 10 10 0) [chunkOf [lowStep]]
        (1 / 15)).position.y ≠ (walker 10 10 0).position.y + 0.6) ∧
    ((walker 10 0 10).isGrounded = true ∧
      CheckCollision
        ⟨(walker 10 0 10).position.x +
            (beforeIntegration mathAtZero idleFrame (walker 10 0 10) [chunkOf [lowStep, ledge]]
              (1 / 15)).velocity.x * (1 / 15),
          (walker 10 0 10).position.y, (walker 10 0 10).position.z⟩
        0.3 1.8 [chunkOf [lowStep, ledge]] = true ∧
      CheckCollision
        ⟨(walker 10 0 10).position.x +
            (beforeIntegration mathAtZero idleFrame (walker 10 0 10) [chunkOf [lowStep, ledge]]
              (1 / 15)).velocity.x * (1 / 15),
          (walker 10 0 10).position.y + 0.6, (walker 10 0 10).position.z⟩
        0.3 1.8 [chunkOf [lowStep, ledge]] = false ∧
      (UpdatePlayer mathAtZero idleFrame (walker 10 0 10) [chunkOf [lowStep, ledge]]
        (1 / 15)).position.y = (walker 10 0 10).position.y + 1.2 ∧
      (UpdatePlayer mathAtZero idleFrame (walker 10 0 10) [chunkOf [lowStep, ledge]]
        (1 / 15)).position.y ≠ (walker 10 0 10).position.y + 0.6) := by
  obtain ⟨hp, -, -⟩ := cornerWalk
  obtain ⟨hr, -⟩ := risingWalk
  rw [hp, hr, walker_beforeIntegration, walker_beforeIntegration]
  norm_num [walker, CheckCollision, scanChunks, hitsAnyBox, CheckCollisionBoxes,
    intervalsMeet, distanceExceeds, Vector3DistanceSqr, chunkOf, lowStep, ledge]

/-- Witness of the amended C11: the grounded walker with velocity `(10, 0, 0)` meets the
low step in x, steps up, and ends the frame with x velocity 9 and 0.6 higher. -/
theorem C11_auto_step_witness :
    (UpdatePlayer mathAtZero idleFrame (walker 10 0 0) [chunkOf [lowStep]]
        (1 / 15)).velocity.x = 9 ∧
      (UpdatePlayer mathAtZero idleFrame (walker 10 0 0) [chunkOf [lowStep]]
        (1 / 15)).position.y = (walker 10 0 0).position.y + 0.6 := by
  have h := C11_auto_step mathAtZero idleFrame (walker 10 0 0) [chunkOf [lowStep]] (1 / 15)
    rfl rfl rfl (by norm_num [playerHeight, idleFrame, walker, stepHeight])
    (Or.inl (by
      rw [walker_beforeIntegration]
      norm_num [walker, stepHeight, CheckCollision, scanChunks, hitsAnyBox,
        CheckCollisionBoxes, intervalsMeet, distanceExceeds, Vector3DistanceSqr, chunkOf,
        lowStep]))
  rw [walker_beforeIntegration] at h
  refine ⟨?_, h.2.2.2.2⟩
  rw [h.1]
  norm_num

/-- C20: at the end of every `UpdatePlayer` call the grounded flag is true exactly when
the vertical position, as the ground check found it, was at or below the floor
threshold - it is then clamped to the threshold - or the collision box probed 0.1 below
the final position collides; and when the flag ends true the vertical velocity is not
negative. -/
theorem C20_grounded_flag (m : MathLib) (f : FrameInput) (player : Player) (chunks : List Chunk)
    (dt : ℚ) :
    ((UpdatePlayer m f player chunks dt).isGrounded = true ↔
        (beforeGroundCheck m f player chunks dt).position.y ≤ playerHeight f ∨
        CheckCollision
          ⟨(UpdatePlayer m f player chunks dt).position.x,
            (UpdatePlayer m f player chunks dt).position.y - 0.1,
            (UpdatePlayer m f player chunks dt).position.z⟩ 0.3 1.8 chunks = true) ∧
      ((beforeGroundCheck m f player chunks dt).position.y ≤ playerHeight f →
        (UpdatePlayer m f player chunks dt).position.y = playerHeight f) ∧
      ((UpdatePlayer m f player chunks dt).isGrounded = true →
        0 ≤ (UpdatePlayer m f player chunks dt).velocity.y) := by
  unfold UpdatePlayer
  rw [cameraUpdate_position, cameraUpdate_velocity, cameraUpdate_isGrounded]
  generalize beforeGroundCheck m f player chunks dt = q
  obtain ⟨h1, h2, h3⟩ := groundCheck_spec f q chunks
  refine ⟨?_, ?_, h3⟩
  · by_cases hq : q.position.y ≤ playerHeight f
    · exact ⟨fun _ => Or.inl hq, fun _ => (h1 hq).1⟩
    · obtain ⟨hp, hg⟩ := h2 hq
      rw [hp, hg]
      exact ⟨fun h => Or.inr h, fun h => h.resolve_left hq⟩
  · intro hq
    rw [(h1 hq).2]

/-- Witness of C20: the corner walk ends grounded (the probe below the final position
`(0.6, 3, 0.6)` meets the top of the ledge), so its vertical velocity is not negative. -/
theorem C20_grounded_flag_witness :
    (UpdatePlayer mathAtZero idleFrame (walker 10 0 10) [chunkOf [lowStep, ledge]]
        (1 / 15)).isGrounded = true ∧
      (0 : ℚ) ≤ (UpdatePlayer mathAtZero idleFrame (walker 10 0 10) [chunkOf [lowStep, ledge]]
        (1 / 15)).velocity.y :=
  ⟨cornerWalk.2.2,
    (C20_grounded_flag mathAtZero idleFrame (walker 10 0 10) [chunkOf [lowStep, ledge]]
      (1 / 15)).2.2 cornerWalk.2.2⟩

/-- Witness of C12: at height -31 the fall check lifts the player to 60 and stops it; at
height 1.8 it changes nothing. -/
theorem C12_fall_check_witness :
    (fallCheck { walker 3 0 4 with position := ⟨7, -31, 8⟩ }).position = ⟨7, 60, 8⟩ ∧
      (fallCheck { walker 3 0 4 with position := ⟨7, -31, 8⟩ }).velocity = ⟨0, 0, 0⟩ ∧
      fallCheck (walker 3 0 4) = walker 3 0 4 := by
  have h1 := (C12_fall_check { walker 3 0 4 with position := ⟨7, -31, 8⟩ }).1 (by norm_num)
  have h2 := (C12_fall_check (walker 3 0 4)).2 (by norm_num [walker])
  refine ⟨?_, h1.2.1, h2⟩
  rw [h1.2.2.2.2]

/-! ### The 16-bit index buffer -/

theorem emit_append (st : Buffers) (calls₁ calls₂ : List CubeCall) :
    emit st (calls₁ ++ calls₂) = emit (emit st calls₁) calls₂ := by
  unfold emit
  rw [List.foldl_append]

/-- The index stored at place `i` of box `j`: the entry `ind[i]` plus the vertex base
`24 * j`, reduced modulo `2^16`. -/
theorem emit_indices (calls : List CubeCall) :
    ∀ j i : Nat, j < calls.length → i < 36 →
      (emit Buffers.start calls).indices[36 * j + i]? = some (toUShort (24 * (j : Int) + ind i)) := by
  induction calls using List.reverseRecOn with
  | nil => intro j i hj; simp at hj
  | append_singleton calls c ih =>
    intro j i hj hi
    obtain ⟨-, -, -, h1, -, h2⟩ := emit_start_parity calls
    rw [emit_append]
    have e : (emit (emit Buffers.start calls) [c]).indices =
        (emit Buffers.start calls).indices ++
          cubeIndices.map (fun i => toUShort ((emit Buffers.start calls).currentVertexCount + i)) := by
      simp only [emit, List.foldl_cons, List.foldl_nil, AddCube]
    rw [e]
    rw [List.length_append, List.length_singleton] at hj
    by_cases hjl : j < calls.length
    · rw [List.getElem?_append_left (by rw [h1]; omega)]
      exact ih j i hjl hi
    · have hjeq : j = calls.length := by omega
      rw [List.getElem?_append_right (by rw [h1]; omega), h1, h2, hjeq]
      have e2 : 36 * calls.length + i - 36 * calls.length = i := by omega
      rw [e2, List.getElem?_map]
      have hlen : i < cubeIndices.length := by simpa [cubeIndices] using hi
      rw [List.getElem?_eq_getElem hlen]
      simp only [Option.map_some', ind, List.getD_eq_getElem?_getD, List.getElem?_eq_getElem hlen,
        Option.getD_some]

/-- The entries of the index table lie between 0 and 23. -/
theorem ind_range : ∀ i : Nat, i < 36 → 0 ≤ ind i ∧ ind i ≤ 23 := by
  decide

theorem toUShort_of_lt {n : Int} (h0 : 0 ≤ n) (h1 : n < 65536) : ((toUShort n : Nat) : Int) = n := by
  unfold toUShort
  rw [Int.emod_eq_of_lt h0 h1, Int.toNat_of_nonneg h0]

/-- C13: let `k` boxes be emitted from the empty buffers. Every stored 16-bit index of
every box `j` equals `24 * j + ind[i]` and is smaller than the vertex count `24 * k`
exactly when `k ≤ 2730`. From the 2731st box on that box's indices wrap modulo 65536: the
index `65520 + 16 = 65536` of the box numbered 2730 is stored as 0. -/
theorem C13_index_buffer_exact (calls : List CubeCall) :
    ((∀ j i : Nat, j < calls.length → i < 36 →
        ∃ n : Nat, (emit Buffers.start calls).indices[36 * j + i]? = some n ∧
          (n : Int) = 24 * (j : Int) + ind i ∧
          n < (emit Buffers.start calls).vertices.length) ↔
      calls.length ≤ 2730) ∧
    (emit Buffers.start calls).vertices.length = 24 * calls.length ∧
    (2731 ≤ calls.length →
      (emit Buffers.start calls).indices[36 * 2730 + 24]? = some 0 ∧
      24 * (2730 : Int) + ind 24 = 65536) := by
  have hv : (emit Buffers.start calls).vertices.length = 24 * calls.length :=
    (emit_start_parity calls).1
  refine ⟨⟨?_, ?_⟩, hv, ?_⟩
  · intro h
    by_contra hk
    have hk' : 2730 < calls.length := by omega
    obtain ⟨n, hn, hn2, -⟩ := h 2730 24 hk' (by norm_num)
    rw [emit_indices calls 2730 24 hk' (by norm_num)] at hn
    have hn' := Option.some.inj hn
    rw [← hn'] at hn2
    revert hn2
    decide
  · intro hk j i hj hi
    obtain ⟨h0, h23⟩ := ind_range i hi
    refine ⟨toUShort (24 * (j : Int) + ind i), emit_indices calls j i hj hi, ?_, ?_⟩
    · exact toUShort_of_lt (by omega) (by omega)
    · rw [hv]
      have := toUShort_of_lt (n := 24 * (j : Int) + ind i) (by omega) (by omega)
      omega
  · intro hk
    refine ⟨?_, by decide⟩
    rw [emit_indices calls 2730 24 (by omega) (by norm_num)]
    decide

/-- Witness of C13: 2731 equal boxes. -/
theorem C13_index_buffer_exact_witness :
    (emit Buffers.start (List.replicate 2731 ⟨.slab, ⟨0, 0, 0⟩, ⟨1, 1, 1⟩⟩)).indices[
        36 * 2730 + 24]? = some 0 :=
  ((C13_index_buffer_exact (List.replicate 2731 ⟨.slab, ⟨0, 0, 0⟩, ⟨1, 1, 1⟩⟩)).2.2
    (by rw [List.length_replicate])).1

/-! ### The collider of a box -/

/-- C18: for every centre `pos` and every size, `AddCube(pos, size)` appends one collider
with min corner `pos - size / 2` and max corner `pos + size / 2` and 24 vertices, each of
which is a corner of that box; when the components of the size are not negative the
collider is the bounding box of the 24 vertices: every vertex lies between its corners
and both corners are among the vertices. -/
theorem C18_collider_is_bounding_box (st : Buffers) (pos size : Vector3) :
    ∃ (box : BoundingBox) (vs : List Vector3),
      (AddCube st pos size).colliders = st.colliders ++ [box] ∧
      (AddCube st pos size).vertices = st.vertices ++ vs ∧
      vs.length = 24 ∧
      box.min = ⟨pos.x - size.x / 2, pos.y - size.y / 2, pos.z - size.z / 2⟩ ∧
      box.max = ⟨pos.x + size.x / 2, pos.y + size.y / 2, pos.z + size.z / 2⟩ ∧
      (∀ v ∈ vs, (v.x = box.min.x ∨ v.x = box.max.x) ∧ (v.y = box.min.y ∨ v.y = box.max.y) ∧
        (v.z = box.min.z ∨ v.z = box.max.z)) ∧
      box.min ∈ vs ∧ box.max ∈ vs ∧
      (0 ≤ size.x → 0 ≤ size.y → 0 ≤ size.z →
        ∀ v ∈ vs, box.min.x ≤ v.x ∧ v.x ≤ box.max.x ∧ box.min.y ≤ v.y ∧ v.y ≤ box.max.y ∧
          box.min.z ≤ v.z ∧ v.z ≤ box.max.z) := by
  refine ⟨⟨⟨pos.x - size.x / 2, pos.y - size.y / 2, pos.z - size.z / 2⟩,
      ⟨pos.x + size.x / 2, pos.y + size.y / 2, pos.z + size.z / 2⟩⟩,
    (cubeVertices (size.x / 2) (size.y / 2) (size.z / 2)).map (fun v => Vector3Add v pos),
    rfl, rfl, ?_, rfl, rfl, ?_, ?_, ?_, ?_⟩
  · simp [cubeVertices]
  · intro v hv
    simp only [cubeVertices, List.map_cons, List.map_nil, List.mem_cons, List.mem_singleton,
      List.not_mem_nil, or_false, Vector3Add] at hv
    rcases hv with h | h | h | h | h | h | h | h | h | h | h | h | h | h | h | h | h | h | h |
      h | h | h | h | h <;> subst h <;>
    refine ⟨?_, ?_, ?_⟩ <;> first
      | (left; show _ = _ - _; ring1)
      | (right; show _ = _ + _; ring1)
  · simp only [cubeVertices, List.map_cons, List.map_nil, List.mem_cons, Vector3Add]
    right; right; right; right; left
    congr 1 <;> ring
  · simp only [cubeVertices, List.map_cons, List.map_nil, List.mem_cons, Vector3Add]
    right; right; left
    congr 1 <;> ring
  · intro hx hy hz v hv
    simp only [cubeVertices, List.map_cons, List.map_nil, List.mem_cons, List.mem_singleton,
      List.not_mem_nil, or_false, Vector3Add] at hv
    rcases hv with h | h | h | h | h | h | h | h | h | h | h | h | h | h | h | h | h | h | h |
      h | h | h | h | h <;> subst h <;>
    refine ⟨?_, ?_, ?_, ?_, ?_, ?_⟩ <;> dsimp only <;> linarith

/-- Witness of C18: the box of size `(2, 4, 6)` centred at `(1, 2, 3)`. -/
theorem C18_collider_is_bounding_box_witness :
    ∃ (box : BoundingBox) (vs : List Vector3),
      (AddCube Buffers.start ⟨1, 2, 3⟩ ⟨2, 4, 6⟩).colliders = [box] ∧
      (AddCube Buffers.start ⟨1, 2, 3⟩ ⟨2, 4, 6⟩).vertices = vs ∧
      box.min = ⟨0, 0, 0⟩ ∧ box.max = ⟨2, 4, 6⟩ ∧
      ∀ v ∈ vs, box.min.x ≤ v.x ∧ v.x ≤ box.max.x ∧ box.min.y ≤ v.y ∧ v.y ≤ box.max.y ∧
        box.min.z ≤ v.z ∧ v.z ≤ box.max.z := by
  obtain ⟨box, vs, h1, h2, -, h4, h5, -, -, -, h9⟩ :=
    C18_collider_is_bounding_box Buffers.start ⟨1, 2, 3⟩ ⟨2, 4, 6⟩
  refine ⟨box, vs, h1, h2, ?_, ?_, h9 (by norm_num) (by norm_num) (by norm_num)⟩
  · rw [h4]; norm_num
  · rw [h5]; norm_num

/-! ### Stairs -/

/-- For a block that is not spawn-excluded, the loop body emits the boxes of the first
archetype whose condition holds. -/
theorem blockCalls_firstMatch (chunkPos : Vector3) (b : Rect) (hfar : ¬ centreNear chunkPos b) :
    ∃ a : Archetype, firstMatch (typeValue chunkPos b) b = some a ∧
      blockCalls chunkPos b = archetypeCalls chunkPos b a := by
  have hsp : spawnSafety (centreX chunkPos b) (centreZ chunkPos b) = false := by
    rw [← Bool.not_eq_true]
    exact fun h => hfar ((spawnSafety_iff_sqrt _ _).mp h)
  rw [blockCalls_eq, hsp]
  by_cases h1 : typeValue chunkPos b > 0.92 ∧ b.w > 20 ∧ b.h > 20
  · exact ⟨.statue, by simp [firstMatch, archetypeOrder, Archetype.condition, h1], by simp [h1]⟩
  · by_cases h2 : b.w > 60 ∧ b.h > 60
    · exact ⟨.citadel, by simp [firstMatch, archetypeOrder, Archetype.condition, h1, h2],
        by simp [h1, h2]⟩
    · by_cases h3 : typeValue chunkPos b > 0.4
      · exact ⟨.grid, by simp [firstMatch, archetypeOrder, Archetype.condition, h1, h2, h3],
          by simp [h1, h2, h3]⟩
      · by_cases h4 : typeValue chunkPos b < 0.2
        · exact ⟨.stairs,
            by simp [firstMatch, archetypeOrder, Archetype.condition, h1, h2, h3, h4],
            by simp [h1, h2, h3, h4]⟩
        · exact ⟨.slab,
            by simp [firstMatch, archetypeOrder, Archetype.condition, h1, h2, h3, h4],
            by simp [h1, h2, h3, h4]⟩

/-- The boxes of the stairs archetype, one by one. -/
theorem stairsCalls_getElem (b : Rect) (cx cz : ℚ) (s : Nat) (hs : s < 15) :
    (stairsCalls b cx cz)[s]? =
      some ⟨.stairs, ⟨cx, (s : ℚ) * 0.5 + 0.5 / 2, cz⟩,
        ⟨b.w, 0.5, b.h - (s : ℚ) * (b.h / ((15 : Nat) : ℚ))⟩⟩ := by
  unfold stairsCalls
  simp only [List.getElem?_map, List.getElem?_range hs, Option.map_some']

/-- C19: a stairs block (not spawn-excluded, stairs being the first archetype whose
condition holds) of positive depth `h` gets exactly 15 boxes. Box `s` is 0.5 tall and
spans the heights from `0.5 * s` to `0.5 * (s + 1)`, so consecutive steps stack without
gap or overlap, and the rise 0.5 is below the auto-step height 0.6; its depth is
`h * (1 - s / 15)`, positive, and smaller than that of every earlier step. -/
theorem C19_stairs (chunkPos : Vector3) (b : Rect) (hfar : ¬ centreNear chunkPos b)
    (hstairs : firstMatch (typeValue chunkPos b) b = some .stairs) (hh : 0 < b.h) :
    (blockCalls chunkPos b).length = 15 ∧
      (∀ s : Nat, s < 15 → ∃ c : CubeCall,
        (blockCalls chunkPos b)[s]? = some c ∧
        c.archetype = .stairs ∧
        c.size.y = 0.5 ∧
        c.pos.y - c.size.y / 2 = 0.5 * (s : ℚ) ∧
        c.pos.y + c.size.y / 2 = 0.5 * ((s : ℚ) + 1) ∧
        c.size.x = b.w ∧
        c.size.z = b.h * (1 - (s : ℚ) / 15) ∧
        0 < c.size.z ∧
        ∀ t : Nat, t < s → b.h * (1 - (s : ℚ) / 15) < b.h * (1 - (t : ℚ) / 15)) ∧
      (0.5 : ℚ) < stepHeight := by
  obtain ⟨a, ha, hcalls⟩ := blockCalls_firstMatch chunkPos b hfar
  rw [hstairs] at ha
  rw [← Option.some.inj ha] at hcalls
  rw [hcalls]
  refine ⟨?_, ?_, by norm_num [stepHeight]⟩
  · simp [archetypeCalls, stairsCalls]
  · intro s hs
    have hsq : (s : ℚ) < 15 := by exact_mod_cast hs
    refine ⟨_, stairsCalls_getElem b _ _ s hs, rfl, rfl, ?_, ?_, rfl, ?_, ?_, ?_⟩
    · show (s : ℚ) * 0.5 + 0.5 / 2 - 0.5 / 2 = 0.5 * (s : ℚ)
      ring
    · show (s : ℚ) * 0.5 + 0.5 / 2 + 0.5 / 2 = 0.5 * ((s : ℚ) + 1)
      ring
    · show b.h - (s : ℚ) * (b.h / ((15 : Nat) : ℚ)) = b.h * (1 - (s : ℚ) / 15)
      push_cast
      ring
    · show 0 < b.h - (s : ℚ) * (b.h / ((15 : Nat) : ℚ))
      have e : b.h - (s : ℚ) * (b.h / ((15 : Nat) : ℚ)) = b.h * ((15 - (s : ℚ)) / 15) := by
        push_cast
        ring
      rw [e]
      apply mul_pos hh
      apply div_pos <;> linarith
    · intro t ht
      have htq : (t : ℚ) < (s : ℚ) := by exact_mod_cast ht
      apply mul_lt_mul_of_pos_left _ hh
      have : (t : ℚ) / 15 < (s : ℚ) / 15 := by
        apply div_lt_div_of_pos_right htq
        norm_num
      linarith

/-- Witness of C19: the 50 x 50 block centred at `(135, 135)`, type value about -0.43. -/
theorem C19_stairs_witness :
    ¬ centreNear ⟨0, 0, 0⟩ ⟨110, 110, 50, 50⟩ ∧
      firstMatch (typeValue ⟨0, 0, 0⟩ ⟨110, 110, 50, 50⟩) ⟨110, 110, 50, 50⟩ = some .stairs ∧
      (blockCalls ⟨0, 0, 0⟩ ⟨110, 110, 50, 50⟩).length = 15 := by
  have hbits : hashBits 135 55 135 = 1532953381 := by decide
  have ht : typeValue ⟨0, 0, 0⟩ ⟨110, 110, 50, 50⟩ = 1 - 1532953381 / 1073741824 := by
    have e1 : toInt (centreX ⟨0, 0, 0⟩ ⟨110, 110, 50, 50⟩) = 135 := by
      norm_num [toInt, centreX]
    have e2 : toInt (centreZ ⟨0, 0, 0⟩ ⟨110, 110, 50, 50⟩) = 135 := by
      norm_num [toInt, centreZ]
    unfold typeValue
    rw [e1, e2, Hash, hbits]
    norm_num
  have hfar : ¬ centreNear ⟨0, 0, 0⟩ ⟨110, 110, 50, 50⟩ := by
    unfold centreNear
    rw [← spawnSafety_iff_sqrt]
    norm_num [spawnSafety, centreX, centreZ]
  have hst : firstMatch (typeValue ⟨0, 0, 0⟩ ⟨110, 110, 50, 50⟩) ⟨110, 110, 50, 50⟩ =
      some .stairs := by
    rw [ht]
    norm_num [firstMatch, archetypeOrder, Archetype.condition]
  exact ⟨hfar, hst, (C19_stairs ⟨0, 0, 0⟩ ⟨110, 110, 50, 50⟩ hfar hst (by norm_num)).1⟩

/-! ### The splits of a call tree -/

theorem SplitCall.rect_push (r : Rect) : (SplitCall.push r).rect = r := rfl

theorem SplitCall.rect_nest (r : Rect) (a b : SplitCall) : (SplitCall.nest r a b).rect = r := rfl

theorem SplitCall.splits_push (r : Rect) : (SplitCall.push r).splits = [] := rfl

theorem SplitCall.splits_nest (r : Rect) (a b : SplitCall) :
    (SplitCall.nest r a b).splits = (r, a.rect, b.rect) :: (a.splits ++ b.splits) := rfl

/-! ### The split ratio and the value one half -/

/-- The polynomial inside `Hash` is odd after masking: `n * (n * n * 15731 + 789221)` is
even for every `n`, and `1376312589` is odd. -/
theorem hashPolynomial_odd (n : Nat) :
    (((n * ((n * n * 15731 + 789221) % 4294967296) + 1376312589) % 4294967296) &&&
      0x7fffffff) % 2 = 1 := by
  have hmask : ∀ a : Nat, a &&& 0x7fffffff = a % 2147483648 := by
    intro a
    exact Nat.and_pow_two_sub_one_eq_mod a 31
  rw [hmask]
  have h1 : ∀ a : Nat, a % 4294967296 % 2147483648 % 2 = a % 2 := by
    intro a
    omega
  have h2 : ∀ a : Nat, (a % 4294967296) % 2 = a % 2 := by
    intro a
    omega
  rw [h1, Nat.add_mod, Nat.mul_mod, h2, Nat.add_mod (n * n * 15731), Nat.mul_mod (n * n),
    Nat.mul_mod n n]
  rcases Nat.mod_two_eq_zero_or_one n with h | h <;> rw [h]

/-- The masked value inside `Hash` is odd. -/
theorem hashBits_odd (x y z : Int) : hashBits x y z % 2 = 1 :=
  hashPolynomial_odd _

/-- A value within one half of the integer `k` is rounded to `k`. -/
theorem roundHalfEven_eq (q : ℚ) (k : Int) (h1 : (k : ℚ) - 1 / 2 < q) (h2 : q < k + 1 / 2) :
    roundHalfEven q = k := by
  unfold roundHalfEven
  by_cases hk : (k : ℚ) ≤ q
  · have hf : ⌊q⌋ = k := Int.floor_eq_iff.mpr ⟨hk, by linarith⟩
    rw [hf, if_pos (by linarith)]
  · have hf : ⌊q⌋ = k - 1 := Int.floor_eq_iff.mpr ⟨by push_cast; linarith, by push_cast; linarith⟩
    rw [hf]
    push_cast
    rw [if_neg (by linarith), if_pos (by linarith)]
    ring

/-- Rounding to binary32 with the exponent `e` and the integer significand `k` given. -/
theorem binary32_eq (q : ℚ) (e k : Int) (h0 : 0 < q) (hlo : (2 : ℚ) ^ e ≤ q)
    (hhi : q < (2 : ℚ) ^ (e + 1)) (h1 : (k : ℚ) - 1 / 2 < q / 2 ^ (e - 23))
    (h2 : q / 2 ^ (e - 23) < k + 1 / 2) : binary32 q = k * 2 ^ (e - 23) := by
  have hlog : Int.log 2 |q| = e := by
    rw [abs_of_pos h0]
    apply le_antisymm
    · have := (Int.lt_zpow_iff_log_lt (b := 2) (by norm_num) h0).mp (by exact_mod_cast hhi)
      omega
    · exact (Int.zpow_le_iff_le_log (b := 2) (by norm_num) h0).mp (by exact_mod_cast hlo)
  unfold binary32
  rw [if_neg (ne_of_gt h0), hlog, roundHalfEven_eq _ k h1 h2]

/-- The constant `0.38f`. -/
theorem binary32_038 : binary32 0.38 = 3187671 / 8388608 := by
  rw [binary32_eq 0.38 (-2) 12750684 (by norm_num) (by norm_num) (by norm_num) (by norm_num)
    (by norm_num)]
  norm_num

/-- The constant `0.24f`. -/
theorem binary32_024 : binary32 0.24 = 16106127 / 67108864 := by
  rw [binary32_eq 0.24 (-3) 16106127 (by norm_num) (by norm_num) (by norm_num) (by norm_num)
    (by norm_num)]
  norm_num

/-- The value one half is a binary32 value. -/
theorem binary32_half : binary32 (1 / 2) = 1 / 2 := by
  rw [binary32_eq (1 / 2) (-1) 8388608 (by norm_num) (by norm_num) (by norm_num) (by norm_num)
    (by norm_num)]
  norm_num

/-- Counterexample to C17: for the triple `(72147021, 0, 0)` the masked value is
`536870941 = 2^29 + 29`, odd, but the conversion to `float` rounds it to `2^29` (binary32
values near `2^29` are 64 apart), so `Hash` is exactly `0.5f`; the ratio
`0.38f + 0.5f * 0.24f` is `0.5 - 2^-27` before rounding and exactly `0.5f` after. -/
theorem C17_counterexample :
    hashBits 72147021 0 0 = 536870941 ∧
      binary32 ((536870941 : Nat) : ℚ) = 536870912 ∧
      Binary32.Hash 72147021 0 0 = 1 / 2 ∧
      Binary32.ratio 72147021 0 0 = 1 / 2 := by
  have hb : hashBits 72147021 0 0 = 536870941 := by decide
  have hconv : binary32 ((536870941 : Nat) : ℚ) = 536870912 := by
    rw [binary32_eq ((536870941 : Nat) : ℚ) 29 8388608 (by norm_num) (by norm_num)
      (by norm_num) (by norm_num) (by norm_num)]
    norm_num
  have hhash : Binary32.Hash 72147021 0 0 = 1 / 2 := by
    unfold Binary32.Hash
    rw [hb, hconv]
    have e1 : (536870912 : ℚ) / 1073741824 = 1 / 2 := by norm_num
    have e2 : (1 : ℚ) - 1 / 2 = 1 / 2 := by norm_num
    rw [e1, binary32_half, e2, binary32_half]
  refine ⟨hb, hconv, hhash, ?_⟩
  unfold Binary32.ratio
  rw [hhash, binary32_038, binary32_024]
  have e3 : (1 : ℚ) / 2 * (16106127 / 67108864) = 16106127 / 134217728 := by norm_num
  have hprod : binary32 (16106127 / 134217728) = 16106127 / 134217728 := by
    rw [binary32_eq (16106127 / 134217728) (-4) 16106127 (by norm_num) (by norm_num)
      (by norm_num) (by norm_num) (by norm_num)]
    norm_num
  have e4 : (3187671 : ℚ) / 8388608 + 16106127 / 134217728 = 67108863 / 134217728 := by
    norm_num
  rw [e3, hprod, e4, binary32_eq (67108863 / 134217728) (-2) 16777216 (by norm_num)
    (by norm_num) (by norm_num) (by norm_num) (by norm_num)]
  norm_num

/-- C17, amended: for every triple of integers the masked 31-bit value inside `Hash` is
odd, so the exact value `1 - m / 2^30` is never 0.5 and the exact ratio
`0.38 + Hash(x, y, z) * 0.24` is never 0.5. -/
theorem C17_exact_ratio_never_half (x y z : Int) :
    hashBits x y z % 2 = 1 ∧ Hash x y z ≠ 1 / 2 ∧ 0.38 + Hash x y z * 0.24 ≠ 1 / 2 := by
  have hodd := hashBits_odd x y z
  have hne : Hash x y z ≠ 1 / 2 := by
    intro h
    unfold Hash at h
    have h2 : (hashBits x y z : ℚ) = 536870912 := by linarith
    have h3 : hashBits x y z = 536870912 := by exact_mod_cast h2
    rw [h3] at hodd
    exact absurd hodd (by decide)
  refine ⟨hodd, hne, ?_⟩
  intro h
  apply hne
  linarith

/-! ### The boxes of a block -/

/-- The collider pushed by `AddCube` is the collider of the call. -/
theorem AddCube_collider (st : Buffers) (c : CubeCall) :
    (AddCube st c.pos c.size).colliders = st.colliders ++ [c.collider] := rfl

theorem archetypeCalls_slab (chunkPos : Vector3) (b : Rect) :
    archetypeCalls chunkPos b .slab =
      slabCalls b (centreX chunkPos b) (centreZ chunkPos b)
        (20 + identityValue chunkPos b * 100) := rfl

/-- For a dimension `w` of at least 17 the cell count `(int)(w / 12)` is at least 1 and
the cells `w / count` are at least 12 long. -/
theorem gridCells (w : ℚ) (hw : 17 ≤ w) :
    1 ≤ toInt (w / 12) ∧ (toInt (w / 12) : ℚ) * (w / (toInt (w / 12) : ℚ)) = w ∧
      12 ≤ w / (toInt (w / 12) : ℚ) := by
  have h0 : (0 : ℚ) ≤ w / 12 := by linarith
  have hfl : toInt (w / 12) = ⌊w / 12⌋ := by
    unfold toInt
    rw [if_pos h0]
  have h1 : 1 ≤ ⌊w / 12⌋ := Int.le_floor.mpr (by push_cast; linarith)
  have h2 : ((⌊w / 12⌋ : Int) : ℚ) ≤ w / 12 := Int.floor_le _
  have hpos : (0 : ℚ) < ((⌊w / 12⌋ : Int) : ℚ) := by exact_mod_cast h1
  rw [hfl]
  refine ⟨h1, mul_div_cancel₀ _ (ne_of_gt hpos), ?_⟩
  rw [le_div_iff₀ hpos]
  linarith

/-- Cable `k` of a slab with wires: the call `AddCube({wx, wy - len / 2, wz}, {0.15, len, 0.15})`
is made with `wx = cx + (Hash((int)cx, k, 100) - 0.5) * b.w` and
`wz = cz + (Hash((int)cz, k, 200) - 0.5) * b.h`. -/
theorem slabCalls_cable (b : Rect) (cx cz baseHeight : ℚ) (k : Nat)
    (hW : Hash (toInt cx) 99 (toInt cz) > 0.5)
    (hk : k < (toInt (Hash (toInt cx) 99 (toInt cz) * 5)).toNat) :
    ∃ c ∈ slabCalls b cx cz baseHeight,
      c.pos.x = cx + (Hash (toInt cx) (k : Int) 100 - 0.5) * b.w ∧
      c.pos.z = cz + (Hash (toInt cz) (k : Int) 200 - 0.5) * b.h ∧
      c.size.x = 0.15 ∧ c.size.z = 0.15 := by
  simp only [slabCalls, if_pos hW, List.mem_cons, List.mem_flatMap, List.mem_range]
  exact ⟨_, Or.inr ⟨k, hk, Or.inl rfl⟩, rfl, rfl, rfl, rfl⟩

/-! ### The floor clamp and the fall check -/

/-- The floor threshold is 1.0 while left control is held and 1.8 otherwise; it is at
least 1 in both cases. -/
theorem playerHeight_cases (f : FrameInput) :
    (f.keyLeftControl = true → playerHeight f = 1.0) ∧
      (f.keyLeftControl = false → playerHeight f = 1.8) ∧ 1 ≤ playerHeight f := by
  unfold playerHeight
  cases f.keyLeftControl <;> norm_num

/-- The ground check leaves the vertical position at or above the floor threshold. -/
theorem groundCheck_floor (f : FrameInput) (q : Player) (chunks : List Chunk) :
    playerHeight f ≤ (groundCheck f q chunks).position.y := by
  obtain ⟨h1, h2, -⟩ := groundCheck_spec f q chunks
  by_cases hq : q.position.y ≤ playerHeight f
  · rw [(h1 hq).2]
  · rw [(h2 hq).1]
    exact le_of_lt (not_le.mp hq)

/-- C21: for every prior player state, input, chunk list and `dt`, the vertical position
after `UpdatePlayer` is at least the floor threshold (1.8, or 1.0 while left control is
held); so it is not below -30 when the fall check of the main loop runs, and the fall
check leaves the player as it is. -/
theorem C21_floor_clamp (m : MathLib) (f : FrameInput) (player : Player) (chunks : List Chunk)
    (dt : ℚ) :
    playerHeight f ≤ (UpdatePlayer m f player chunks dt).position.y ∧
      (playerHeight f = 1.8 ∨ playerHeight f = 1.0) ∧
      ¬ (UpdatePlayer m f player chunks dt).position.y < -30 ∧
      fallCheck (UpdatePlayer m f player chunks dt) = UpdatePlayer m f player chunks dt := by
  have hy : playerHeight f ≤ (UpdatePlayer m f player chunks dt).position.y := by
    unfold UpdatePlayer
    rw [cameraUpdate_position]
    exact groundCheck_floor f _ chunks
  obtain ⟨hc1, hc2, hc3⟩ := playerHeight_cases f
  have hcases : playerHeight f = 1.8 ∨ playerHeight f = 1.0 := by
    cases hk : f.keyLeftControl
    · exact Or.inl (hc2 hk)
    · exact Or.inr (hc1 hk)
  generalize UpdatePlayer m f player chunks dt = p at hy
  have hn : ¬ p.position.y < -30 := by
    intro h
    linarith
  refine ⟨hy, hcases, hn, ?_⟩
  have hn2 : ¬ p.position.y < -30.0 := by
    intro h
    apply hn
    norm_num at h
    exact h
  unfold fallCheck
  rw [if_neg hn2]

/-! ### Leaf blocks and the pillar grid -/

/-- C25: for every chunk origin, every leaf block of `RecursiveSplit` on the 400 x 400 root
with depth 6 is at least 17 wide and 17 deep, so the pillar-grid counts `(int)(w / 12)` and
`(int)(h / 12)` are at least 1 and the fallback for a zero count leaves them as they are. -/
theorem C25_leaf_grid_counts (chunkPos : Vector3) (b : Rect)
    (hb : b ∈ RecursiveSplit chunkPos ⟨-200, -200, 400, 400⟩ 6) :
    17 ≤ b.w ∧ 17 ≤ b.h ∧ 1 ≤ toInt (b.w / 12) ∧ 1 ≤ toInt (b.h / 12) ∧
      (if toInt (b.w / 12) = 0 then (1 : Int) else toInt (b.w / 12)) = toInt (b.w / 12) ∧
      (if toInt (b.h / 12) = 0 then (1 : Int) else toInt (b.h / 12)) = toInt (b.h / 12) := by
  obtain ⟨hw, hh⟩ := RecursiveSplit_min_size chunkPos 6 ⟨-200, -200, 400, 400⟩
    (by norm_num) (by norm_num) b hb
  obtain ⟨hc, -, -⟩ := gridCells b.w hw
  obtain ⟨hr, -, -⟩ := gridCells b.h hh
  refine ⟨hw, hh, hc, hr, ?_, ?_⟩
  · rw [if_neg (by omega)]
  · rw [if_neg (by omega)]

/-- Witness of C25: the leaf `narrowLeaf` of the chunk at the origin, about 20.95 wide and
73.29 deep, has 1 column and 6 rows. -/
theorem C25_leaf_grid_counts_witness :
    narrowLeaf ∈ RecursiveSplit ⟨0, 0, 0⟩ ⟨-200, -200, 400, 400⟩ 6 ∧
      17 ≤ narrowLeaf.w ∧ 17 ≤ narrowLeaf.h ∧
      toInt (narrowLeaf.w / 12) = 1 ∧ toInt (narrowLeaf.h / 12) = 6 := by
  have h := C25_leaf_grid_counts ⟨0, 0, 0⟩ narrowLeaf narrowLeaf_mem
  refine ⟨narrowLeaf_mem, h.1, h.2.1, ?_, ?_⟩
  · exact toInt_of_nonneg (by norm_num [narrowLeaf]) (by norm_num [narrowLeaf])
      (by norm_num [narrowLeaf])
  · exact toInt_of_nonneg (by norm_num [narrowLeaf]) (by norm_num [narrowLeaf])
      (by norm_num [narrowLeaf])

/-! ### The floor clamp without a collision test -/

theorem Vector3.eta_eq (v : Vector3) (x y z : ℚ) (hx : x = v.x) (hy : y = v.y) (hz : z = v.z) :
    (⟨x, y, z⟩ : Vector3) = v := by
  subst hx hy hz
  rfl

/-- The narrow phase without the cull reports a hit exactly when some collider of some
chunk meets the query box. -/
theorem CheckCollisionNoCull_iff (position : Vector3) (radius height : ℚ)
    (chunks : List Chunk) :
    CheckCollisionNoCull position radius height chunks = true ↔
      ∃ chunk ∈ chunks, hitsAnyBox
        ⟨⟨position.x - radius, position.y - height, position.z - radius⟩,
          ⟨position.x + radius, position.y, position.z + radius⟩⟩ chunk.colliders = true := by
  unfold CheckCollisionNoCull
  simp only [List.any_eq_true, hitsAnyBox_iff]

/-- A chunk whose colliders lie within the footprint is not culled when one of them meets
a query box of radius at most 0.5 whose height is within 97 of the chunk origin. -/
theorem hit_not_culled (position : Vector3) (radius height : ℚ) (chunk : Chunk)
    (hr : radius ≤ 0.5) (hfoot : chunk.collidersInFootprint)
    (hy : |position.y - chunk.position.y| ≤ 97)
    (hhit : hitsAnyBox
      ⟨⟨position.x - radius, position.y - height, position.z - radius⟩,
        ⟨position.x + radius, position.y, position.z + radius⟩⟩ chunk.colliders = true) :
    distanceExceeds chunk.position position 300 = false := by
  obtain ⟨box, hbox, hb⟩ := (hitsAnyBox_iff _ _).mp hhit
  obtain ⟨hx1, hx2, hz1, hz2⟩ := hfoot box hbox
  unfold CheckCollisionBoxes at hb
  rw [decide_eq_true_iff] at hb
  dsimp only [intervalsMeet] at hb
  obtain ⟨⟨hbx1, hbx2⟩, -, ⟨hbz1, hbz2⟩⟩ := hb
  have hr' : radius ≤ 1 / 2 := by
    norm_num at hr
    exact hr
  have hdx : |position.x - chunk.position.x| ≤ 401 / 2 := by
    rw [abs_le]
    constructor <;> linarith
  have hdz : |position.z - chunk.position.z| ≤ 401 / 2 := by
    rw [abs_le]
    constructor <;> linarith
  have sx : (position.x - chunk.position.x) * (position.x - chunk.position.x) ≤
      401 / 2 * (401 / 2) := by
    have := abs_mul_abs_self (position.x - chunk.position.x)
    nlinarith [abs_nonneg (position.x - chunk.position.x)]
  have sz : (position.z - chunk.position.z) * (position.z - chunk.position.z) ≤
      401 / 2 * (401 / 2) := by
    have := abs_mul_abs_self (position.z - chunk.position.z)
    nlinarith [abs_nonneg (position.z - chunk.position.z)]
  have sy : (position.y - chunk.position.y) * (position.y - chunk.position.y) ≤ 97 * 97 := by
    have := abs_mul_abs_self (position.y - chunk.position.y)
    nlinarith [abs_nonneg (position.y - chunk.position.y)]
  unfold distanceExceeds Vector3DistanceSqr
  rw [decide_eq_false_iff_not]
  intro h
  linarith

/-- Counterexample to C23: the only collider of the chunk, `tower`, lies within the
footprint. The query position `(199, 110, 199)` is inside the tower, and its distance to the
chunk origin is above 300 (`199^2 + 110^2 + 199^2 = 91302 > 90000`): `CheckCollision` skips
the chunk and reports no hit, the narrow phase without the cull reports one. -/
theorem C23_counterexample :
    (chunkOf [tower]).collidersInFootprint ∧
      CheckCollision ⟨199, 110, 199⟩ 0.3 1.8 [chunkOf [tower]] = false ∧
      CheckCollisionNoCull ⟨199, 110, 199⟩ 0.3 1.8 [chunkOf [tower]] = true := by
  refine ⟨?_, ?_, ?_⟩
  · intro box hbox
    simp only [chunkOf, List.mem_singleton] at hbox
    rw [hbox]
    norm_num [chunkOf, tower]
  · norm_num [CheckCollision, scanChunks, distanceExceeds, Vector3DistanceSqr, chunkOf]
  · norm_num [CheckCollisionNoCull, CheckCollisionBoxes, intervalsMeet, chunkOf, tower]

/-- C23, amended: for chunks whose colliders all lie horizontally within the 400 x 400
footprint centred on their chunk origin, a query radius of at most 0.5, and a query
position whose height differs from the height of every chunk origin by at most 97,
`CheckCollision` returns the same result as the narrow-phase overlap test run over all
colliders without the cull. -/
theorem C23_cull_exact_near_ground (position : Vector3) (radius height : ℚ)
    (chunks : List Chunk) (hr : radius ≤ 0.5)
    (hfoot : ∀ chunk ∈ chunks, chunk.collidersInFootprint)
    (hy : ∀ chunk ∈ chunks, |position.y - chunk.position.y| ≤ 97) :
    CheckCollision position radius height chunks =
      CheckCollisionNoCull position radius height chunks := by
  rw [Bool.eq_iff_iff, CheckCollisionNoCull_iff]
  unfold CheckCollision
  rw [scanChunks_iff]
  constructor
  · rintro ⟨chunk, hc, -, hhit⟩
    exact ⟨chunk, hc, hhit⟩
  · rintro ⟨chunk, hc, hhit⟩
    exact ⟨chunk, hc,
      hit_not_culled position radius height chunk hr (hfoot chunk hc) (hy chunk hc) hhit, hhit⟩

/-- Witness of the amended C23: at the foot of the tower, `(199, 1.8, 199)`, the chunk is
not culled (distance about 281) and both tests report the hit. -/
theorem C23_cull_exact_near_ground_witness :
    CheckCollision ⟨199, 1.8, 199⟩ 0.3 1.8 [chunkOf [tower]] =
        CheckCollisionNoCull ⟨199, 1.8, 199⟩ 0.3 1.8 [chunkOf [tower]] ∧
      CheckCollisionNoCull ⟨199, 1.8, 199⟩ 0.3 1.8 [chunkOf [tower]] = true := by
  refine ⟨C23_cull_exact_near_ground ⟨199, 1.8, 199⟩ 0.3 1.8 [chunkOf [tower]]
    (by norm_num) ?_ ?_, ?_⟩
  · intro chunk hc
    rw [List.mem_singleton] at hc
    rw [hc]
    intro box hbox
    simp only [chunkOf, List.mem_singleton] at hbox
    rw [hbox]
    norm_num [chunkOf, tower]
  · intro chunk hc
    rw [List.mem_singleton] at hc
    rw [hc]
    norm_num [chunkOf, abs_le]
  · norm_num [CheckCollisionNoCull, CheckCollisionBoxes, intervalsMeet, chunkOf, tower]

/-! ### The colliders of a chunk -/

/-- The colliders after a sequence of calls: one collider per call, in call order. -/
theorem emit_colliders (calls : List CubeCall) :
    ∀ st : Buffers, (emit st calls).colliders = st.colliders ++ calls.map CubeCall.collider := by
  induction calls with
  | nil =>
    intro st
    simp [emit]
  | cons c rest ih =>
    intro st
    have e : emit st (c :: rest) = emit (AddCube st c.pos c.size) rest := rfl
    rw [e, ih, AddCube_collider, List.map_cons, List.append_assoc, List.singleton_append]

/-- The collider of every call made for a leaf block is a collider of the chunk. -/
theorem collider_mem_GenerateChunk (chunkPos : Vector3) (b : Rect) (c : CubeCall)
    (hb : b ∈ RecursiveSplit chunkPos ⟨-200, -200, 400, 400⟩ 6)
    (hc : c ∈ blockCalls chunkPos b) :
    c.collider ∈ (GenerateChunk chunkPos).colliders := by
  have hcalls : c ∈ chunkCalls chunkPos := by
    unfold chunkCalls chunkBlocks rootRect
    exact List.mem_flatMap.mpr ⟨b, hb, hc⟩
  rw [GenerateChunk_colliders]
  unfold chunkBuffers
  rw [emit_colliders]
  exact List.mem_append_right _ (List.mem_map.mpr ⟨c, hcalls, rfl⟩)

/-! ### The chunk at the world origin, along a second branch

After the first split (`originChunk_depth6`) the part 400 x 73.29 splits along x at ratio
0.405 (`Hash(0, -163, 5)`), second part 235.11 x 73.29. `Hash(82, -163, 4)` is about 0.819:
ratio 0.577, first part 132.56 x 73.29. `Hash(31, -163, 3)` is about 0.670: ratio 0.541,
first part 68.68 x 73.29. That part is nearly square and `Hash(0, -163, 2)` is about -0.998:
it would split along z at ratio 0.140, the first part would measure 10.29, below 20, so it
is pushed as a leaf. -/

/-- Second split of the chunk at the origin: along x, keeping the second part. -/
theorem originChunk_depth5_second (b : Rect)
    (hb : b ∈ RecursiveSplit ⟨0, 0, 0⟩
      ⟨-(1177984041 / 33554432), -200, 7888870441 / 33554432, 2459118991 / 33554432⟩ 4) :
    b ∈ RecursiveSplit ⟨0, 0, 0⟩ ⟨-200, -200, 400, 2459118991 / 33554432⟩ 5 := by
  have hb2 : hashBits 0 (-163) 5 = 963086691 := by decide
  have t1 : toInt (-200 + 400 / 2 + 0) = 0 := by norm_num [toInt]
  have t2 : toInt (-200 + 2459118991 / 33554432 / 2 + 0) = -163 :=
    toInt_of_neg (by norm_num) (by norm_num) (by norm_num)
  rw [show (5 : ℕ) = 4 + 1 from rfl, RecursiveSplit]
  simp only [t1, t2]
  norm_num [Hash, hb2, abs_lt]
  right
  exact hb

/-- Third split: along x, keeping the first part. -/
theorem citadelBranch_depth4 (b : Rect)
    (hb : b ∈ RecursiveSplit ⟨0, 0, 0⟩
      ⟨-(1177984041 / 33554432), -200, 59698849662899949601 / 450359962737049600,
        2459118991 / 33554432⟩ 3) :
    b ∈ RecursiveSplit ⟨0, 0, 0⟩
      ⟨-(1177984041 / 33554432), -200, 7888870441 / 33554432, 2459118991 / 33554432⟩ 4 := by
  have hb3 : hashBits 82 (-163) 4 = 194252525 := by decide
  have t1 : toInt (-(1177984041 / 33554432) + 7888870441 / 33554432 / 2 + 0) = 82 :=
    toInt_of_nonneg (by norm_num) (by norm_num) (by norm_num)
  have t2 : toInt (-200 + 2459118991 / 33554432 / 2 + 0) = -163 :=
    toInt_of_neg (by norm_num) (by norm_num) (by norm_num)
  rw [show (4 : ℕ) = 3 + 1 from rfl, RecursiveSplit]
  simp only [t1, t2]
  norm_num [Hash, hb3, abs_lt]
  left
  exact hb

/-- Fourth split: along x, keeping the first part. -/
theorem citadelBranch_depth3 (b : Rect) (hb : b ∈ RecursiveSplit ⟨0, 0, 0⟩ citadelLeaf 2) :
    b ∈ RecursiveSplit ⟨0, 0, 0⟩
      ⟨-(1177984041 / 33554432), -200, 59698849662899949601 / 450359962737049600,
        2459118991 / 33554432⟩ 3 := by
  have hb4 : hashBits 31 (-163) 3 = 354741869 := by decide
  have t1 : toInt (-(1177984041 / 33554432) +
      59698849662899949601 / 450359962737049600 / 2 + 0) = 31 :=
    toInt_of_nonneg (by norm_num) (by norm_num) (by norm_num)
  have t2 : toInt (-200 + 2459118991 / 33554432 / 2 + 0) = -163 :=
    toInt_of_neg (by norm_num) (by norm_num) (by norm_num)
  unfold citadelLeaf at hb
  rw [show (3 : ℕ) = 2 + 1 from rfl, RecursiveSplit]
  simp only [t1, t2]
  norm_num [Hash, hb4, abs_lt]
  left
  exact hb

/-- The first part of the fourth split is not split again: a part would be below 20. -/
theorem citadelBranch_depth2 : citadelLeaf ∈ RecursiveSplit ⟨0, 0, 0⟩ citadelLeaf 2 := by
  have hb5 : hashBits 0 (-163) 2 = 2145676821 := by decide
  have t1 : toInt (-(1177984041 / 33554432) +
      415116994076094939994178771929 / 6044629098073145873530880000 / 2 + 0) = 0 :=
    toInt_of_neg (by norm_num) (by norm_num) (by norm_num)
  have t2 : toInt (-200 + 2459118991 / 33554432 / 2 + 0) = -163 :=
    toInt_of_neg (by norm_num) (by norm_num) (by norm_num)
  unfold citadelLeaf
  rw [show (2 : ℕ) = 1 + 1 from rfl, RecursiveSplit]
  simp only [t1, t2]
  norm_num [Hash, hb5, abs_lt]

/-- The rectangle `citadelLeaf` is a leaf block of the chunk at the world origin. -/
theorem citadelLeaf_mem :
    citadelLeaf ∈ RecursiveSplit ⟨0, 0, 0⟩ ⟨-200, -200, 400, 400⟩ 6 :=
  originChunk_depth6 _ (originChunk_depth5_second _ (citadelBranch_depth4 _
    (citadelBranch_depth3 _ citadelBranch_depth2)))

theorem archetypeCalls_citadel (chunkPos : Vector3) (b : Rect) :
    archetypeCalls chunkPos b .citadel =
      citadelCalls chunkPos b (20 + identityValue chunkPos b * 100) := rfl

/-- The main mass of a citadel is its first box. -/
theorem citadelCalls_mainMass (chunkPos : Vector3) (b : Rect) (baseHeight : ℚ) :
    (⟨.citadel, ⟨b.x + b.w / 2 + chunkPos.x, baseHeight / 2, b.z + b.h / 2 + chunkPos.z⟩,
        ⟨b.w, baseHeight, b.h⟩⟩ : CubeCall) ∈ citadelCalls chunkPos b baseHeight := by
  unfold citadelCalls
  exact List.mem_cons_self _ _

/-- C24 fails on the chunk at the world origin: `citadelLeaf` is one of its leaf blocks,
about 68.68 x 73.29 and so a citadel; its identity value `Hash(0, 42, -163)` is about
-0.409, so `baseHeight = 20 + Hash * 100` is about -20.94. The main mass is emitted with
the height `baseHeight`, and its collider, a collider of `GenerateChunk((0, 0, 0))`, has
the min corner at height 0 and the max corner at height -20.94: the min corner lies above
the max corner. -/
theorem C24_inverted_collider :
    citadelLeaf ∈ RecursiveSplit ⟨0, 0, 0⟩ ⟨-200, -200, 400, 400⟩ 6 ∧
      20 + identityValue ⟨0, 0, 0⟩ citadelLeaf * 100 = -(5620866805 / 268435456) ∧
      ∃ box ∈ (GenerateChunk ⟨0, 0, 0⟩).colliders,
        box.min.y = 0 ∧ box.max.y = -(5620866805 / 268435456) ∧ box.max.y < box.min.y := by
  have e1 : toInt (centreX ⟨0, 0, 0⟩ citadelLeaf) = 0 :=
    toInt_of_neg (by norm_num [centreX, citadelLeaf]) (by norm_num [centreX, citadelLeaf])
      (by norm_num [centreX, citadelLeaf])
  have e2 : toInt (centreZ ⟨0, 0, 0⟩ citadelLeaf) = -163 :=
    toInt_of_neg (by norm_num [centreZ, citadelLeaf]) (by norm_num [centreZ, citadelLeaf])
      (by norm_num [centreZ, citadelLeaf])
  have hBlock : hashBits 0 42 (-163) = 1513324861 := by decide
  have hType : hashBits 0 55 (-163) = 1740106853 := by decide
  have hbase : 20 + identityValue ⟨0, 0, 0⟩ citadelLeaf * 100 = -(5620866805 / 268435456) := by
    unfold identityValue
    rw [e1, e2, Hash, hBlock]
    norm_num
  have ht : typeValue ⟨0, 0, 0⟩ citadelLeaf = 1 - 1740106853 / 1073741824 := by
    unfold typeValue
    rw [e1, e2, Hash, hType]
    norm_num
  have hfar : ¬ centreNear ⟨0, 0, 0⟩ citadelLeaf := by
    unfold centreNear
    rw [← spawnSafety_iff_sqrt]
    norm_num [spawnSafety, centreX, centreZ, citadelLeaf]
  have hcit : firstMatch (typeValue ⟨0, 0, 0⟩ citadelLeaf) citadelLeaf = some .citadel := by
    rw [ht]
    norm_num [firstMatch, archetypeOrder, Archetype.condition, citadelLeaf]
  obtain ⟨a, ha, hcalls⟩ := blockCalls_firstMatch ⟨0, 0, 0⟩ citadelLeaf hfar
  rw [hcit] at ha
  rw [← Option.some.inj ha, archetypeCalls_citadel, hbase] at hcalls
  have hmem := citadelCalls_mainMass ⟨0, 0, 0⟩ citadelLeaf (-(5620866805 / 268435456))
  rw [← hcalls] at hmem
  refine ⟨citadelLeaf_mem, hbase, _,
    collider_mem_GenerateChunk ⟨0, 0, 0⟩ citadelLeaf _ citadelLeaf_mem hmem, ?_, ?_, ?_⟩
  · show -(5620866805 / 268435456 : ℚ) / 2 - -(5620866805 / 268435456) / 2 = 0
    norm_num
  · show -(5620866805 / 268435456 : ℚ) / 2 + -(5620866805 / 268435456) / 2 =
      -(5620866805 / 268435456)
    norm_num
  · show -(5620866805 / 268435456 : ℚ) / 2 + -(5620866805 / 268435456) / 2 <
      -(5620866805 / 268435456) / 2 - -(5620866805 / 268435456) / 2
    norm_num

/-! ### Evaluating a rounding -/

/-- Rounding the value zero. -/
theorem binary32_zero : binary32 0 = 0 := by
  unfold binary32
  rw [if_pos rfl]

/-- A value exactly half way between two integers is rounded to the even one. -/
theorem roundHalfEven_tie (q : ℚ) (k : Int) (hk : k % 2 = 0)
    (h : q = k + 1 / 2 ∨ q = k - 1 / 2) : roundHalfEven q = k := by
  unfold roundHalfEven
  rcases h with h | h
  · have hf : ⌊q⌋ = k := Int.floor_eq_iff.mpr ⟨by rw [h]; linarith, by rw [h]; linarith⟩
    rw [hf, if_neg (by rw [h]; linarith), if_neg (by rw [h]; linarith), if_pos hk]
  · have hf : ⌊q⌋ = k - 1 :=
      Int.floor_eq_iff.mpr ⟨by rw [h]; push_cast; linarith, by rw [h]; push_cast; linarith⟩
    rw [hf]
    push_cast
    rw [if_neg (by rw [h]; linarith), if_neg (by rw [h]; linarith),
      if_neg (by omega)]
    ring

/-- Rounding to binary32 evaluated: `q` has the exponent `e`, its quotient by the spacing
`2^(e-23)` is nearest to the integer `k` (or half way, with `k` even), and the result is
`k * 2^(e-23)`. -/
theorem binary32_val (q : ℚ) (e k : Int) (r : ℚ) (h0 : q ≠ 0)
    (hlo : (2 : ℚ) ^ e ≤ q ∨ (2 : ℚ) ^ e ≤ -q)
    (hhi : q < (2 : ℚ) ^ (e + 1) ∧ -q < (2 : ℚ) ^ (e + 1))
    (hk : ((k : ℚ) - 1 / 2 < q / 2 ^ (e - 23) ∧ q / 2 ^ (e - 23) < k + 1 / 2) ∨
      (k % 2 = 0 ∧ (q / 2 ^ (e - 23) = k + 1 / 2 ∨ q / 2 ^ (e - 23) = k - 1 / 2)))
    (hr : (k : ℚ) * 2 ^ (e - 23) = r) : binary32 q = r := by
  have habs : 0 < |q| := abs_pos.mpr h0
  have hlo2 : (2 : ℚ) ^ e ≤ |q| := by
    rcases hlo with h | h
    · exact le_trans h (le_abs_self q)
    · exact le_trans h (neg_le_abs q)
  have hhi2 : |q| < (2 : ℚ) ^ (e + 1) := abs_lt.mpr ⟨by linarith [hhi.2], hhi.1⟩
  have hlog : Int.log 2 |q| = e := by
    apply le_antisymm
    · have := (Int.lt_zpow_iff_log_lt (b := 2) (by norm_num) habs).mp (by exact_mod_cast hhi2)
      omega
    · exact (Int.zpow_le_iff_le_log (b := 2) (by norm_num) habs).mp (by exact_mod_cast hlo2)
  have hround : roundHalfEven (q / 2 ^ (e - 23)) = k := by
    rcases hk with ⟨h1, h2⟩ | ⟨h1, h2⟩
    · exact roundHalfEven_eq _ k h1 h2
    · exact roundHalfEven_tie _ k h1 h2
  unfold binary32
  rw [if_neg h0, hlog, hround, hr]

/-! ### The rounding error of binary32 -/

/-- Rounding to the nearest integer moves a value by at most one half. -/
theorem roundHalfEven_err (q : ℚ) : |(roundHalfEven q : ℚ) - q| ≤ 1 / 2 := by
  have h0 : (⌊q⌋ : ℚ) ≤ q := Int.floor_le q
  have h1 : q < ⌊q⌋ + 1 := Int.lt_floor_add_one q
  unfold roundHalfEven
  split_ifs with ha hb hc
  · rw [abs_le]
    constructor <;> linarith
  · rw [abs_le]
    push_cast
    constructor <;> linarith
  · rw [abs_le]
    constructor <;> linarith
  · rw [abs_le]
    push_cast
    constructor <;> linarith

/-- The relative error of a rounding to binary32 is at most `2^-24`. -/
theorem binary32_err (q : ℚ) : |binary32 q - q| ≤ |q| / 16777216 := by
  by_cases h0 : q = 0
  · rw [h0, binary32_zero]
    norm_num
  · have habs : 0 < |q| := abs_pos.mpr h0
    have hlog : (2 : ℚ) ^ Int.log 2 |q| ≤ |q| := by
      exact_mod_cast Int.zpow_log_le_self (b := 2) (by norm_num) habs
    unfold binary32
    rw [if_neg h0]
    generalize Int.log 2 |q| = e at hlog ⊢
    have hpos : (0 : ℚ) < 2 ^ (e - 23) := zpow_pos (by norm_num) _
    have hsplit : (2 : ℚ) ^ e = 2 ^ (e - 23) * 8388608 := by
      rw [show (2 : ℚ) ^ e = 2 ^ ((e - 23) + 23) by ring_nf, zpow_add₀ (by norm_num)]
      norm_num
    have hr := roundHalfEven_err (q / 2 ^ (e - 23))
    generalize (roundHalfEven (q / 2 ^ (e - 23)) : ℚ) = R at hr ⊢
    generalize (2 : ℚ) ^ (e - 23) = p at hpos hsplit hr ⊢
    have e1 : R * p - q = (R - q / p) * p := by
      field_simp
    rw [e1, abs_mul, abs_of_pos hpos]
    have e2 : |R - q / p| * p ≤ 1 / 2 * p := mul_le_mul_of_nonneg_right hr hpos.le
    rw [hsplit] at hlog
    linarith

/-- A rounding stays within `B * 2^-24` of a value of magnitude at most `B`. -/
theorem binary32_near (q B : ℚ) (h1 : -B ≤ q) (h2 : q ≤ B) :
    q - B / 16777216 ≤ binary32 q ∧ binary32 q ≤ q + B / 16777216 := by
  have h := binary32_err q
  have hq : |q| ≤ B := abs_le.mpr ⟨h1, h2⟩
  have h3 : |binary32 q - q| ≤ B / 16777216 :=
    le_trans h (div_le_div_of_nonneg_right hq (by norm_num))
  rw [abs_le] at h3
  constructor <;> linarith

/-! ### Bounds on `Hash` and on the split ratio in binary32 -/

/-- In binary32 `Hash` lies between -1 and 1, up to one part in a million. -/
theorem Binary32.Hash_bounds (x y z : Int) :
    -(1 + 1 / 1000000) ≤ Binary32.Hash x y z ∧ Binary32.Hash x y z ≤ 1 + 1 / 1000000 := by
  have hm := hashBits_lt x y z
  have hm1 : (hashBits x y z : ℚ) ≤ 2147483648 := by exact_mod_cast le_of_lt hm
  have hm0 : (0 : ℚ) ≤ (hashBits x y z : ℚ) := Nat.cast_nonneg _
  unfold Binary32.Hash
  generalize (hashBits x y z : ℚ) = m at hm0 hm1
  obtain ⟨a1, a2⟩ := binary32_near m 2147483648 (by linarith) hm1
  generalize binary32 m = M at a1 a2
  obtain ⟨b1, b2⟩ := binary32_near (M / 1073741824) 3 (by linarith) (by linarith)
  generalize binary32 (M / 1073741824) = D at b1 b2
  obtain ⟨c1, c2⟩ := binary32_near (1 - D) 2 (by linarith) (by linarith)
  constructor <;> linarith

/-- In binary32 the split ratio `0.38f + (hSplit * 0.24f)` lies between 0.13 and 0.63. -/
theorem Binary32.ratio_expr_bounds (H : ℚ) (h1 : -(1 + 1 / 1000000) ≤ H)
    (h2 : H ≤ 1 + 1 / 1000000) :
    13 / 100 ≤ binary32 (binary32 0.38 + binary32 (H * binary32 0.24)) ∧
      binary32 (binary32 0.38 + binary32 (H * binary32 0.24)) ≤ 63 / 100 := by
  rw [binary32_038, binary32_024]
  obtain ⟨a1, a2⟩ := binary32_near (H * (16106127 / 67108864)) 1 (by linarith) (by linarith)
  generalize binary32 (H * (16106127 / 67108864)) = P at a1 a2
  obtain ⟨b1, b2⟩ := binary32_near (3187671 / 8388608 + P) 1 (by linarith) (by linarith)
  constructor <;> linarith

/-! ### One split along one axis -/

/-- The arithmetic of one split in binary32, along one axis. A rectangle spans `x` to
`x + w` within -200 to 201 and is at least 30 long; it is split at a ratio between 0.13 and
0.63 into the parts `w1` and `w2`, both at least 20. The first child keeps `x` and is `a`
long, the second starts at `x2` and is `b` long. Each value is one rounding away from its
exact counterpart. Then the children stay in place up to `1/8192`: the first ends at least
2 before the end of the parent, the second starts more than 5 after the first ends and ends
within `1/8192` of the end of the parent. -/
theorem Binary32.split_axis (x w ρ w1 t w2 a b s x2 : ℚ)
    (hx : -200 ≤ x) (hxw : x + w ≤ 201) (hw : 30 ≤ w) (hρ0 : 13 / 100 ≤ ρ)
    (hρ1 : ρ ≤ 63 / 100) (hw1 : ¬ w1 < 20) (hw2 : ¬ w2 < 20)
    (e1 : |w1 - w * ρ| ≤ |w * ρ| / 16777216)
    (e2 : |t - (1 - ρ)| ≤ |1 - ρ| / 16777216)
    (e3 : |w2 - w * t| ≤ |w * t| / 16777216)
    (e4 : |a - (w1 - 3)| ≤ |w1 - 3| / 16777216)
    (e5 : |b - (w2 - 3)| ≤ |w2 - 3| / 16777216)
    (e6 : |s - (x + w1)| ≤ |x + w1| / 16777216)
    (e7 : |x2 - (s + 3)| ≤ |s + 3| / 16777216) :
    16 ≤ a ∧ 16 ≤ b ∧ a + 2 ≤ w ∧ x + a + 5 ≤ x2 ∧
      |x2 + b - (x + w)| ≤ 1 / 8192 ∧ |x2 - (x + a) - 6| ≤ 1 / 8192 ∧
      |a + b - (w - 6)| ≤ 1 / 8192 := by
  have hw1' : 20 ≤ w1 := not_lt.mp hw1
  have hw2' : 20 ≤ w2 := not_lt.mp hw2
  have hwu : w ≤ 401 := by linarith
  -- the first part
  have p1 : 0 ≤ w * ρ := mul_nonneg (by linarith) (by linarith)
  have p2 : w * ρ ≤ w * (63 / 100) := mul_le_mul_of_nonneg_left hρ1 (by linarith)
  rw [abs_of_nonneg p1, abs_le] at e1
  -- the complement of the ratio
  have q1 : 0 ≤ 1 - ρ := by linarith
  rw [abs_of_nonneg q1, abs_le] at e2
  have ht0 : 36 / 100 ≤ t := by linarith
  have ht1 : t ≤ 88 / 100 := by linarith
  -- the second part
  have p3 : 0 ≤ w * t := mul_nonneg (by linarith) (by linarith)
  have p4 : w * t ≤ w * (88 / 100) := mul_le_mul_of_nonneg_left ht1 (by linarith)
  rw [abs_of_nonneg p3, abs_le] at e3
  have p5 : w * t - w * (1 - ρ) ≤ 401 * (1 / 16777216) := by
    have h : w * (t - (1 - ρ)) ≤ w * ((1 - ρ) / 16777216) :=
      mul_le_mul_of_nonneg_left e2.2 (by linarith)
    have h' : w * ((1 - ρ) / 16777216) ≤ 401 * (1 / 16777216) := by
      have : w * (1 - ρ) ≤ 401 * 1 := mul_le_mul hwu (by linarith) q1 (by norm_num)
      linarith
    linarith
  have p6 : -(401 * (1 / 16777216)) ≤ w * t - w * (1 - ρ) := by
    have h : w * (-((1 - ρ) / 16777216)) ≤ w * (t - (1 - ρ)) :=
      mul_le_mul_of_nonneg_left e2.1 (by linarith)
    have h' : w * ((1 - ρ) / 16777216) ≤ 401 * (1 / 16777216) := by
      have : w * (1 - ρ) ≤ 401 * 1 := mul_le_mul hwu (by linarith) q1 (by norm_num)
      linarith
    linarith
  -- the sizes of the children
  have r1 : 0 ≤ w1 - 3 := by linarith
  rw [abs_of_nonneg r1, abs_le] at e4
  have r2 : 0 ≤ w2 - 3 := by linarith
  rw [abs_of_nonneg r2, abs_le] at e5
  -- the start of the second child
  have s1 : |x + w1| ≤ 201 := by
    rw [abs_le]
    constructor <;> linarith
  have e6' := le_trans e6 (div_le_div_of_nonneg_right s1 (by norm_num))
  rw [abs_le] at e6'
  have s2 : |s + 3| ≤ 205 := by
    rw [abs_le]
    constructor <;> linarith
  have e7' := le_trans e7 (div_le_div_of_nonneg_right s2 (by norm_num))
  rw [abs_le] at e7'
  refine ⟨by linarith, by linarith, by linarith, by linarith, ?_, ?_, ?_⟩
  · rw [abs_le]
    constructor <;> linarith
  · rw [abs_le]
    constructor <;> linarith
  · rw [abs_le]
    constructor <;> linarith

/-! ### RecursiveSplit in binary32: bounds, cases and the induction on the depth -/

/-- The street gap halved, `streetGap / 2`, is 3 without rounding. -/
theorem binary32_three : binary32 (6 / 2) = 3 :=
  binary32_val (6 / 2) 1 12582912 3 (by norm_num) (by norm_num) (by norm_num) (by norm_num)
    (by norm_num)

/-- The children of one split in binary32, along one axis, written with the roundings of
the program: see `Binary32.split_axis`. -/
theorem Binary32.split_children (x w ρ : ℚ) (hx : -200 ≤ x) (hxw : x + w ≤ 201)
    (hw : ¬ w < 30) (hρ0 : 13 / 100 ≤ ρ) (hρ1 : ρ ≤ 63 / 100)
    (hw12 : ¬ (binary32 (w * ρ) < 20 ∨ binary32 (w * binary32 (1 - ρ)) < 20)) :
    16 ≤ binary32 (binary32 (w * ρ) - 3) ∧
      16 ≤ binary32 (binary32 (w * binary32 (1 - ρ)) - 3) ∧
      binary32 (binary32 (w * ρ) - 3) + 2 ≤ w ∧
      x + binary32 (binary32 (w * ρ) - 3) + 5 ≤ binary32 (binary32 (x + binary32 (w * ρ)) + 3) ∧
      |binary32 (binary32 (x + binary32 (w * ρ)) + 3) +
          binary32 (binary32 (w * binary32 (1 - ρ)) - 3) - (x + w)| ≤ 1 / 8192 ∧
      |binary32 (binary32 (x + binary32 (w * ρ)) + 3) -
          (x + binary32 (binary32 (w * ρ) - 3)) - 6| ≤ 1 / 8192 ∧
      |binary32 (binary32 (w * ρ) - 3) + binary32 (binary32 (w * binary32 (1 - ρ)) - 3) -
          (w - 6)| ≤ 1 / 8192 :=
  Binary32.split_axis x w ρ (binary32 (w * ρ)) (binary32 (1 - ρ))
    (binary32 (w * binary32 (1 - ρ))) _ _ (binary32 (x + binary32 (w * ρ))) _ hx hxw
    (not_lt.mp hw) hρ0 hρ1 (fun h => hw12 (Or.inl h)) (fun h => hw12 (Or.inr h))
    (binary32_err _) (binary32_err _) (binary32_err _) (binary32_err _) (binary32_err _)
    (binary32_err _) (binary32_err _)

/-- One call of `RecursiveSplit` at positive depth in binary32, on a rectangle that spans
-200 to 201 at most on both axes: it pushes `r`, or it descends into two children side by
side along x, or into two children side by side along z. The children are at least 16 long
along the split axis; the first starts where `r` starts and ends at least 2 before the end
of `r`; the second starts more than 5 after the first ends and ends within `1/8192` of the
end of `r`; the gap is 6 and the sizes sum to the size of `r` less 6, both within
`1/8192`. -/
theorem Binary32.RecursiveSplitCalls_step_cases (chunkPos : Vector3) (r : Rect) (depth : Nat)
    (hx : -200 ≤ r.x) (hxw : r.x + r.w ≤ 201) (hz : -200 ≤ r.z) (hzh : r.z + r.h ≤ 201) :
    Binary32.RecursiveSplitCalls chunkPos r (depth + 1) = .push r ∨
    (∃ a b x2 : ℚ,
      (16 ≤ a ∧ 16 ≤ b ∧ a + 2 ≤ r.w ∧ r.x + a + 5 ≤ x2 ∧ |x2 + b - (r.x + r.w)| ≤ 1 / 8192 ∧
        |x2 - (r.x + a) - 6| ≤ 1 / 8192 ∧ |a + b - (r.w - 6)| ≤ 1 / 8192) ∧
      Binary32.RecursiveSplitCalls chunkPos r (depth + 1) =
        .nest r (Binary32.RecursiveSplitCalls chunkPos ⟨r.x, r.z, a, r.h⟩ depth)
          (Binary32.RecursiveSplitCalls chunkPos ⟨x2, r.z, b, r.h⟩ depth)) ∨
    (∃ a b z2 : ℚ,
      (16 ≤ a ∧ 16 ≤ b ∧ a + 2 ≤ r.h ∧ r.z + a + 5 ≤ z2 ∧ |z2 + b - (r.z + r.h)| ≤ 1 / 8192 ∧
        |z2 - (r.z + a) - 6| ≤ 1 / 8192 ∧ |a + b - (r.h - 6)| ≤ 1 / 8192) ∧
      Binary32.RecursiveSplitCalls chunkPos r (depth + 1) =
        .nest r (Binary32.RecursiveSplitCalls chunkPos ⟨r.x, r.z, r.w, a⟩ depth)
          (Binary32.RecursiveSplitCalls chunkPos ⟨r.x, z2, r.w, b⟩ depth)) := by
  generalize hT : Binary32.RecursiveSplitCalls chunkPos r (depth + 1) = T
  rw [Binary32.RecursiveSplitCalls] at hT
  dsimp only at hT
  simp only [binary32_three] at hT
  have hH := Binary32.Hash_bounds
    (toInt (binary32 (binary32 (r.x + binary32 (r.w / 2)) + chunkPos.x)))
    (toInt (binary32 (binary32 (r.z + binary32 (r.h / 2)) + chunkPos.z))) ((depth : Int) + 1)
  have hρ := Binary32.ratio_expr_bounds _ hH.1 hH.2
  split_ifs at hT
  all_goals first
    | exact Or.inl hT.symm
    | exact Or.inr (Or.inl ⟨_, _, _,
        Binary32.split_children r.x r.w _ hx hxw
          (fun h => (by assumption : ¬ (r.w < 30 ∨ r.h < 30)) (Or.inl h)) hρ.1 hρ.2
          (by assumption), hT.symm⟩)
    | exact Or.inr (Or.inr ⟨_, _, _,
        Binary32.split_children r.z r.h _ hz hzh
          (fun h => (by assumption : ¬ (r.w < 30 ∨ r.h < 30)) (Or.inr h)) hρ.1 hρ.2
          (by assumption), hT.symm⟩)

theorem Binary32.RecursiveSplitCalls_zero (chunkPos : Vector3) (r : Rect) :
    Binary32.RecursiveSplitCalls chunkPos r 0 = .push r := by
  rw [Binary32.RecursiveSplitCalls]

/-- The call tree of `RecursiveSplit(r, depth)` in binary32 is rooted at `r`. -/
theorem Binary32.RecursiveSplitCalls_rect (chunkPos : Vector3) (r : Rect) (depth : Nat) :
    (Binary32.RecursiveSplitCalls chunkPos r depth).rect = r := by
  cases depth with
  | zero => rw [Binary32.RecursiveSplitCalls_zero, SplitCall.rect_push]
  | succ d =>
    generalize hT : Binary32.RecursiveSplitCalls chunkPos r (d + 1) = T
    rw [Binary32.RecursiveSplitCalls] at hT
    dsimp only at hT
    split_ifs at hT
    all_goals
      rw [← hT]
      rfl

/-- The leaves and the splits of `RecursiveSplit(r, depth)` in binary32, for a depth of at
most 6 and a rectangle that spans -200 to 201 at most on both axes, with room for one
rounding step of `1/8192` per level. Every leaf starts at or after the low edges of `r` and
ends at most `depth/8192` after its high edges; no two leaves share a point; every split
tiles its parent up to `1/8192`. -/
theorem Binary32.RecursiveSplitCalls_spec (chunkPos : Vector3) :
    ∀ (depth : Nat) (r : Rect), depth ≤ 6 → -200 ≤ r.x → r.x + r.w + depth / 8192 ≤ 201 →
      -200 ≤ r.z → r.z + r.h + depth / 8192 ≤ 201 →
      (∀ b ∈ (Binary32.RecursiveSplitCalls chunkPos r depth).blocks,
          r.x ≤ b.x ∧ b.x + b.w ≤ r.x + r.w + depth / 8192 ∧
            r.z ≤ b.z ∧ b.z + b.h ≤ r.z + r.h + depth / 8192) ∧
        (Binary32.RecursiveSplitCalls chunkPos r depth).blocks.Pairwise
          (fun a b => ¬ a.overlaps b) ∧
        (∀ s ∈ (Binary32.RecursiveSplitCalls chunkPos r depth).splits,
          tilesAlongXWithin (1 / 8192) s.1 s.2.1 s.2.2 ∨
            tilesAlongZWithin (1 / 8192) s.1 s.2.1 s.2.2) := by
  intro depth
  induction depth with
  | zero =>
    intro r _ hx hxw hz hzh
    rw [Binary32.RecursiveSplitCalls_zero]
    refine ⟨?_, ?_, ?_⟩
    · intro b hb
      rw [SplitCall.blocks, List.mem_singleton] at hb
      subst hb
      norm_num
    · simp [SplitCall.blocks]
    · intro s hs
      rw [SplitCall.splits_push] at hs
      exact absurd hs (List.not_mem_nil s)
  | succ d ih =>
    intro r hd hx hxw hz hzh
    push_cast at hxw hzh ⊢
    have hd0 : (0 : ℚ) ≤ d := Nat.cast_nonneg d
    have hd5 : (d : ℚ) ≤ 5 := by exact_mod_cast (by omega : d ≤ 5)
    have hd' : d ≤ 6 := by omega
    rcases Binary32.RecursiveSplitCalls_step_cases chunkPos r d hx (by linarith) hz
        (by linarith) with
      h | ⟨a, b, x2, ⟨f1, f2, f3, f4, f5, f6, f7⟩, h⟩ | ⟨a, b, z2, ⟨f1, f2, f3, f4, f5, f6, f7⟩, h⟩
    · rw [h]
      refine ⟨?_, ?_, ?_⟩
      · intro b hb
        rw [SplitCall.blocks, List.mem_singleton] at hb
        subst hb
        exact ⟨le_refl _, by linarith, le_refl _, by linarith⟩
      · simp [SplitCall.blocks]
      · intro s hs
        rw [SplitCall.splits_push] at hs
        exact absurd hs (List.not_mem_nil s)
    · have f5' := abs_le.mp f5
      obtain ⟨i1, i2, i3⟩ := ih ⟨r.x, r.z, a, r.h⟩ hd' hx
        (by dsimp only; linarith) hz (by dsimp only; linarith)
      obtain ⟨j1, j2, j3⟩ := ih ⟨x2, r.z, b, r.h⟩ hd' (by dsimp only; linarith)
        (by dsimp only; linarith) hz (by dsimp only; linarith)
      rw [h]
      refine ⟨?_, ?_, ?_⟩
      · intro c hc
        rw [SplitCall.blocks, List.mem_append] at hc
        rcases hc with hc | hc
        · obtain ⟨k1, k2, k3, k4⟩ := i1 c hc
          dsimp only at k1 k2 k3 k4
          exact ⟨k1, by linarith, k3, by linarith⟩
        · obtain ⟨k1, k2, k3, k4⟩ := j1 c hc
          dsimp only at k1 k2 k3 k4
          exact ⟨by linarith, by linarith, k3, by linarith⟩
      · rw [SplitCall.blocks, List.pairwise_append]
        refine ⟨i2, j2, ?_⟩
        intro c hc e he hov
        have k1 := (i1 c hc).2.1
        have k2 := (j1 e he).1
        have k3 := hov.2.1
        dsimp only at k1 k2
        linarith
      · intro s hs
        rw [SplitCall.splits_nest, List.mem_cons, List.mem_append] at hs
        rcases hs with hs | hs | hs
        · left
          rw [hs, Binary32.RecursiveSplitCalls_rect, Binary32.RecursiveSplitCalls_rect]
          exact ⟨rfl, f5, f6, f7, rfl, rfl, rfl, rfl⟩
        · exact i3 s hs
        · exact j3 s hs
    · have f5' := abs_le.mp f5
      obtain ⟨i1, i2, i3⟩ := ih ⟨r.x, r.z, r.w, a⟩ hd' hx
        (by dsimp only; linarith) hz (by dsimp only; linarith)
      obtain ⟨j1, j2, j3⟩ := ih ⟨r.x, z2, r.w, b⟩ hd' hx
        (by dsimp only; linarith) (by dsimp only; linarith) (by dsimp only; linarith)
      rw [h]
      refine ⟨?_, ?_, ?_⟩
      · intro c hc
        rw [SplitCall.blocks, List.mem_append] at hc
        rcases hc with hc | hc
        · obtain ⟨k1, k2, k3, k4⟩ := i1 c hc
          dsimp only at k1 k2 k3 k4
          exact ⟨k1, by linarith, k3, by linarith⟩
        · obtain ⟨k1, k2, k3, k4⟩ := j1 c hc
          dsimp only at k1 k2 k3 k4
          exact ⟨k1, by linarith, by linarith, by linarith⟩
      · rw [SplitCall.blocks, List.pairwise_append]
        refine ⟨i2, j2, ?_⟩
        intro c hc e he hov
        have k1 := (i1 c hc).2.2.2
        have k2 := (j1 e he).2.2.1
        have k3 := hov.2.2.2
        dsimp only at k1 k2
        linarith
      · intro s hs
        rw [SplitCall.splits_nest, List.mem_cons, List.mem_append] at hs
        rcases hs with hs | hs | hs
        · right
          rw [hs, Binary32.RecursiveSplitCalls_rect, Binary32.RecursiveSplitCalls_rect]
          exact ⟨rfl, f5, f6, f7, rfl, rfl, rfl, rfl⟩
        · exact i3 s hs
        · exact j3 s hs

/-! ### The chunk at the world origin in binary32, along one branch

The roundings, the casts and the hash values of the calls `RecursiveSplit` makes in binary32
from the root rectangle of the chunk at the world origin down to `roundedLeaf`: the root
splits along z (`Hash(0, 0, 6)` is about -0.789, ratio 0.1907), the first part 400 x 73.29
splits along x three times, and the second part of the third of these splits, 43.17 wide,
is pushed as a leaf. -/

theorem b32o_r0 : binary32 200 = 200 :=
  binary32_val 200 7 13107200 200 (by norm_num) (by norm_num) (by norm_num) (by norm_num)
    (by norm_num)

theorem b32o_r1 : binary32 1920572283 = 1920572288 :=
  binary32_val 1920572283 30 15004471 1920572288 (by norm_num) (by norm_num) (by norm_num) (by norm_num)
    (by norm_num)

theorem b32o_r2 : binary32 (15004471 / 8388608) = 15004471 / 8388608 :=
  binary32_val (15004471 / 8388608) 0 15004471 (15004471 / 8388608) (by norm_num) (by norm_num) (by norm_num) (by norm_num)
    (by norm_num)

theorem b32o_r3 : binary32 (-(6615863 / 8388608)) = -(6615863 / 8388608) :=
  binary32_val (-(6615863 / 8388608)) (-1) (-13231726) (-(6615863 / 8388608)) (by norm_num) (by norm_num) (by norm_num) (by norm_num)
    (by norm_num)

theorem b32o_r4 : binary32 (19 / 50) = 3187671 / 8388608 :=
  binary32_val (19 / 50) (-2) 12750684 (3187671 / 8388608) (by norm_num) (by norm_num) (by norm_num) (by norm_num)
    (by norm_num)

theorem b32o_r5 : binary32 (6 / 25) = 16106127 / 67108864 :=
  binary32_val (6 / 25) (-3) 16106127 (16106127 / 67108864) (by norm_num) (by norm_num) (by norm_num) (by norm_num)
    (by norm_num)

theorem b32o_r6 : binary32 (-(106555929692601 / 562949953421312)) = -(12702457 / 67108864) :=
  binary32_val (-(106555929692601 / 562949953421312)) (-3) (-12702457) (-(12702457 / 67108864)) (by norm_num) (by norm_num) (by norm_num) (by norm_num)
    (by norm_num)

theorem b32o_r7 : binary32 (12798911 / 67108864) = 12798911 / 67108864 :=
  binary32_val (12798911 / 67108864) (-3) 12798911 (12798911 / 67108864) (by norm_num) (by norm_num) (by norm_num) (by norm_num)
    (by norm_num)

theorem b32o_r8 : binary32 3 = 3 :=
  binary32_val 3 1 12582912 3 (by norm_num) (by norm_num) (by norm_num) (by norm_num)
    (by norm_num)

theorem b32o_r9 : binary32 (319972775 / 4194304) = 9999149 / 131072 :=
  binary32_val (319972775 / 4194304) 6 9999149 (9999149 / 131072) (by norm_num) (by norm_num) (by norm_num) (by norm_num)
    (by norm_num)

theorem b32o_r10 : binary32 (54309953 / 67108864) = 848593 / 1048576 :=
  binary32_val (54309953 / 67108864) (-1) 13577488 (848593 / 1048576) (by norm_num) (by norm_num) (by norm_num) (by norm_num)
    (by norm_num)

theorem b32o_r11 : binary32 (21214825 / 65536) = 2651853 / 8192 :=
  binary32_val (21214825 / 65536) 8 10607412 (2651853 / 8192) (by norm_num) (by norm_num) (by norm_num) (by norm_num)
    (by norm_num)

theorem b32o_r12 : binary32 (9605933 / 131072) = 9605933 / 131072 :=
  binary32_val (9605933 / 131072) 6 9605933 (9605933 / 131072) (by norm_num) (by norm_num) (by norm_num) (by norm_num)
    (by norm_num)

theorem b32o_r13 : binary32 (-(16215251 / 131072)) = -(16215251 / 131072) :=
  binary32_val (-(16215251 / 131072)) 6 (-16215251) (-(16215251 / 131072)) (by norm_num) (by norm_num) (by norm_num) (by norm_num)
    (by norm_num)

theorem b32o_r14 : binary32 (-(15822035 / 131072)) = -(15822035 / 131072) :=
  binary32_val (-(15822035 / 131072)) 6 (-15822035) (-(15822035 / 131072)) (by norm_num) (by norm_num) (by norm_num) (by norm_num)
    (by norm_num)

theorem b32o_r15 : binary32 (2627277 / 8192) = 2627277 / 8192 :=
  binary32_val (2627277 / 8192) 8 10509108 (2627277 / 8192) (by norm_num) (by norm_num) (by norm_num) (by norm_num)
    (by norm_num)

theorem b32o_r16 : binary32 (9605933 / 262144) = 9605933 / 262144 :=
  binary32_val (9605933 / 262144) 5 9605933 (9605933 / 262144) (by norm_num) (by norm_num) (by norm_num) (by norm_num)
    (by norm_num)

theorem b32o_r17 : binary32 (-(42822867 / 262144)) = -(10705717 / 65536) :=
  binary32_val (-(42822867 / 262144)) 7 (-10705717) (-(10705717 / 65536)) (by norm_num) (by norm_num) (by norm_num) (by norm_num)
    (by norm_num)

theorem b32o_r18 : binary32 (-(10705717 / 65536)) = -(10705717 / 65536) :=
  binary32_val (-(10705717 / 65536)) 7 (-10705717) (-(10705717 / 65536)) (by norm_num) (by norm_num) (by norm_num) (by norm_num)
    (by norm_num)

theorem b32o_r19 : binary32 963086691 = 963086720 :=
  binary32_val 963086691 29 15048230 963086720 (by norm_num) (by norm_num) (by norm_num) (by norm_num)
    (by norm_num)

theorem b32o_r20 : binary32 (7524115 / 8388608) = 7524115 / 8388608 :=
  binary32_val (7524115 / 8388608) (-1) 15048230 (7524115 / 8388608) (by norm_num) (by norm_num) (by norm_num) (by norm_num)
    (by norm_num)

theorem b32o_r21 : binary32 (864493 / 8388608) = 864493 / 8388608 :=
  binary32_val (864493 / 8388608) (-4) 13831888 (864493 / 8388608) (by norm_num) (by norm_num) (by norm_num) (by norm_num)
    (by norm_num)

theorem b32o_r22 : binary32 (42822867 / 131072) = 10705717 / 32768 :=
  binary32_val (42822867 / 131072) 8 10705717 (10705717 / 32768) (by norm_num) (by norm_num) (by norm_num) (by norm_num)
    (by norm_num)

theorem b32o_r23 : binary32 (13923634048611 / 562949953421312) = 3319653 / 134217728 :=
  binary32_val (13923634048611 / 562949953421312) (-6) 13278612 (3319653 / 134217728) (by norm_num) (by norm_num) (by norm_num) (by norm_num)
    (by norm_num)

theorem b32o_r24 : binary32 (54322389 / 134217728) = 13580597 / 33554432 :=
  binary32_val (54322389 / 134217728) (-2) 13580597 (13580597 / 33554432) (by norm_num) (by norm_num) (by norm_num) (by norm_num)
    (by norm_num)

theorem b32o_r25 : binary32 (339514925 / 2097152) = 10609841 / 65536 :=
  binary32_val (339514925 / 2097152) 7 10609841 (10609841 / 65536) (by norm_num) (by norm_num) (by norm_num) (by norm_num)
    (by norm_num)

theorem b32o_r26 : binary32 (19973835 / 33554432) = 4993459 / 8388608 :=
  binary32_val (19973835 / 33554432) (-1) 9986918 (4993459 / 8388608) (by norm_num) (by norm_num) (by norm_num) (by norm_num)
    (by norm_num)

theorem b32o_r27 : binary32 (124836475 / 524288) = 15604559 / 65536 :=
  binary32_val (124836475 / 524288) 7 15604559 (15604559 / 65536) (by norm_num) (by norm_num) (by norm_num) (by norm_num)
    (by norm_num)

theorem b32o_r28 : binary32 (10413233 / 65536) = 10413233 / 65536 :=
  binary32_val (10413233 / 65536) 7 10413233 (10413233 / 65536) (by norm_num) (by norm_num) (by norm_num) (by norm_num)
    (by norm_num)

theorem b32o_r29 : binary32 (-(2497359 / 65536)) = -(2497359 / 65536) :=
  binary32_val (-(2497359 / 65536)) 5 (-9989436) (-(2497359 / 65536)) (by norm_num) (by norm_num) (by norm_num) (by norm_num)
    (by norm_num)

theorem b32o_r30 : binary32 (-(2300751 / 65536)) = -(2300751 / 65536) :=
  binary32_val (-(2300751 / 65536)) 5 (-9203004) (-(2300751 / 65536)) (by norm_num) (by norm_num) (by norm_num) (by norm_num)
    (by norm_num)

theorem b32o_r31 : binary32 (15407951 / 65536) = 15407951 / 65536 :=
  binary32_val (15407951 / 65536) 7 15407951 (15407951 / 65536) (by norm_num) (by norm_num) (by norm_num) (by norm_num)
    (by norm_num)

theorem b32o_r32 : binary32 (15407951 / 131072) = 15407951 / 131072 :=
  binary32_val (15407951 / 131072) 6 15407951 (15407951 / 131072) (by norm_num) (by norm_num) (by norm_num) (by norm_num)
    (by norm_num)

theorem b32o_r33 : binary32 (10806449 / 131072) = 10806449 / 131072 :=
  binary32_val (10806449 / 131072) 6 10806449 (10806449 / 131072) (by norm_num) (by norm_num) (by norm_num) (by norm_num)
    (by norm_num)

theorem b32o_r34 : binary32 194252525 = 194252528 :=
  binary32_val 194252525 27 12140783 194252528 (by norm_num) (by norm_num) (by norm_num) (by norm_num)
    (by norm_num)

theorem b32o_r35 : binary32 (12140783 / 67108864) = 12140783 / 67108864 :=
  binary32_val (12140783 / 67108864) (-3) 12140783 (12140783 / 67108864) (by norm_num) (by norm_num) (by norm_num) (by norm_num)
    (by norm_num)

theorem b32o_r36 : binary32 (54968081 / 67108864) = 3435505 / 4194304 :=
  binary32_val (54968081 / 67108864) (-1) 13742020 (3435505 / 4194304) (by norm_num) (by norm_num) (by norm_num) (by norm_num)
    (by norm_num)

theorem b32o_r37 : binary32 (21209969 / 131072) = 1325623 / 8192 :=
  binary32_val (21209969 / 131072) 7 10604984 (1325623 / 8192) (by norm_num) (by norm_num) (by norm_num) (by norm_num)
    (by norm_num)

theorem b32o_r38 : binary32 (55332679839135 / 281474976710656) = 13192339 / 67108864 :=
  binary32_val (55332679839135 / 281474976710656) (-3) 13192339 (13192339 / 67108864) (by norm_num) (by norm_num) (by norm_num) (by norm_num)
    (by norm_num)

theorem b32o_r39 : binary32 (38693707 / 67108864) = 9673427 / 16777216 :=
  binary32_val (38693707 / 67108864) (-1) 9673427 (9673427 / 16777216) (by norm_num) (by norm_num) (by norm_num) (by norm_num)
    (by norm_num)

theorem b32o_r40 : binary32 (149047689218077 / 1099511627776) = 8883935 / 65536 :=
  binary32_val (149047689218077 / 1099511627776) 7 8883935 (8883935 / 65536) (by norm_num) (by norm_num) (by norm_num) (by norm_num)
    (by norm_num)

theorem b32o_r41 : binary32 (7103789 / 16777216) = 7103789 / 16777216 :=
  binary32_val (7103789 / 16777216) (-2) 14207578 (7103789 / 16777216) (by norm_num) (by norm_num) (by norm_num) (by norm_num)
    (by norm_num)

theorem b32o_r42 : binary32 (109454832826339 / 1099511627776) = 13048033 / 131072 :=
  binary32_val (109454832826339 / 1099511627776) 6 13048033 (13048033 / 131072) (by norm_num) (by norm_num) (by norm_num) (by norm_num)
    (by norm_num)

theorem b32o_r43 : binary32 (8687327 / 65536) = 8687327 / 65536 :=
  binary32_val (8687327 / 65536) 7 8687327 (8687327 / 65536) (by norm_num) (by norm_num) (by norm_num) (by norm_num)
    (by norm_num)

theorem b32o_r44 : binary32 (411449 / 4096) = 411449 / 4096 :=
  binary32_val (411449 / 4096) 6 13166368 (411449 / 4096) (by norm_num) (by norm_num) (by norm_num) (by norm_num)
    (by norm_num)

theorem b32o_r45 : binary32 (423737 / 4096) = 423737 / 4096 :=
  binary32_val (423737 / 4096) 6 13559584 (423737 / 4096) (by norm_num) (by norm_num) (by norm_num) (by norm_num)
    (by norm_num)

theorem b32o_r46 : binary32 (12654817 / 131072) = 12654817 / 131072 :=
  binary32_val (12654817 / 131072) 6 12654817 (12654817 / 131072) (by norm_num) (by norm_num) (by norm_num) (by norm_num)
    (by norm_num)

theorem b32o_r47 : binary32 (12654817 / 262144) = 12654817 / 262144 :=
  binary32_val (12654817 / 262144) 5 12654817 (12654817 / 262144) (by norm_num) (by norm_num) (by norm_num) (by norm_num)
    (by norm_num)

theorem b32o_r48 : binary32 (39773985 / 262144) = 1242937 / 8192 :=
  binary32_val (39773985 / 262144) 7 9943496 (1242937 / 8192) (by norm_num) (by norm_num) (by norm_num) (by norm_num)
    (by norm_num)

theorem b32o_r49 : binary32 (1242937 / 8192) = 1242937 / 8192 :=
  binary32_val (1242937 / 8192) 7 9943496 (1242937 / 8192) (by norm_num) (by norm_num) (by norm_num) (by norm_num)
    (by norm_num)

theorem b32o_r50 : binary32 439363453 = 439363456 :=
  binary32_val 439363453 28 13730108 439363456 (by norm_num) (by norm_num) (by norm_num) (by norm_num)
    (by norm_num)

theorem b32o_r51 : binary32 (3432527 / 8388608) = 3432527 / 8388608 :=
  binary32_val (3432527 / 8388608) (-2) 13730108 (3432527 / 8388608) (by norm_num) (by norm_num) (by norm_num) (by norm_num)
    (by norm_num)

theorem b32o_r52 : binary32 (4956081 / 8388608) = 4956081 / 8388608 :=
  binary32_val (4956081 / 8388608) (-1) 9912162 (4956081 / 8388608) (by norm_num) (by norm_num) (by norm_num) (by norm_num)
    (by norm_num)

theorem b32o_r53 : binary32 (762221 / 32768) = 762221 / 32768 :=
  binary32_val (762221 / 32768) 4 12195536 (762221 / 32768) (by norm_num) (by norm_num) (by norm_num) (by norm_num)
    (by norm_num)

theorem b32o_r54 : binary32 (79823270008287 / 562949953421312) = 9515675 / 67108864 :=
  binary32_val (79823270008287 / 562949953421312) (-3) 9515675 (9515675 / 67108864) (by norm_num) (by norm_num) (by norm_num) (by norm_num)
    (by norm_num)

theorem b32o_r55 : binary32 (35017043 / 67108864) = 8754261 / 16777216 :=
  binary32_val (35017043 / 67108864) (-1) 8754261 (8754261 / 16777216) (by norm_num) (by norm_num) (by norm_num) (by norm_num)
    (by norm_num)

theorem b32o_r56 : binary32 (110783570925237 / 2199023255552) = 13206431 / 262144 :=
  binary32_val (110783570925237 / 2199023255552) 5 13206431 (13206431 / 262144) (by norm_num) (by norm_num) (by norm_num) (by norm_num)
    (by norm_num)

theorem b32o_r57 : binary32 (8022955 / 16777216) = 8022955 / 16777216 :=
  binary32_val (8022955 / 16777216) (-2) 16045910 (8022955 / 16777216) (by norm_num) (by norm_num) (by norm_num) (by norm_num)
    (by norm_num)

theorem b32o_r58 : binary32 (101529027324235 / 2199023255552) = 12103203 / 262144 :=
  binary32_val (101529027324235 / 2199023255552) 5 12103203 (12103203 / 262144) (by norm_num) (by norm_num) (by norm_num) (by norm_num)
    (by norm_num)

theorem b32o_r59 : binary32 (12419999 / 262144) = 12419999 / 262144 :=
  binary32_val (12419999 / 262144) 5 12419999 (12419999 / 262144) (by norm_num) (by norm_num) (by norm_num) (by norm_num)
    (by norm_num)

theorem b32o_r60 : binary32 (40325599 / 262144) = 1260175 / 8192 :=
  binary32_val (40325599 / 262144) 7 10081400 (1260175 / 8192) (by norm_num) (by norm_num) (by norm_num) (by norm_num)
    (by norm_num)

theorem b32o_r61 : binary32 (1284751 / 8192) = 1284751 / 8192 :=
  binary32_val (1284751 / 8192) 7 10278008 (1284751 / 8192) (by norm_num) (by norm_num) (by norm_num) (by norm_num)
    (by norm_num)

theorem b32o_r62 : binary32 (11316771 / 262144) = 11316771 / 262144 :=
  binary32_val (11316771 / 262144) 5 11316771 (11316771 / 262144) (by norm_num) (by norm_num) (by norm_num) (by norm_num)
    (by norm_num)

theorem b32o_r63 : binary32 (11316771 / 524288) = 11316771 / 524288 :=
  binary32_val (11316771 / 524288) 4 11316771 (11316771 / 524288) (by norm_num) (by norm_num) (by norm_num) (by norm_num)
    (by norm_num)

theorem b32o_r64 : binary32 (93540835 / 524288) = 2923151 / 16384 :=
  binary32_val (93540835 / 524288) 7 11692604 (2923151 / 16384) (by norm_num) (by norm_num) (by norm_num) (by norm_num)
    (by norm_num)

theorem b32o_r65 : binary32 (2923151 / 16384) = 2923151 / 16384 :=
  binary32_val (2923151 / 16384) 7 11692604 (2923151 / 16384) (by norm_num) (by norm_num) (by norm_num) (by norm_num)
    (by norm_num)

theorem b32o_r66 : binary32 2027506277 = 2027506304 :=
  binary32_val 2027506277 30 15839893 2027506304 (by norm_num) (by norm_num) (by norm_num) (by norm_num)
    (by norm_num)

theorem b32o_r67 : binary32 (15839893 / 8388608) = 15839893 / 8388608 :=
  binary32_val (15839893 / 8388608) 0 15839893 (15839893 / 8388608) (by norm_num) (by norm_num) (by norm_num) (by norm_num)
    (by norm_num)

theorem b32o_r68 : binary32 (-(7451285 / 8388608)) = -(7451285 / 8388608) :=
  binary32_val (-(7451285 / 8388608)) (-1) (-14902570) (-(7451285 / 8388608)) (by norm_num) (by norm_num) (by norm_num) (by norm_num)
    (by norm_num)

theorem b32o_r69 : binary32 (-(7895095 / 262144)) = -(7895095 / 262144) :=
  binary32_val (-(7895095 / 262144)) 4 (-15790190) (-(7895095 / 262144)) (by norm_num) (by norm_num) (by norm_num) (by norm_num)
    (by norm_num)

theorem b32o_r70 : binary32 (-(120011342523195 / 562949953421312)) = -(14306467 / 67108864) :=
  binary32_val (-(120011342523195 / 562949953421312)) (-3) (-14306467) (-(14306467 / 67108864)) (by norm_num) (by norm_num) (by norm_num) (by norm_num)
    (by norm_num)

theorem b32o_r71 : binary32 (11194901 / 67108864) = 11194901 / 67108864 :=
  binary32_val (11194901 / 67108864) (-3) 11194901 (11194901 / 67108864) (by norm_num) (by norm_num) (by norm_num) (by norm_num)
    (by norm_num)

theorem b32o_r72 : binary32 (107537468947633 / 8796093022208) = 12819465 / 1048576 :=
  binary32_val (107537468947633 / 8796093022208) 3 12819465 (12819465 / 1048576) (by norm_num) (by norm_num) (by norm_num) (by norm_num)
    (by norm_num)

theorem b32o_r73 : binary32 (55913963 / 67108864) = 13978491 / 16777216 :=
  binary32_val (55913963 / 67108864) (-1) 13978491 (13978491 / 16777216) (by norm_num) (by norm_num) (by norm_num) (by norm_num)
    (by norm_num)

theorem b32o_r74 : binary32 (134276447987103 / 2199023255552) = 2000875 / 32768 :=
  binary32_val (134276447987103 / 2199023255552) 5 16007000 (2000875 / 32768) (by norm_num) (by norm_num) (by norm_num) (by norm_num)
    (by norm_num)

theorem b32o_t0 : toInt 0 = 0 := by norm_num [toInt]

theorem b32o_t1 : toInt (-(10705717 / 65536)) = -163 :=
  toInt_of_neg (by norm_num) (by norm_num) (by norm_num)

theorem b32o_t2 : toInt (10806449 / 131072) = 82 :=
  toInt_of_nonneg (by norm_num) (by norm_num) (by norm_num)

theorem b32o_t3 : toInt (1242937 / 8192) = 151 :=
  toInt_of_nonneg (by norm_num) (by norm_num) (by norm_num)

theorem b32o_t4 : toInt (2923151 / 16384) = 178 :=
  toInt_of_nonneg (by norm_num) (by norm_num) (by norm_num)

theorem b32o_h0 : hashBits 0 0 6 = 1920572283 := by decide

theorem b32o_h1 : hashBits 0 (-163) 5 = 963086691 := by decide

theorem b32o_h2 : hashBits 82 (-163) 4 = 194252525 := by decide

theorem b32o_h3 : hashBits 151 (-163) 3 = 439363453 := by decide

theorem b32o_h4 : hashBits 178 (-163) 2 = 2027506277 := by decide

/-- The call at depth 6 along the branch: a split along z. -/
theorem b32o_split6 :
    Binary32.RecursiveSplitCalls ⟨0, 0, 0⟩ ⟨-200, -200, 400, 400⟩ 6 =
      .nest ⟨-200, -200, 400, 400⟩
        (Binary32.RecursiveSplitCalls ⟨0, 0, 0⟩ ⟨-200, -200, 400, 9605933 / 131072⟩ 5)
        (Binary32.RecursiveSplitCalls ⟨0, 0, 0⟩ ⟨-200, -(15822035 / 131072), 400, 2627277 / 8192⟩ 5) := by
  rw [show (6 : ℕ) = 5 + 1 from rfl, Binary32.RecursiveSplitCalls]
  norm_num [Binary32.Hash, abs_lt, b32o_r0, binary32_zero, b32o_t0, b32o_h0, b32o_r1, b32o_r2, b32o_r3, b32o_r4, b32o_r5, b32o_r6, b32o_r7, b32o_r8, b32o_r9, b32o_r10, b32o_r11, b32o_r12, b32o_r13, b32o_r14, b32o_r15]

/-- The call at depth 5 along the branch: a split along x. -/
theorem b32o_split5 :
    Binary32.RecursiveSplitCalls ⟨0, 0, 0⟩ ⟨-200, -200, 400, 9605933 / 131072⟩ 5 =
      .nest ⟨-200, -200, 400, 9605933 / 131072⟩
        (Binary32.RecursiveSplitCalls ⟨0, 0, 0⟩ ⟨-200, -200, 10413233 / 65536, 9605933 / 131072⟩ 4)
        (Binary32.RecursiveSplitCalls ⟨0, 0, 0⟩ ⟨-(2300751 / 65536), -200, 15407951 / 65536, 9605933 / 131072⟩ 4) := by
  rw [show (5 : ℕ) = 4 + 1 from rfl, Binary32.RecursiveSplitCalls]
  norm_num [Binary32.Hash, abs_lt, b32o_r0, binary32_zero, b32o_r16, b32o_r17, b32o_r18, b32o_t0, b32o_t1, b32o_h1, b32o_r19, b32o_r20, b32o_r21, b32o_r22, b32o_r4, b32o_r5, b32o_r23, b32o_r24, b32o_r8, b32o_r25, b32o_r26, b32o_r27, b32o_r28, b32o_r29, b32o_r30, b32o_r31]

/-- The call at depth 4 along the branch: a split along x. -/
theorem b32o_split4 :
    Binary32.RecursiveSplitCalls ⟨0, 0, 0⟩ ⟨-(2300751 / 65536), -200, 15407951 / 65536, 9605933 / 131072⟩ 4 =
      .nest ⟨-(2300751 / 65536), -200, 15407951 / 65536, 9605933 / 131072⟩
        (Binary32.RecursiveSplitCalls ⟨0, 0, 0⟩ ⟨-(2300751 / 65536), -200, 8687327 / 65536, 9605933 / 131072⟩ 3)
        (Binary32.RecursiveSplitCalls ⟨0, 0, 0⟩ ⟨423737 / 4096, -200, 12654817 / 131072, 9605933 / 131072⟩ 3) := by
  rw [show (4 : ℕ) = 3 + 1 from rfl, Binary32.RecursiveSplitCalls]
  norm_num [Binary32.Hash, abs_lt, b32o_r32, b32o_r33, b32o_r16, b32o_r17, b32o_r18, b32o_t2, b32o_t1, b32o_h2, b32o_r34, b32o_r35, b32o_r36, b32o_r37, b32o_r4, b32o_r5, b32o_r38, b32o_r39, b32o_r8, b32o_r40, b32o_r41, b32o_r42, b32o_r43, b32o_r44, b32o_r45, b32o_r46]

/-- The call at depth 3 along the branch: a split along x. -/
theorem b32o_split3 :
    Binary32.RecursiveSplitCalls ⟨0, 0, 0⟩ ⟨423737 / 4096, -200, 12654817 / 131072, 9605933 / 131072⟩ 3 =
      .nest ⟨423737 / 4096, -200, 12654817 / 131072, 9605933 / 131072⟩
        (Binary32.RecursiveSplitCalls ⟨0, 0, 0⟩ ⟨423737 / 4096, -200, 12419999 / 262144, 9605933 / 131072⟩ 2)
        (Binary32.RecursiveSplitCalls ⟨0, 0, 0⟩ ⟨1284751 / 8192, -200, 11316771 / 262144, 9605933 / 131072⟩ 2) := by
  rw [show (3 : ℕ) = 2 + 1 from rfl, Binary32.RecursiveSplitCalls]
  norm_num [Binary32.Hash, abs_lt, b32o_r47, b32o_r48, b32o_r49, b32o_r16, b32o_r17, b32o_r18, b32o_t3, b32o_t1, b32o_h3, b32o_r50, b32o_r51, b32o_r52, b32o_r53, b32o_r4, b32o_r5, b32o_r54, b32o_r55, b32o_r8, b32o_r56, b32o_r57, b32o_r58, b32o_r59, b32o_r60, b32o_r61, b32o_r62]

/-- The call at depth 2 along the branch pushes its rectangle. -/
theorem b32o_leaf :
    Binary32.RecursiveSplitCalls ⟨0, 0, 0⟩ ⟨1284751 / 8192, -200, 11316771 / 262144, 9605933 / 131072⟩ 2 = .push ⟨1284751 / 8192, -200, 11316771 / 262144, 9605933 / 131072⟩ := by
  rw [show (2 : ℕ) = 1 + 1 from rfl, Binary32.RecursiveSplitCalls]
  norm_num [Binary32.Hash, abs_lt, b32o_r63, b32o_r64, b32o_r65, b32o_r16, b32o_r17, b32o_r18, b32o_t4, b32o_t1, b32o_h4, b32o_r66, b32o_r67, b32o_r68, b32o_r69, b32o_r4, b32o_r5, b32o_r70, b32o_r71, b32o_r8, b32o_r72, b32o_r73, b32o_r74]

/-! ### The chunk at the world origin in binary32 -/

/-- In binary32 `Hash(0, 0, 6)` is about -0.789. -/
theorem originChunk32_rootHash : Binary32.Hash 0 0 6 = -(6615863 / 8388608) := by
  rw [Binary32.Hash, b32o_h0]
  norm_num [b32o_r1, b32o_r2, b32o_r3]

/-- In binary32 the ratio `0.38f + (Hash(0, 0, 6) * 0.24f)` is about 0.1907. -/
theorem originChunk32_rootRatio : Binary32.ratio 0 0 6 = 12798911 / 67108864 := by
  rw [Binary32.ratio, originChunk32_rootHash]
  norm_num [b32o_r4, b32o_r5, b32o_r6, b32o_r7]

/-- The root split of the chunk at the world origin in binary32, along z. -/
theorem originChunk32_rootSplit :
    ((⟨-200, -200, 400, 400⟩ : Rect), (⟨-200, -200, 400, 9605933 / 131072⟩ : Rect),
        (⟨-200, -(15822035 / 131072), 400, 2627277 / 8192⟩ : Rect)) ∈
      (Binary32.RecursiveSplitCalls ⟨0, 0, 0⟩ ⟨-200, -200, 400, 400⟩ 6).splits := by
  rw [b32o_split6, SplitCall.splits_nest, Binary32.RecursiveSplitCalls_rect,
    Binary32.RecursiveSplitCalls_rect]
  exact List.mem_cons_self _ _

/-- In binary32 `roundedLeaf` is a leaf of the chunk at the world origin. -/
theorem roundedLeaf_mem :
    roundedLeaf ∈ Binary32.RecursiveSplit ⟨0, 0, 0⟩ ⟨-200, -200, 400, 400⟩ 6 := by
  rw [Binary32.RecursiveSplit, b32o_split6, SplitCall.blocks, List.mem_append]
  left
  rw [b32o_split5, SplitCall.blocks, List.mem_append]
  right
  rw [b32o_split4, SplitCall.blocks, List.mem_append]
  right
  rw [b32o_split3, SplitCall.blocks, List.mem_append]
  right
  rw [b32o_leaf, SplitCall.blocks, List.mem_singleton]
  rfl

/-- Counterexample to C1: in binary32 the chunk at the world origin has the leaf
`roundedLeaf`, which ends at `x + w = 52428803 / 262144`, about 200.0000114, beyond the high
edge 200 of the root rectangle: it does not lie inside the root rectangle. -/
theorem C1_counterexample :
    roundedLeaf ∈ Binary32.RecursiveSplit ⟨0, 0, 0⟩ ⟨-200, -200, 400, 400⟩ 6 ∧
      roundedLeaf.x + roundedLeaf.w = 52428803 / 262144 ∧
      200 < roundedLeaf.x + roundedLeaf.w ∧
      ¬ roundedLeaf.inside ⟨-200, -200, 400, 400⟩ := by
  refine ⟨roundedLeaf_mem, ?_, ?_, ?_⟩
  · norm_num [roundedLeaf]
  · norm_num [roundedLeaf]
  · intro h
    have h2 := h.2.1
    norm_num [roundedLeaf] at h2

/-- C1 (amended): in binary32, for every chunk origin, every leaf block of
`RecursiveSplit({-200, -200, 400, 400}, 6)` lies inside the root rectangle widened by
0.001 at its high edges (it starts at -200 or later and ends at 200.001 or earlier on both
axes), and no two leaves of the list share a point. -/
theorem C1_leaves_near_root_and_disjoint (chunkPos : Vector3) :
    (∀ b ∈ Binary32.RecursiveSplit chunkPos ⟨-200, -200, 400, 400⟩ 6,
        b.inside ⟨-200, -200, 400 + 1 / 1000, 400 + 1 / 1000⟩) ∧
      (Binary32.RecursiveSplit chunkPos ⟨-200, -200, 400, 400⟩ 6).Pairwise
        (fun a b => ¬ a.overlaps b) := by
  obtain ⟨h1, h2, -⟩ := Binary32.RecursiveSplitCalls_spec chunkPos 6 ⟨-200, -200, 400, 400⟩
    (le_refl _) (by norm_num) (by norm_num) (by norm_num) (by norm_num)
  refine ⟨?_, h2⟩
  intro b hb
  obtain ⟨k1, k2, k3, k4⟩ := h1 b hb
  norm_num at k1 k2 k3 k4
  refine ⟨k1, ?_, k3, ?_⟩
  · show b.x + b.w ≤ -200 + (400 + 1 / 1000)
    linarith
  · show b.z + b.h ≤ -200 + (400 + 1 / 1000)
    linarith

/-- Witness of C1 (amended): the leaf `roundedLeaf` of the chunk at the world origin, which
leaves the root rectangle, lies inside the widened one. -/
theorem C1_leaves_near_root_and_disjoint_witness :
    roundedLeaf ∈ Binary32.RecursiveSplit ⟨0, 0, 0⟩ ⟨-200, -200, 400, 400⟩ 6 ∧
      roundedLeaf.inside ⟨-200, -200, 400 + 1 / 1000, 400 + 1 / 1000⟩ :=
  ⟨roundedLeaf_mem, (C1_leaves_near_root_and_disjoint ⟨0, 0, 0⟩).1 roundedLeaf roundedLeaf_mem⟩

/-- Counterexample to C15: in binary32 the root split of the chunk at the world origin
(along z, ratio about 0.1907) gives the children `{-200, -200, 400, 73.28745}` and
`{-200, -120.71255, 400, 320.71252}`. The second child ends at `26214397 / 131072`, about
199.9999771, not at the high edge 200 of the parent, and the sizes sum to about
393.9999771, not to 394: the split does not tile the parent exactly, along either axis. -/
theorem C15_counterexample :
    ((⟨-200, -200, 400, 400⟩ : Rect), (⟨-200, -200, 400, 9605933 / 131072⟩ : Rect),
        (⟨-200, -(15822035 / 131072), 400, 2627277 / 8192⟩ : Rect)) ∈
      (Binary32.RecursiveSplitCalls ⟨0, 0, 0⟩ ⟨-200, -200, 400, 400⟩ 6).splits ∧
    ¬ tilesAlongX ⟨-200, -200, 400, 400⟩ ⟨-200, -200, 400, 9605933 / 131072⟩
        ⟨-200, -(15822035 / 131072), 400, 2627277 / 8192⟩ ∧
    ¬ tilesAlongZ ⟨-200, -200, 400, 400⟩ ⟨-200, -200, 400, 9605933 / 131072⟩
        ⟨-200, -(15822035 / 131072), 400, 2627277 / 8192⟩ ∧
    (-(15822035 / 131072) + 2627277 / 8192 : ℚ) = 26214397 / 131072 ∧
    (9605933 / 131072 + 2627277 / 8192 : ℚ) = 51642365 / 131072 := by
  refine ⟨originChunk32_rootSplit, ?_, ?_, by norm_num, by norm_num⟩
  · intro h
    have h3 := h.2.2.1
    norm_num at h3
  · intro h
    have h2 := h.2.1
    norm_num at h2

/-- C15 (amended): in binary32, for every chunk origin, every rectangle within the root
rectangle (from -200 to 200 on both axes) and every depth up to 6, each split made by
`RecursiveSplit(r, depth)` tiles its parent along the split axis up to `1/8192`: the first
child starts at the low edge of the parent, the second child ends within `1/8192` of its
high edge, the gap between the children is within `1/8192` of 6, their sizes along the
split axis sum to the size of the parent less 6 within `1/8192`, and both keep the position
and size of the parent on the other axis. -/
theorem C15_split_tiles_parent_within (chunkPos : Vector3) (r : Rect) (depth : Nat)
    (hd : depth ≤ 6) (hx : -200 ≤ r.x) (hxw : r.x + r.w ≤ 200) (hz : -200 ≤ r.z)
    (hzh : r.z + r.h ≤ 200) :
    ∀ s ∈ (Binary32.RecursiveSplitCalls chunkPos r depth).splits,
      tilesAlongXWithin (1 / 8192) s.1 s.2.1 s.2.2 ∨
        tilesAlongZWithin (1 / 8192) s.1 s.2.1 s.2.2 := by
  have hd6 : (depth : ℚ) ≤ 6 := by exact_mod_cast hd
  exact (Binary32.RecursiveSplitCalls_spec chunkPos depth r hd hx (by linarith) hz
    (by linarith)).2.2

/-- Witness of C15 (amended): the root split of the chunk at the world origin, which does
not tile exactly, tiles up to `1/8192`. -/
theorem C15_split_tiles_parent_within_witness :
    ((⟨-200, -200, 400, 400⟩ : Rect), (⟨-200, -200, 400, 9605933 / 131072⟩ : Rect),
        (⟨-200, -(15822035 / 131072), 400, 2627277 / 8192⟩ : Rect)) ∈
      (Binary32.RecursiveSplitCalls ⟨0, 0, 0⟩ ⟨-200, -200, 400, 400⟩ 6).splits ∧
    (tilesAlongXWithin (1 / 8192) ⟨-200, -200, 400, 400⟩ ⟨-200, -200, 400, 9605933 / 131072⟩
        ⟨-200, -(15822035 / 131072), 400, 2627277 / 8192⟩ ∨
      tilesAlongZWithin (1 / 8192) ⟨-200, -200, 400, 400⟩
        ⟨-200, -200, 400, 9605933 / 131072⟩
        ⟨-200, -(15822035 / 131072), 400, 2627277 / 8192⟩) :=
  ⟨originChunk32_rootSplit,
    C15_split_tiles_parent_within ⟨0, 0, 0⟩ ⟨-200, -200, 400, 400⟩ 6 (le_refl _) (by norm_num)
      (by norm_num) (by norm_num) (by norm_num) _ originChunk32_rootSplit⟩

/-- C16: in binary32 the root rectangle of the chunk at the world origin is split (at depth
6, along z) with `Hash(0, 0, 6)` about -0.789 at the ratio `12798911 / 67108864`, about
0.1907, which is below 0.38 and outside the band from 0.38 to 0.62: the first part gets
73.29 of the 400 units and the second 320.71. -/
theorem C16_ratio_below_band :
    Binary32.Hash 0 0 6 = -(6615863 / 8388608) ∧
      Binary32.ratio 0 0 6 = 12798911 / 67108864 ∧
      Binary32.ratio 0 0 6 < 0.38 ∧
      ¬ (0.38 ≤ Binary32.ratio 0 0 6 ∧ Binary32.ratio 0 0 6 ≤ 0.62) ∧
      Binary32.RecursiveSplitCalls ⟨0, 0, 0⟩ ⟨-200, -200, 400, 400⟩ 6 =
        .nest ⟨-200, -200, 400, 400⟩
          (Binary32.RecursiveSplitCalls ⟨0, 0, 0⟩ ⟨-200, -200, 400, 9605933 / 131072⟩ 5)
          (Binary32.RecursiveSplitCalls ⟨0, 0, 0⟩
            ⟨-200, -(15822035 / 131072), 400, 2627277 / 8192⟩ 5) := by
  refine ⟨originChunk32_rootHash, originChunk32_rootRatio, ?_, ?_, b32o_split6⟩
  · rw [originChunk32_rootRatio]
    norm_num
  · rw [originChunk32_rootRatio]
    norm_num

/-! ### The chunk at `(-400, 0, 0)`, along one branch

The root rectangle is square and `Hash(-400, 0, 6)` is about -0.436, so it splits along z at
ratio 0.275, first part 400 x 107.16. That part splits along x three times, each time
keeping the second part: `Hash(-400, -146, 5)` is about 0.088, ratio 0.401, second part
236.54 wide; `Hash(-318, -146, 4)` is about 0.452, ratio 0.489, second part 117.98 wide;
`Hash(-258, -146, 3)` is about 0.837, ratio 0.581, second part 46.43 wide. `Hash(-223, -146, 2)`
is about 0.282: a split along z at ratio 0.448, first part 46.43 x 44.97. That part is nearly
square and `Hash(-223, -177, 1)` is about 0.797: it would split along x at ratio 0.571, the
second part would measure 19.91, below 20, so it is pushed as a leaf. -/
/-- The first split of the chunk at `(-400, 0, 0)`: along z, keeping the first part. -/
theorem wireChunk_depth6 (b : Rect)
    (hb : b ∈ RecursiveSplit ⟨-400, 0, 0⟩
      ⟨-200, -200, 400, 3595636159 / 33554432⟩ 5) :
    b ∈ RecursiveSplit ⟨-400, 0, 0⟩
      ⟨-200, -200, 400, 400⟩ 6 := by
  have hbits : hashBits (-400) 0 6 = 1541733227 := by decide
  have t1 : toInt (-200 + 400 / 2 + -400) = -400 :=
    toInt_of_neg (by norm_num) (by norm_num) (by norm_num)
  have t2 : toInt (-200 + 400 / 2 + 0) = 0 := by norm_num [toInt]
  rw [show (6 : ℕ) = 5 + 1 from rfl, RecursiveSplit]
  simp only [t1, t2]
  norm_num [Hash, hbits, abs_lt]
  left
  exact hb

/-- The second split of the chunk at `(-400, 0, 0)`: along x, keeping the second part. -/
theorem wireChunk_depth5 (b : Rect)
    (hb : b ∈ RecursiveSplit ⟨-400, 0, 0⟩
      ⟨-(1225911039 / 33554432), -200, 7936797439 / 33554432, 3595636159 / 33554432⟩ 4) :
    b ∈ RecursiveSplit ⟨-400, 0, 0⟩
      ⟨-200, -200, 400, 3595636159 / 33554432⟩ 5 := by
  have hbits : hashBits (-400) (-146) 5 = 979062357 := by decide
  have t1 : toInt (-200 + 400 / 2 + -400) = -400 :=
    toInt_of_neg (by norm_num) (by norm_num) (by norm_num)
  have t2 : toInt (-200 + 3595636159 / 33554432 / 2 + 0) = -146 :=
    toInt_of_neg (by norm_num) (by norm_num) (by norm_num)
  rw [show (5 : ℕ) = 4 + 1 from rfl, RecursiveSplit]
  simp only [t1, t2]
  norm_num [Hash, hbits, abs_lt]
  right
  exact hb

/-- The third split of the chunk at `(-400, 0, 0)`: along x, keeping the second part. -/
theorem wireChunk_depth4 (b : Rect)
    (hb : b ∈ RecursiveSplit ⟨-400, 0, 0⟩
      ⟨36939982484349351091 / 450359962737049600, -200, 53132010063060568909 / 450359962737049600, 3595636159 / 33554432⟩ 3) :
    b ∈ RecursiveSplit ⟨-400, 0, 0⟩
      ⟨-(1225911039 / 33554432), -200, 7936797439 / 33554432, 3595636159 / 33554432⟩ 4 := by
  have hbits : hashBits (-318) (-146) 4 = 588115089 := by decide
  have t1 : toInt (-(1225911039 / 33554432) + 7936797439 / 33554432 / 2 + -400) = -318 :=
    toInt_of_neg (by norm_num) (by norm_num) (by norm_num)
  have t2 : toInt (-200 + 3595636159 / 33554432 / 2 + 0) = -146 :=
    toInt_of_neg (by norm_num) (by norm_num) (by norm_num)
  rw [show (4 : ℕ) = 3 + 1 from rfl, RecursiveSplit]
  simp only [t1, t2]
  norm_num [Hash, hbits, abs_lt]
  right
  exact hb

/-- The fourth split of the chunk at `(-400, 0, 0)`: along x, keeping the second part. -/
theorem wireChunk_depth3 (b : Rect)
    (hb : b ∈ RecursiveSplit ⟨-400, 0, 0⟩
      ⟨928254819350606261965490098773 / 6044629098073145873530880000, -200, 280671000264022912740685901227 / 6044629098073145873530880000, 3595636159 / 33554432⟩ 2) :
    b ∈ RecursiveSplit ⟨-400, 0, 0⟩
      ⟨36939982484349351091 / 450359962737049600, -200, 53132010063060568909 / 450359962737049600, 3595636159 / 33554432⟩ 3 := by
  have hbits : hashBits (-258) (-146) 3 = 174515613 := by decide
  have t1 : toInt (36939982484349351091 / 450359962737049600 + 53132010063060568909 / 450359962737049600 / 2 + -400) = -258 :=
    toInt_of_neg (by norm_num) (by norm_num) (by norm_num)
  have t2 : toInt (-200 + 3595636159 / 33554432 / 2 + 0) = -146 :=
    toInt_of_neg (by norm_num) (by norm_num) (by norm_num)
  rw [show (3 : ℕ) = 2 + 1 from rfl, RecursiveSplit]
  simp only [t1, t2]
  norm_num [Hash, hbits, abs_lt]
  right
  exact hb

/-- The fifth split of the chunk at `(-400, 0, 0)`: along z, keeping the first part. -/
theorem wireChunk_depth2 (b : Rect)
    (hb : b ∈ RecursiveSplit ⟨-400, 0, 0⟩
      wireLeaf 1) :
    b ∈ RecursiveSplit ⟨-400, 0, 0⟩
      ⟨928254819350606261965490098773 / 6044629098073145873530880000, -200, 280671000264022912740685901227 / 6044629098073145873530880000, 3595636159 / 33554432⟩ 2 := by
  have hbits : hashBits (-223) (-146) 2 = 771248181 := by decide
  have t1 : toInt (928254819350606261965490098773 / 6044629098073145873530880000 + 280671000264022912740685901227 / 6044629098073145873530880000 / 2 + -400) = -223 :=
    toInt_of_neg (by norm_num) (by norm_num) (by norm_num)
  have t2 : toInt (-200 + 3595636159 / 33554432 / 2 + 0) = -146 :=
    toInt_of_neg (by norm_num) (by norm_num) (by norm_num)
  unfold wireLeaf at hb
  rw [show (2 : ℕ) = 1 + 1 from rfl, RecursiveSplit]
  simp only [t1, t2]
  norm_num [Hash, hbits, abs_lt]
  left
  exact hb

/-- The first part of the fifth split is not split again: a part would be below 20. -/
theorem wireChunk_depth1 : wireLeaf ∈ RecursiveSplit ⟨-400, 0, 0⟩ wireLeaf 1 := by
  have hbits : hashBits (-223) (-177) 1 = 218241581 := by decide
  have t1 : toInt (928254819350606261965490098773 / 6044629098073145873530880000 + 280671000264022912740685901227 / 6044629098073145873530880000 / 2 + -400) = -223 :=
    toInt_of_neg (by norm_num) (by norm_num) (by norm_num)
  have t2 : toInt (-200 + 20250619760777979487 / 450359962737049600 / 2 + 0) = -177 :=
    toInt_of_neg (by norm_num) (by norm_num) (by norm_num)
  unfold wireLeaf
  rw [show (1 : ℕ) = 0 + 1 from rfl, RecursiveSplit]
  simp only [t1, t2]
  norm_num [Hash, hbits, abs_lt]

/-- The rectangle `wireLeaf` is a leaf block of the chunk at `(-400, 0, 0)`. -/
theorem wireLeaf_mem : wireLeaf ∈ RecursiveSplit ⟨-400, 0, 0⟩ ⟨-200, -200, 400, 400⟩ 6 :=
  wireChunk_depth6 _ (wireChunk_depth5 _ (wireChunk_depth4 _ (wireChunk_depth3 _
    (wireChunk_depth2 _ wireChunk_depth1))))

/-- C14 fails on the chunk at `(-400, 0, 0)`: `wireLeaf` is one of its leaf blocks; its
footprint spans x from about -246.43 to -200 in world coordinates. Its type value
`Hash(-223, 55, -177)` is about 0.267, so it is a slab, and `Hash(-223, 99, -177)` is about
0.782, so it has 3 cables. Cable 0 hangs at `wx = cx + (Hash(-223, 0, 100) - 0.5) * b.w`,
about `-223.22 - 1.459 * 46.43`, which is -290.96: its collider, a collider of
`GenerateChunk((-400, 0, 0))`, ends before -290, more than 43 units outside the
footprint. -/
theorem C14_cable_outside_footprint :
    wireLeaf ∈ RecursiveSplit ⟨-400, 0, 0⟩ ⟨-200, -200, 400, 400⟩ 6 ∧
      ∃ c ∈ blockCalls ⟨-400, 0, 0⟩ wireLeaf,
        c.collider ∈ (GenerateChunk ⟨-400, 0, 0⟩).colliders ∧
        c.collider.max.x < -290 ∧ -247 < wireLeaf.x + -400 ∧
        ¬ withinFootprint ⟨-400, 0, 0⟩ wireLeaf c.collider := by
  have e1 : toInt (centreX ⟨-400, 0, 0⟩ wireLeaf) = -223 :=
    toInt_of_neg (by norm_num [centreX, wireLeaf]) (by norm_num [centreX, wireLeaf])
      (by norm_num [centreX, wireLeaf])
  have e2 : toInt (centreZ ⟨-400, 0, 0⟩ wireLeaf) = -177 :=
    toInt_of_neg (by norm_num [centreZ, wireLeaf]) (by norm_num [centreZ, wireLeaf])
      (by norm_num [centreZ, wireLeaf])
  have hType : hashBits (-223) 55 (-177) = 786997277 := by decide
  have hWire : hashBits (-223) 99 (-177) = 233654357 := by decide
  have hX : hashBits (-223) 0 100 = 2103318989 := by decide
  have ht : typeValue ⟨-400, 0, 0⟩ wireLeaf = 1 - 786997277 / 1073741824 := by
    unfold typeValue
    rw [e1, e2, Hash, hType]
    norm_num
  have hfar : ¬ centreNear ⟨-400, 0, 0⟩ wireLeaf := by
    unfold centreNear
    rw [← spawnSafety_iff_sqrt]
    norm_num [spawnSafety, centreX, centreZ, wireLeaf]
  have hslab : firstMatch (typeValue ⟨-400, 0, 0⟩ wireLeaf) wireLeaf = some .slab := by
    rw [ht]
    norm_num [firstMatch, archetypeOrder, Archetype.condition, wireLeaf]
  obtain ⟨a, ha, hcalls⟩ := blockCalls_firstMatch ⟨-400, 0, 0⟩ wireLeaf hfar
  rw [hslab] at ha
  rw [← Option.some.inj ha, archetypeCalls_slab] at hcalls
  have hw : Hash (toInt (centreX ⟨-400, 0, 0⟩ wireLeaf)) 99
      (toInt (centreZ ⟨-400, 0, 0⟩ wireLeaf)) = 1 - 233654357 / 1073741824 := by
    rw [e1, e2, Hash, hWire]
    norm_num
  have hcount : toInt (Hash (toInt (centreX ⟨-400, 0, 0⟩ wireLeaf)) 99
      (toInt (centreZ ⟨-400, 0, 0⟩ wireLeaf)) * 5) = 3 := by
    rw [hw]
    exact toInt_of_nonneg (by norm_num) (by norm_num) (by norm_num)
  obtain ⟨c, hc, hcx, -, hsx, -⟩ := slabCalls_cable wireLeaf (centreX ⟨-400, 0, 0⟩ wireLeaf)
    (centreZ ⟨-400, 0, 0⟩ wireLeaf) (20 + identityValue ⟨-400, 0, 0⟩ wireLeaf * 100) 0
    (by rw [hw]; norm_num) (by rw [hcount]; decide)
  have hmem : c ∈ blockCalls ⟨-400, 0, 0⟩ wireLeaf := by
    rw [hcalls]
    exact hc
  have hmax : c.collider.max.x < -290 := by
    show c.pos.x + c.size.x / 2 < -290
    rw [hcx, hsx, e1]
    norm_num [Hash, hX, centreX, wireLeaf]
  have hlow : -247 < wireLeaf.x + -400 := by norm_num [wireLeaf]
  refine ⟨wireLeaf_mem, c, hmem,
    collider_mem_GenerateChunk ⟨-400, 0, 0⟩ wireLeaf c wireLeaf_mem hmem, hmax, hlow, ?_⟩
  intro hin
  have h3 : wireLeaf.x + -400 ≤ c.collider.min.x := hin.1
  have h4 : c.collider.min.x ≤ c.collider.max.x := by
    show c.pos.x - c.size.x / 2 ≤ c.pos.x + c.size.x / 2
    rw [hsx]
    linarith
  linarith

/-! ### Collisions during the integration in binary32 -/

/-- The ground check in binary32 leaves the position alone when the height is not below
the floor threshold. -/
theorem Binary32.groundCheck_position (f : FrameInput) (q : Player) (chunks : List Chunk)
    (hfloor : Binary32.playerHeight f ≤ q.position.y) :
    (Binary32.groundCheck f q chunks).position = q.position := by
  unfold Binary32.groundCheck
  by_cases hq : q.position.y ≤ Binary32.playerHeight f
  · rw [if_pos hq]
    have e : Binary32.playerHeight f = q.position.y := le_antisymm hfloor hq
    dsimp only
    split_ifs <;> exact Vector3.eta_eq _ _ _ _ rfl e rfl
  · rw [if_neg hq]
    dsimp only
    split_ifs <;> rfl

theorem b32p_r0 : binary32 (3 / 10) = 5033165 / 16777216 :=
  binary32_val (3 / 10) (-2) 10066330 (5033165 / 16777216) (by norm_num) (by norm_num) (by norm_num) (by norm_num)
    (by norm_num)

theorem b32p_r1 : binary32 (9 / 5) = 7549747 / 4194304 :=
  binary32_val (9 / 5) 0 15099494 (7549747 / 4194304) (by norm_num) (by norm_num) (by norm_num) (by norm_num)
    (by norm_num)

theorem b32p_r2 : binary32 (3 / 5) = 5033165 / 8388608 :=
  binary32_val (3 / 5) (-1) 10066330 (5033165 / 8388608) (by norm_num) (by norm_num) (by norm_num) (by norm_num)
    (by norm_num)

theorem b32p_r3 : binary32 (-(838861 / 16777216)) = -(838861 / 16777216) :=
  binary32_val (-(838861 / 16777216)) (-5) (-13421776) (-(838861 / 16777216)) (by norm_num) (by norm_num) (by norm_num) (by norm_num)
    (by norm_num)

theorem b32p_r4 : binary32 (13421773 / 4194304) = 13421773 / 4194304 :=
  binary32_val (13421773 / 4194304) 1 13421773 (13421773 / 4194304) (by norm_num) (by norm_num) (by norm_num) (by norm_num)
    (by norm_num)

theorem b32p_r5 : binary32 (-(5033165 / 16777216)) = -(5033165 / 16777216) :=
  binary32_val (-(5033165 / 16777216)) (-2) (-10066330) (-(5033165 / 16777216)) (by norm_num) (by norm_num) (by norm_num) (by norm_num)
    (by norm_num)

theorem b32p_r6 : binary32 (9227469 / 16777216) = 9227469 / 16777216 :=
  binary32_val (9227469 / 16777216) (-1) 9227469 (9227469 / 16777216) (by norm_num) (by norm_num) (by norm_num) (by norm_num)
    (by norm_num)

theorem b32p_r7 : binary32 (5033165 / 16777216) = 5033165 / 16777216 :=
  binary32_val (5033165 / 16777216) (-2) 10066330 (5033165 / 16777216) (by norm_num) (by norm_num) (by norm_num) (by norm_num)
    (by norm_num)

theorem b32p_r8 : binary32 (1 / 4) = 1 / 4 :=
  binary32_val (1 / 4) (-2) 8388608 (1 / 4) (by norm_num) (by norm_num) (by norm_num) (by norm_num)
    (by norm_num)

theorem b32p_r9 : binary32 5 = 5 :=
  binary32_val 5 2 10485760 5 (by norm_num) (by norm_num) (by norm_num) (by norm_num)
    (by norm_num)

theorem b32p_r10 : binary32 (1 / 16) = 1 / 16 :=
  binary32_val (1 / 16) (-4) 8388608 (1 / 16) (by norm_num) (by norm_num) (by norm_num) (by norm_num)
    (by norm_num)

theorem b32p_r11 : binary32 25 = 25 :=
  binary32_val 25 4 13107200 25 (by norm_num) (by norm_num) (by norm_num) (by norm_num)
    (by norm_num)

theorem b32p_r12 : binary32 (401 / 16) = 401 / 16 :=
  binary32_val (401 / 16) 4 13139968 (401 / 16) (by norm_num) (by norm_num) (by norm_num) (by norm_num)
    (by norm_num)

theorem b32p_r13 : binary32 (1 / 2) = 1 / 2 :=
  binary32_val (1 / 2) (-1) 8388608 (1 / 2) (by norm_num) (by norm_num) (by norm_num) (by norm_num)
    (by norm_num)

theorem b32p_r14 : binary32 (3 / 4) = 3 / 4 :=
  binary32_val (3 / 4) (-1) 12582912 (3 / 4) (by norm_num) (by norm_num) (by norm_num) (by norm_num)
    (by norm_num)

theorem b32p_r15 : binary32 (7549747 / 16777216) = 7549747 / 16777216 :=
  binary32_val (7549747 / 16777216) (-2) 15099494 (7549747 / 16777216) (by norm_num) (by norm_num) (by norm_num) (by norm_num)
    (by norm_num)

theorem b32p_r16 : binary32 (17616077 / 16777216) = 4404019 / 4194304 :=
  binary32_val (17616077 / 16777216) 0 8808038 (4404019 / 4194304) (by norm_num) (by norm_num) (by norm_num) (by norm_num)
    (by norm_num)

theorem b32p_r17 : binary32 (9 / 16) = 9 / 16 :=
  binary32_val (9 / 16) (-1) 9437184 (9 / 16) (by norm_num) (by norm_num) (by norm_num) (by norm_num)
    (by norm_num)

theorem b32p_r18 : binary32 (409 / 16) = 409 / 16 :=
  binary32_val (409 / 16) 4 13402112 (409 / 16) (by norm_num) (by norm_num) (by norm_num) (by norm_num)
    (by norm_num)

theorem b32p_r19 : binary32 (6710885 / 16777216) = 6710885 / 16777216 :=
  binary32_val (6710885 / 16777216) (-2) 13421770 (6710885 / 16777216) (by norm_num) (by norm_num) (by norm_num) (by norm_num)
    (by norm_num)

theorem b32p_r20 : binary32 (16777215 / 16777216) = 16777215 / 16777216 :=
  binary32_val (16777215 / 16777216) (-1) 16777215 (16777215 / 16777216) (by norm_num) (by norm_num) (by norm_num) (by norm_num)
    (by norm_num)

theorem b32p_r21 : binary32 (5872025 / 8388608) = 5872025 / 8388608 :=
  binary32_val (5872025 / 8388608) (-1) 11744050 (5872025 / 8388608) (by norm_num) (by norm_num) (by norm_num) (by norm_num)
    (by norm_num)

theorem b32p_r22 : binary32 (34480677600625 / 70368744177664) = 4110417 / 8388608 :=
  binary32_val (34480677600625 / 70368744177664) (-2) 16441668 (4110417 / 8388608) (by norm_num) (by norm_num) (by norm_num) (by norm_num)
    (by norm_num)

theorem b32p_r23 : binary32 (213825617 / 8388608) = 13364101 / 524288 :=
  binary32_val (213825617 / 8388608) 4 13364101 (13364101 / 524288) (by norm_num) (by norm_num) (by norm_num) (by norm_num)
    (by norm_num)

theorem b32p_r24 : binary32 (13364101 / 524288) = 13364101 / 524288 :=
  binary32_val (13364101 / 524288) 4 13364101 (13364101 / 524288) (by norm_num) (by norm_num) (by norm_num) (by norm_num)
    (by norm_num)

theorem b32p_r25 : binary32 (8388609 / 16777216) = 8388609 / 16777216 :=
  binary32_val (8388609 / 16777216) (-1) 8388609 (8388609 / 16777216) (by norm_num) (by norm_num) (by norm_num) (by norm_num)
    (by norm_num)

theorem b32p_r26 : binary32 (20132659 / 16777216) = 5033165 / 4194304 :=
  binary32_val (20132659 / 16777216) 0 10066330 (5033165 / 4194304) (by norm_num) (by norm_num) (by norm_num) (by norm_num)
    (by norm_num)

theorem b32p_r27 : binary32 (15099495 / 16777216) = 15099495 / 16777216 :=
  binary32_val (15099495 / 16777216) (-1) 15099495 (15099495 / 16777216) (by norm_num) (by norm_num) (by norm_num) (by norm_num)
    (by norm_num)

theorem b32p_r28 : binary32 (25165825 / 16777216) = 3 / 2 :=
  binary32_val (25165825 / 16777216) 0 12582912 (3 / 2) (by norm_num) (by norm_num) (by norm_num) (by norm_num)
    (by norm_num)

theorem b32p_r29 : binary32 (5033165 / 4194304) = 5033165 / 4194304 :=
  binary32_val (5033165 / 4194304) 0 10066330 (5033165 / 4194304) (by norm_num) (by norm_num) (by norm_num) (by norm_num)
    (by norm_num)

theorem b32p_r30 : binary32 (25332749917225 / 17592186044416) = 3019899 / 2097152 :=
  binary32_val (25332749917225 / 17592186044416) 0 12079596 (3019899 / 2097152) (by norm_num) (by norm_num) (by norm_num) (by norm_num)
    (by norm_num)

theorem b32p_r31 : binary32 (55448699 / 2097152) = 13862175 / 524288 :=
  binary32_val (55448699 / 2097152) 4 13862175 (13862175 / 524288) (by norm_num) (by norm_num) (by norm_num) (by norm_num)
    (by norm_num)

theorem b32p_r32 : binary32 (13862175 / 524288) = 13862175 / 524288 :=
  binary32_val (13862175 / 524288) 4 13862175 (13862175 / 524288) (by norm_num) (by norm_num) (by norm_num) (by norm_num)
    (by norm_num)

theorem b32p_r33 : binary32 (11744051 / 16777216) = 11744051 / 16777216 :=
  binary32_val (11744051 / 16777216) (-1) 11744051 (11744051 / 16777216) (by norm_num) (by norm_num) (by norm_num) (by norm_num)
    (by norm_num)

theorem b32p_r34 : binary32 (3355443 / 8388608) = 3355443 / 8388608 :=
  binary32_val (3355443 / 8388608) (-2) 13421772 (3355443 / 8388608) (by norm_num) (by norm_num) (by norm_num) (by norm_num)
    (by norm_num)

theorem b32p_r35 : binary32 1 = 1 :=
  binary32_val 1 0 8388608 1 (by norm_num) (by norm_num) (by norm_num) (by norm_num)
    (by norm_num)

theorem b32p_r36 : binary32 (137922733890601 / 281474976710656) = 16441671 / 33554432 :=
  binary32_val (137922733890601 / 281474976710656) (-2) 16441671 (16441671 / 33554432) (by norm_num) (by norm_num) (by norm_num) (by norm_num)
    (by norm_num)

theorem b32p_r37 : binary32 (855302471 / 33554432) = 13364101 / 524288 :=
  binary32_val (855302471 / 33554432) 4 13364101 (13364101 / 524288) (by norm_num) (by norm_num) (by norm_num) (by norm_num)
    (by norm_num)

theorem b32p_r38 : binary32 (-(3355443 / 4194304)) = -(3355443 / 4194304) :=
  binary32_val (-(3355443 / 4194304)) (-1) (-13421772) (-(3355443 / 4194304)) (by norm_num) (by norm_num) (by norm_num) (by norm_num)
    (by norm_num)

theorem b32p_r39 : binary32 (7549747 / 4194304) = 7549747 / 4194304 :=
  binary32_val (7549747 / 4194304) 0 15099494 (7549747 / 4194304) (by norm_num) (by norm_num) (by norm_num) (by norm_num)
    (by norm_num)

theorem b32p_r40 : binary32 (56998679764009 / 17592186044416) = 1698693 / 524288 :=
  binary32_val (56998679764009 / 17592186044416) 1 13589544 (1698693 / 524288) (by norm_num) (by norm_num) (by norm_num) (by norm_num)
    (by norm_num)

theorem b32p_r41 : binary32 (1698693 / 524288) = 1698693 / 524288 :=
  binary32_val (1698693 / 524288) 1 13589544 (1698693 / 524288) (by norm_num) (by norm_num) (by norm_num) (by norm_num)
    (by norm_num)

/-! ### Frames in front of a wall and under the beam, in binary32 -/

/-- A revert that does not restore the coordinate, in binary32: the glider at
`x = 5872025 / 8388608` (one binary32 step below `0.7f`) with the speed
`8388609 / 1048576` (about 8.000001) and `dt = 1/16`. At the start the player box ends at
`16777215 / 16777216`, just short of the wall at 1. The X axis advances by `0.50000006` to
`1.2000000477`, rounded to `10066330 / 8388608`, where the box overlaps the wall; the
revert subtracts `0.50000006` and gives `11744051 / 16777216`, which is `0.7f` and not
the starting coordinate. There the box ends at `0.7f + 0.3f = 1` and touches the wall: the
player started clear of every collider and ends the frame in contact with one, with the
height 5 far above the floor threshold. -/
theorem Binary32.revert_misses_start :
    Binary32.collides (glider (5872025 / 8388608) (8388609 / 1048576)).position
        [chunkOf [wall]] = false ∧
      (Binary32.integrateX (glider (5872025 / 8388608) (8388609 / 1048576)) [chunkOf [wall]]
        (1 / 16)).position.x = 11744051 / 16777216 ∧
      (Binary32.integration idleFrame (glider (5872025 / 8388608) (8388609 / 1048576))
        [chunkOf [wall]] (1 / 16)).position = ⟨11744051 / 16777216, 5, 0⟩ ∧
      Binary32.collides (Binary32.integration idleFrame
        (glider (5872025 / 8388608) (8388609 / 1048576)) [chunkOf [wall]] (1 / 16)).position
        [chunkOf [wall]] = true := by
  have eX : Binary32.integrateX (glider (5872025 / 8388608) (8388609 / 1048576))
      [chunkOf [wall]] (1 / 16) = glider (11744051 / 16777216) 0 := by
    norm_num [Binary32.integrateX, glider, walker, Binary32.collides, Binary32.CheckCollision,
      Binary32.scanChunks, Binary32.distanceExceeds300, hitsAnyBox, CheckCollisionBoxes,
      intervalsMeet, chunkOf, wall, stepHeight, binary32_zero, b32p_r0, b32p_r1, b32p_r2, b32p_r3, b32p_r4, b32p_r5, b32p_r6, b32p_r7, b32p_r8, b32p_r9, b32p_r10, b32p_r11, b32p_r12, b32p_r13, b32p_r14, b32p_r15, b32p_r16, b32p_r17, b32p_r18, b32p_r19, b32p_r20, b32p_r21, b32p_r22, b32p_r23, b32p_r24, b32p_r25, b32p_r26, b32p_r27, b32p_r28, b32p_r29, b32p_r30, b32p_r31, b32p_r32, b32p_r33, b32p_r34, b32p_r35, b32p_r36, b32p_r37]
  have eZ : Binary32.integrateZ (glider (11744051 / 16777216) 0) [chunkOf [wall]] (1 / 16) =
      glider (11744051 / 16777216) 0 := by
    norm_num [Binary32.integrateZ, glider, walker, Binary32.collides, Binary32.CheckCollision,
      Binary32.scanChunks, Binary32.distanceExceeds300, hitsAnyBox, CheckCollisionBoxes,
      intervalsMeet, chunkOf, wall, stepHeight, binary32_zero, b32p_r0, b32p_r1, b32p_r2, b32p_r3, b32p_r4, b32p_r5, b32p_r6, b32p_r7, b32p_r8, b32p_r9, b32p_r10, b32p_r11, b32p_r12, b32p_r13, b32p_r14, b32p_r15, b32p_r16, b32p_r17, b32p_r18, b32p_r19, b32p_r20, b32p_r21, b32p_r22, b32p_r23, b32p_r24, b32p_r25, b32p_r26, b32p_r27, b32p_r28, b32p_r29, b32p_r30, b32p_r31, b32p_r32, b32p_r33, b32p_r34, b32p_r35, b32p_r36, b32p_r37]
  have eY : Binary32.integrateY (glider (11744051 / 16777216) 0) [chunkOf [wall]] (1 / 16) =
      glider (11744051 / 16777216) 0 := by
    norm_num [Binary32.integrateY, glider, walker, Binary32.collides, Binary32.CheckCollision,
      Binary32.scanChunks, Binary32.distanceExceeds300, hitsAnyBox, CheckCollisionBoxes,
      intervalsMeet, chunkOf, wall, stepHeight, binary32_zero, b32p_r0, b32p_r1, b32p_r2, b32p_r3, b32p_r4, b32p_r5, b32p_r6, b32p_r7, b32p_r8, b32p_r9, b32p_r10, b32p_r11, b32p_r12, b32p_r13, b32p_r14, b32p_r15, b32p_r16, b32p_r17, b32p_r18, b32p_r19, b32p_r20, b32p_r21, b32p_r22, b32p_r23, b32p_r24, b32p_r25, b32p_r26, b32p_r27, b32p_r28, b32p_r29, b32p_r30, b32p_r31, b32p_r32, b32p_r33, b32p_r34, b32p_r35, b32p_r36, b32p_r37]
  have hpos : (Binary32.integration idleFrame (glider (5872025 / 8388608) (8388609 / 1048576))
      [chunkOf [wall]] (1 / 16)).position = ⟨11744051 / 16777216, 5, 0⟩ := by
    rw [Binary32.integration, Binary32.groundCheck_position, Binary32.integrated, eX, eZ, eY]
    · rfl
    · rw [Binary32.integrated, eX, eZ, eY]
      norm_num [Binary32.playerHeight, idleFrame, glider, b32p_r0, b32p_r1, b32p_r2, b32p_r3, b32p_r4, b32p_r5, b32p_r6, b32p_r7, b32p_r8, b32p_r9, b32p_r10, b32p_r11, b32p_r12, b32p_r13, b32p_r14, b32p_r15, b32p_r16, b32p_r17, b32p_r18, b32p_r19, b32p_r20, b32p_r21, b32p_r22, b32p_r23, b32p_r24, b32p_r25, b32p_r26, b32p_r27, b32p_r28, b32p_r29, b32p_r30, b32p_r31, b32p_r32, b32p_r33, b32p_r34, b32p_r35, b32p_r36, b32p_r37]
  refine ⟨?_, ?_, hpos, ?_⟩
  · norm_num [glider, walker, Binary32.collides, Binary32.CheckCollision,
      Binary32.scanChunks, Binary32.distanceExceeds300, hitsAnyBox, CheckCollisionBoxes,
      intervalsMeet, chunkOf, wall, binary32_zero, b32p_r0, b32p_r1, b32p_r2, b32p_r3, b32p_r4, b32p_r5, b32p_r6, b32p_r7, b32p_r8, b32p_r9, b32p_r10, b32p_r11, b32p_r12, b32p_r13, b32p_r14, b32p_r15, b32p_r16, b32p_r17, b32p_r18, b32p_r19, b32p_r20, b32p_r21, b32p_r22, b32p_r23, b32p_r24, b32p_r25, b32p_r26, b32p_r27, b32p_r28, b32p_r29, b32p_r30, b32p_r31, b32p_r32, b32p_r33, b32p_r34, b32p_r35, b32p_r36, b32p_r37]
  · rw [eX]
    rfl
  · rw [hpos]
    norm_num [Binary32.collides, Binary32.CheckCollision,
      Binary32.scanChunks, Binary32.distanceExceeds300, hitsAnyBox, CheckCollisionBoxes,
      intervalsMeet, chunkOf, wall, binary32_zero, b32p_r0, b32p_r1, b32p_r2, b32p_r3, b32p_r4, b32p_r5, b32p_r6, b32p_r7, b32p_r8, b32p_r9, b32p_r10, b32p_r11, b32p_r12, b32p_r13, b32p_r14, b32p_r15, b32p_r16, b32p_r17, b32p_r18, b32p_r19, b32p_r20, b32p_r21, b32p_r22, b32p_r23, b32p_r24, b32p_r25, b32p_r26, b32p_r27, b32p_r28, b32p_r29, b32p_r30, b32p_r31, b32p_r32, b32p_r33, b32p_r34, b32p_r35, b32p_r36, b32p_r37]

/-- The floor clamp in binary32: the player crouching at rest under the beam (head at 1.0,
collision box from -0.8 to 1.0, clear of the beam at 1.5 to 1.7) in a frame in which left
control is no longer held. No axis moves; the integrated height 1.0 is below the threshold
`1.8f`, the floor clamp sets the height to `1.8f` without a collision test, and the box
from 0 to `1.8f` overlaps the beam. -/
theorem Binary32.floor_clamp_enters_beam :
    Binary32.collides croucher.position [chunkOf [beam]] = false ∧
      (Binary32.integrated croucher [chunkOf [beam]] (1 / 16)).position = ⟨0, 1, 0⟩ ∧
      (Binary32.integration idleFrame croucher [chunkOf [beam]] (1 / 16)).position =
        ⟨0, 7549747 / 4194304, 0⟩ ∧
      Binary32.collides (Binary32.integration idleFrame croucher [chunkOf [beam]]
        (1 / 16)).position [chunkOf [beam]] = true := by
  have eX : Binary32.integrateX croucher [chunkOf [beam]] (1 / 16) = croucher := by
    norm_num [Binary32.integrateX, croucher, walker, Binary32.collides, Binary32.CheckCollision,
      Binary32.scanChunks, Binary32.distanceExceeds300, hitsAnyBox, CheckCollisionBoxes,
      intervalsMeet, chunkOf, beam, stepHeight, binary32_zero, b32p_r0, b32p_r1, b32p_r2, b32p_r3, b32p_r4, b32p_r5, b32p_r6, b32p_r7, b32p_r8, b32p_r9, b32p_r10, b32p_r11, b32p_r12, b32p_r13, b32p_r14, b32p_r15, b32p_r16, b32p_r17, b32p_r18, b32p_r19, b32p_r20, b32p_r21, b32p_r22, b32p_r23, b32p_r24, b32p_r25, b32p_r26, b32p_r27, b32p_r28, b32p_r29, b32p_r30, b32p_r31, b32p_r32, b32p_r33, b32p_r34, b32p_r35, b32p_r36, b32p_r37, b32p_r38, b32p_r39, b32p_r40, b32p_r41]
  have eZ : Binary32.integrateZ croucher [chunkOf [beam]] (1 / 16) = croucher := by
    norm_num [Binary32.integrateZ, croucher, walker, Binary32.collides, Binary32.CheckCollision,
      Binary32.scanChunks, Binary32.distanceExceeds300, hitsAnyBox, CheckCollisionBoxes,
      intervalsMeet, chunkOf, beam, stepHeight, binary32_zero, b32p_r0, b32p_r1, b32p_r2, b32p_r3, b32p_r4, b32p_r5, b32p_r6, b32p_r7, b32p_r8, b32p_r9, b32p_r10, b32p_r11, b32p_r12, b32p_r13, b32p_r14, b32p_r15, b32p_r16, b32p_r17, b32p_r18, b32p_r19, b32p_r20, b32p_r21, b32p_r22, b32p_r23, b32p_r24, b32p_r25, b32p_r26, b32p_r27, b32p_r28, b32p_r29, b32p_r30, b32p_r31, b32p_r32, b32p_r33, b32p_r34, b32p_r35, b32p_r36, b32p_r37, b32p_r38, b32p_r39, b32p_r40, b32p_r41]
  have eY : Binary32.integrateY croucher [chunkOf [beam]] (1 / 16) = croucher := by
    norm_num [Binary32.integrateY, croucher, walker, Binary32.collides, Binary32.CheckCollision,
      Binary32.scanChunks, Binary32.distanceExceeds300, hitsAnyBox, CheckCollisionBoxes,
      intervalsMeet, chunkOf, beam, stepHeight, binary32_zero, b32p_r0, b32p_r1, b32p_r2, b32p_r3, b32p_r4, b32p_r5, b32p_r6, b32p_r7, b32p_r8, b32p_r9, b32p_r10, b32p_r11, b32p_r12, b32p_r13, b32p_r14, b32p_r15, b32p_r16, b32p_r17, b32p_r18, b32p_r19, b32p_r20, b32p_r21, b32p_r22, b32p_r23, b32p_r24, b32p_r25, b32p_r26, b32p_r27, b32p_r28, b32p_r29, b32p_r30, b32p_r31, b32p_r32, b32p_r33, b32p_r34, b32p_r35, b32p_r36, b32p_r37, b32p_r38, b32p_r39, b32p_r40, b32p_r41]
  have hpos : (Binary32.integration idleFrame croucher [chunkOf [beam]] (1 / 16)).position =
      ⟨0, 7549747 / 4194304, 0⟩ := by
    rw [Binary32.integration, Binary32.integrated, eX, eZ, eY]
    norm_num [Binary32.groundCheck, Binary32.playerHeight, idleFrame, croucher, walker,
      b32p_r0, b32p_r1, b32p_r2, b32p_r3, b32p_r4, b32p_r5, b32p_r6, b32p_r7, b32p_r8, b32p_r9, b32p_r10, b32p_r11, b32p_r12, b32p_r13, b32p_r14, b32p_r15, b32p_r16, b32p_r17, b32p_r18, b32p_r19, b32p_r20, b32p_r21, b32p_r22, b32p_r23, b32p_r24, b32p_r25, b32p_r26, b32p_r27, b32p_r28, b32p_r29, b32p_r30, b32p_r31, b32p_r32, b32p_r33, b32p_r34, b32p_r35, b32p_r36, b32p_r37, b32p_r38, b32p_r39, b32p_r40, b32p_r41]
  refine ⟨?_, ?_, hpos, ?_⟩
  · norm_num [croucher, walker, Binary32.collides, Binary32.CheckCollision,
      Binary32.scanChunks, Binary32.distanceExceeds300, hitsAnyBox, CheckCollisionBoxes,
      intervalsMeet, chunkOf, beam, binary32_zero, b32p_r0, b32p_r1, b32p_r2, b32p_r3, b32p_r4, b32p_r5, b32p_r6, b32p_r7, b32p_r8, b32p_r9, b32p_r10, b32p_r11, b32p_r12, b32p_r13, b32p_r14, b32p_r15, b32p_r16, b32p_r17, b32p_r18, b32p_r19, b32p_r20, b32p_r21, b32p_r22, b32p_r23, b32p_r24, b32p_r25, b32p_r26, b32p_r27, b32p_r28, b32p_r29, b32p_r30, b32p_r31, b32p_r32, b32p_r33, b32p_r34, b32p_r35, b32p_r36, b32p_r37, b32p_r38, b32p_r39, b32p_r40, b32p_r41]
  · rw [Binary32.integrated, eX, eZ, eY]
    norm_num [croucher, walker]
  · rw [hpos]
    norm_num [Binary32.collides, Binary32.CheckCollision,
      Binary32.scanChunks, Binary32.distanceExceeds300, hitsAnyBox, CheckCollisionBoxes,
      intervalsMeet, chunkOf, beam, binary32_zero, b32p_r0, b32p_r1, b32p_r2, b32p_r3, b32p_r4, b32p_r5, b32p_r6, b32p_r7, b32p_r8, b32p_r9, b32p_r10, b32p_r11, b32p_r12, b32p_r13, b32p_r14, b32p_r15, b32p_r16, b32p_r17, b32p_r18, b32p_r19, b32p_r20, b32p_r21, b32p_r22, b32p_r23, b32p_r24, b32p_r25, b32p_r26, b32p_r27, b32p_r28, b32p_r29, b32p_r30, b32p_r31, b32p_r32, b32p_r33, b32p_r34, b32p_r35, b32p_r36, b32p_r37, b32p_r38, b32p_r39, b32p_r40, b32p_r41]

end BrutalistVoid
